import Mathlib

/-!
# ArinCapture3D: the 3-pass depth/stereo compute pipeline and its scheduler

Shallow embedding of

* `src/src/3PassShader.cpp`  (HLSL passes `CSDepthRaw`, `CSDepthSmooth`, `CSParallaxSbs`),
* `src/src/Renderer.cpp` / `src/src/Renderer.h` (`Init`, resource lifecycle, setters, `Render`),
* `src/src/DxgiCrop.cpp`, `src/src/CaptureDXGI.cpp`, `src/src/CaptureWGC.cpp` (crop update,
  `GetFrame` / `ReleaseFrame`),
* `src/src/main.cpp` (`RenderOneFrame`, the paced message loop).

Modelling conventions.

* HLSL `float` and C++ `float` are modelled by exact rationals `ℚ`; rounding, infinities and
  NaN are outside the model.
* HLSL `uint` is `Nat` and `int` is `Int`; every integer expression that is modelled stays far
  below `2^31` for texture sizes Direct3D accepts, so no wrap-around occurs.
* The HLSL intrinsic `pow` has no rational closed form.  It is a parameter `pw` of every
  definition that uses it; properties of `pow` that a proof needs are explicit hypotheses.
* Texture reads (`Load`) and sampler reads (`SampleLevel`) are functions passed as arguments.
* The shader string `kThreePassHlsl` is not a well-formed HLSL program at three places: line
  161 `float dark_push = pow(1.0 - g_soft, 1.15;` never closes the call, lines 238 and 239
  both declare `float prev`, and line 288 loads from `depthSmoothTex`, a name the string does
  not declare.  None of these lines is completed here.  The value each of them
  was to give to its local (`dark_push`, `prev`, `depth`) is an argument of the definition of
  its pass, and the other lines of the pass are embedded as they are written.
* `D3DCompile` rejects the string, so `Renderer::Init` leaves `csDepthRaw_`, `csDepthSmooth_`
  and `csParallaxSbs_` null (`Renderer.InitShaders`).  `Render` itself is modelled for arbitrary
  shader objects (`ComputeShaders`): what a dispatched object stores is an input of `Render`.
-/

namespace ArinCapture3D

/-! ## HLSL intrinsics -/

/-- HLSL `saturate(x)`: clamp to `[0,1]`. -/
def saturate (x : ℚ) : ℚ := max 0 (min x 1)

/-- HLSL `clamp(x, lo, hi) = min(max(x, lo), hi)`. -/
def clamp (x lo hi : ℚ) : ℚ := min (max x lo) hi

/-- HLSL `lerp(a, b, t) = a + t * (b - a)`. -/
def lerp (a b t : ℚ) : ℚ := a + t * (b - a)

/-- HLSL `smoothstep(e0, e1, x)`: Hermite interpolation of `saturate((x - e0) / (e1 - e0))`. -/
def smoothstep (e0 e1 x : ℚ) : ℚ :=
  let t := saturate ((x - e0) / (e1 - e0))
  t * t * (3 - 2 * t)

/-- HLSL `float4` as used for colours. -/
abbrev Float4 := ℚ × ℚ × ℚ × ℚ

/-- HLSL `float2`. -/
abbrev Float2 := ℚ × ℚ

/-- The constant buffer `CSParams` (register `b0`). -/
structure CSParams where
  outWidth : Nat
  outHeight : Nat
  mode3d : Nat
  zoomLevel : Int
  parallaxPx : ℚ
  frame : ℚ
  cropOffset : Float2
  cropScale : Float2

/-- Outputs of the helper `EyeMapping`. -/
structure Eye where
  rightEye : Bool
  localX : Nat
  viewW : Nat
  uvEye : Float2

/-- The helper `EyeMapping(gid, out rightEye, out localX, out viewW, out uvEye)`. -/
def EyeMapping (P : CSParams) (gid : Nat × Nat) : Eye :=
  let leftW := P.outWidth / 2
  let rightW := P.outWidth - leftW
  let rightEye := decide (gid.1 ≥ leftW)
  let viewW := if rightEye then rightW else leftW
  let localX := if rightEye then gid.1 - leftW else gid.1
  let u := ((localX : ℚ) + 1 / 2) / ((max 1 viewW : Nat) : ℚ)
  let v := ((gid.2 : ℚ) + 1 / 2) / ((max 1 P.outHeight : Nat) : ℚ)
  { rightEye := rightEye, localX := localX, viewW := viewW, uvEye := (u, v) }

/-! ## Pass 1: `CSDepthRaw`

Line 161, `float dark_push = pow(1.0 - g_soft, 1.15;`, is not a well-formed declaration: the
call is never closed.  The local `dark_push` is used once, on line 194; its value is the
argument `dark_push` of the definitions below.  Lines 111-158 and 163-215 are embedded as
written. -/

/-- The value `depth` of `CSDepthRaw` right before the final `saturate`, as a function of the
five luminance taps (lines 131-158 and 163-212) and of the value of the local `dark_push`. -/
def depthRawValue (pw : ℚ → ℚ → ℚ) (dark_push : ℚ) (gC gL gR gU gD : ℚ) : ℚ :=
  let c := max (max |gC - gL| |gC - gR|) (max |gC - gU| |gC - gD|)
  -- structure protection mask
  let structure_ := smoothstep (12 / 100) (35 / 100) c
  let depth_aggression := lerp (55 / 100) (35 / 100) structure_
  -- 5-tap cross smoothing
  let g_avg := (gC + gL + gR + gU + gD) * (2 / 10)
  let w := 1 - smoothstep (5 / 100) (25 / 100) c
  let g_soft := lerp gC g_avg w
  -- stronger edge softening
  let soften := smoothstep (10 / 100) (35 / 100) c
  let g_edge_avg := (gC + gL + gR + gU + gD) * (2 / 10)
  let g_soft := lerp g_soft g_edge_avg (soften * (90 / 100))
  -- toroidal grayscale field
  let mid_gray : ℚ := 1 / 2
  let dist := |g_soft - mid_gray|
  let torus := 1 - smoothstep 0 (25 / 1000) dist
  let g_soft := lerp g_soft mid_gray (torus * (50 / 100))
  -- specular light pop
  let highlight := smoothstep (78 / 100) (95 / 100) g_soft
  let contrast := smoothstep (12 / 100) (32 / 100) c
  let spec_pop := highlight * contrast
  let g_soft := lerp g_soft (g_soft * (92 / 100)) (spec_pop * (15 / 100))
  -- curve layers
  let t := saturate g_soft
  let b_near1 := pw t (22 / 100)
  let b_near2 := pw t (50 / 100)
  let b_mid := pw t (90 / 100)
  let b_far1 := pw (1 - t) (95 / 100)
  let b_far2 := pw (1 - t) (135 / 100)
  let w_near1 := smoothstep 0 (40 / 100) t
  let w_near2 := smoothstep (10 / 100) (60 / 100) t
  let w_mid := smoothstep (20 / 100) (80 / 100) t
  let w_far1 := smoothstep (15 / 100) (85 / 100) (1 - t)
  let w_far2 := smoothstep (35 / 100) 1 (1 - t)
  let w_sum := w_near1 + w_near2 + w_mid + w_far1 + w_far2 + 1 / 1000000
  let d_near1 := b_near1
  let d_near2 := b_near2
  let d_mid := b_mid
  let d_far1 := 1 - b_far1
  let d_far2 := 1 - b_far2
  let curve_blend :=
    (d_near1 * w_near1 + d_near2 * w_near2 + d_mid * w_mid + d_far1 * w_far1 + d_far2 * w_far2)
      / w_sum
  -- depth shaping using blended curve
  let depth := lerp curve_blend dark_push (1 - g_soft)
  let depth := (depth - 1 / 2) * depth_aggression + 1 / 2
  let depth := lerp depth curve_blend (18 / 1000)
  let depth := (depth - 1 / 2) * depth_aggression + 1 / 2
  -- ripple reduction
  let lc_soft := smoothstep (30 / 1000) (4 / 1000) c
  let depth := depth + lc_soft * (1 / 1000000)
  -- bright noise dampening
  let noise_energy := c * g_soft
  let noise_mask := smoothstep (35 / 100) (75 / 100) noise_energy
  let depth := lerp depth (depth * (20 / 100)) (noise_mask * (18 / 100))
  -- global depth boost
  let depth_mid : ℚ := 1 / 2
  let boost : ℚ := 118 / 100
  (depth - depth_mid) * boost + depth_mid

/-- The five sample coordinates of `CSDepthRaw` (centre, left, right, up, down), lines 118-129. -/
def depthRawTaps (P : CSParams) (gid : Nat × Nat) : Float2 × Float2 × Float2 × Float2 × Float2 :=
  let e := EyeMapping P gid
  let uv0 : Float2 := (P.cropOffset.1 + e.uvEye.1 * P.cropScale.1,
                       P.cropOffset.2 + e.uvEye.2 * P.cropScale.2)
  let uvStep : Float2 := (P.cropScale.1 / ((max 1 e.viewW : Nat) : ℚ),
                          P.cropScale.2 / ((max 1 P.outHeight : Nat) : ℚ))
  (uv0, (uv0.1 + -uvStep.1, uv0.2 + 0), (uv0.1 + uvStep.1, uv0.2 + 0),
    (uv0.1 + 0, uv0.2 + -uvStep.2), (uv0.1 + 0, uv0.2 + uvStep.2))

/-- Lines 228-236: the reshaping of the raw depth (gamma, contrast stretch, partial ease). -/
def reshapeDepth (pw : ℚ → ℚ → ℚ) (depth : ℚ) : ℚ :=
  let depth := saturate depth
  let d := pw depth (65 / 100)
  let mid : ℚ := 1 / 2
  let d := (d - mid) * (220 / 100) + mid
  let d := saturate d
  lerp d (d * d * (3 - 2 * d)) (20 / 100)

/-- Lines 242-248: the value `temporal`, from the history value `prev` and the reshaped
depth `depth`. -/
def temporalClamp (prev depth : ℚ) : ℚ :=
  let blended := lerp prev depth (28 / 100)
  let maxDelta : ℚ := 5 / 100
  let delta := blended - prev
  let delta := clamp delta (-maxDelta) maxDelta
  prev + delta

/-- Lines 259-265: the value `final_depth`, from `temporal` and the history values below
(`v1`), above (`v2`), right (`h1`) and left (`h2`). -/
def spatialBlend (temporal v1 v2 h1 h2 : ℚ) : ℚ :=
  let vert := temporal * (50 / 100) + (v1 + v2) * (25 / 100)
  let horiz := vert * (95 / 100) + (h1 + h2) * (25 / 1000)
  lerp vert horiz (5 / 100)

/-- Lines 250-254: the edge-clamped neighbour coordinates `(pU, pD, pL, pR)` of `p = int2(gid)`. -/
def smoothNeighbours (P : CSParams) (gid : Nat × Nat) :
    (Int × Int) × (Int × Int) × (Int × Int) × (Int × Int) :=
  let p : Int × Int := ((gid.1 : Int), (gid.2 : Int))
  let pU : Int × Int := (p.1, max 0 (p.2 - 1))
  let pD : Int × Int := (p.1, min ((P.outHeight : Int) - 1) (p.2 + 1))
  let pL : Int × Int := (max 0 (p.1 - 1), p.2)
  let pR : Int × Int := (min ((P.outWidth : Int) - 1) (p.1 + 1), p.2)
  (pU, pD, pL, pR)

/-- The well-formed lines of `CSDepthSmooth` (225-236 and 242-268) for one thread, as a
function of the value `prev` of the local that lines 238-239 were to declare: `none` when the
thread returns without writing, `some v` when it executes
`depthPrevOut[gid] = v; depthSmoothOut[gid] = v` (lines 267-268).  `depthRawTex p` and
`depthPrevTex p` are the `Load`s at integer coordinate `p` (lines 228, 256-257, 261-262). -/
def CSDepthSmooth (pw : ℚ → ℚ → ℚ) (P : CSParams) (depthRawTex depthPrevTex : Int × Int → ℚ)
    (prev : ℚ) (gid : Nat × Nat) : Option ℚ :=
  if gid.1 ≥ P.outWidth ∨ gid.2 ≥ P.outHeight then none
  else
    let depth := depthRawTex ((gid.1 : Int), (gid.2 : Int))
    let depth := reshapeDepth pw depth
    let temporal := temporalClamp prev depth
    let n := smoothNeighbours P gid
    let v1 := depthPrevTex n.2.1
    let v2 := depthPrevTex n.1
    let h1 := depthPrevTex n.2.2.2
    let h2 := depthPrevTex n.2.2.1
    some (spatialBlend temporal v1 v2 h1 h2)

/-! ## Pass 3: `CSParallaxSbs`

Line 288 reads `float depth = depthSmoothTex.Load(int3(gid, 0));`, and the shader string
declares no `depthSmoothTex` (register `t1` is declared as `depthRawTex`).  The value of the
local `depth` after line 288 is the argument `depth` of the definitions below.  Lines 277-284
and 290-318 are embedded as written. -/

/-- A GPU texture: the size it was created with and its texel contents (`none`: never
written since creation, contents unspecified). -/
structure Tex (α : Type) where
  width : Nat
  height : Nat
  data : Int × Int → Option α

/-- A colour texture together with the function that samples it through `samp0`
(`sample uv` is `Sample(samp0, uv)` / `SampleLevel(samp0, uv, 0)`); `format` is the
`DXGI_FORMAT` number.  Used for captured frames and for the cache `srcCopy_`. -/
structure Frame where
  width : Nat
  height : Nat
  format : Nat
  sample : Float2 → Float4

/-- The downscale render target `downTex_`: its description and what was last drawn into it
(`none`: nothing drawn since creation). -/
structure DownTex where
  width : Nat
  height : Nat
  format : Nat
  content : Option (Float2 → Float4)

/-- The enumeration `Renderer::CaptureBackendStats`. -/
inductive CaptureBackendStats where
  | None
  | DXGI
  | WGC
  deriving DecidableEq

/-- The fields of `class Renderer` (Renderer.h) that the depth pipeline and its configuration
use, with the initial values of their member initialisers.  A COM pointer to a device,
context or view is modelled by `true` (non-null) or `false` (`nullptr`); a texture pointer by
the texture it points to. -/
structure Renderer where
  device_ : Bool := false
  context_ : Bool := false
  depthRawTex_ : Option (Tex ℚ) := none
  depthRawSrv_ : Bool := false
  depthRawUav_ : Bool := false
  depthSmoothTex_ : Option (Tex ℚ) := none
  depthSmoothSrv_ : Bool := false
  depthSmoothUav_ : Bool := false
  depthPrevTex_ : Fin 2 → Option (Tex ℚ) := fun _ => none
  depthPrevSrv_ : Fin 2 → Bool := fun _ => false
  depthPrevUav_ : Fin 2 → Bool := fun _ => false
  depthPrevIndex_ : Int := 0
  depthFrame_ : ℚ := 0
  stereoOutTex_ : Option (Tex Float4) := none
  stereoOutSrv_ : Bool := false
  stereoOutUav_ : Bool := false
  depthOutW_ : Nat := 0
  depthOutH_ : Nat := 0
  cropEnabled_ : Bool := false
  cropLeft_ : ℚ := 0
  cropTop_ : ℚ := 0
  cropRight_ : ℚ := 1
  cropBottom_ : ℚ := 1
  stereoEnabled_ : Bool := false
  stereoDepthLevel_ : Int := 12
  stereoParallaxStrengthPercent_ : Int := 50
  swapChain_ : Bool := false
  rtv_ : Bool := false
  csDepthRaw_ : Bool := false
  csDepthSmooth_ : Bool := false
  csParallaxSbs_ : Bool := false
  csParamsCb_ : Bool := false
  sampler_ : Bool := false
  srcCopy_ : Option Frame := none
  srcSrv_ : Bool := false
  srcW_ : Nat := 0
  srcH_ : Nat := 0
  srcFmt_ : Nat := 0
  renderResIndex_ : Int := 0
  downW_ : Nat := 0
  downH_ : Nat := 0
  downDirty_ : Bool := true
  downTex_ : Option DownTex := none
  downRtv_ : Bool := false
  downSrv_ : Bool := false
  lastFrameTimestamp_ : Int := 0
  repeatCount_ : Int := 0
  wgcCaptureDtEmaSec_ : ℚ := 0
  wgcCaptureFpsEstimate_ : ℚ := 0
  captureStatsBackend_ : CaptureBackendStats := CaptureBackendStats.None

/-! ## `Renderer`: source crop and stereo setters -/

/-- The static helper `Clamp01` (Renderer.cpp lines 16-20). -/
def Clamp01 (v : ℚ) : ℚ :=
  if v < 0 then 0 else if v > 1 then 1 else v

/-- The method `Renderer::ClearSourceCrop`. -/
def Renderer.ClearSourceCrop (s : Renderer) : Renderer :=
  { s with cropEnabled_ := false, cropLeft_ := 0, cropTop_ := 0, cropRight_ := 1,
           cropBottom_ := 1 }

/-- The method `Renderer::SetSourceCropNormalized`. -/
def Renderer.SetSourceCropNormalized (s : Renderer) (left top right bottom : ℚ) : Renderer :=
  let left := Clamp01 left
  let top := Clamp01 top
  let right := Clamp01 right
  let bottom := Clamp01 bottom
  -- `if (right < left) std::swap(left, right);`
  let lr : ℚ × ℚ := if right < left then (right, left) else (left, right)
  -- `if (bottom < top) std::swap(top, bottom);`
  let tb : ℚ × ℚ := if bottom < top then (bottom, top) else (top, bottom)
  let minSize : ℚ := 1 / 4096
  if lr.2 - lr.1 < minSize ∨ tb.2 - tb.1 < minSize then s.ClearSourceCrop
  else
    { s with cropEnabled_ := true, cropLeft_ := lr.1, cropTop_ := tb.1, cropRight_ := lr.2,
             cropBottom_ := tb.2 }

/-- The method `Renderer::SetStereoDepthLevel` (Renderer.cpp lines 452-457). -/
def Renderer.SetStereoDepthLevel (s : Renderer) (level : Int) : Renderer :=
  let level := if level < 0 then 0 else level
  let level := if level > 20 then 20 else level
  { s with stereoDepthLevel_ := level }

/-- The getter `Renderer::GetStereoDepthLevel`. -/
def Renderer.GetStereoDepthLevel (s : Renderer) : Int := s.stereoDepthLevel_

/-- The method `Renderer::SetStereoParallaxStrengthPercent` (Renderer.h line 88). -/
def Renderer.SetStereoParallaxStrengthPercent (s : Renderer) (percent : Int) : Renderer :=
  { s with stereoParallaxStrengthPercent_ :=
      if percent < 0 then 0 else if percent > 100 then 100 else percent }

/-- The getter `Renderer::GetStereoParallaxStrengthPercent`. -/
def Renderer.GetStereoParallaxStrengthPercent (s : Renderer) : Int :=
  s.stereoParallaxStrengthPercent_

/-! ## `Renderer`: depth pipeline resources -/

/-- Result of the lambda `createDepthTex`: the three out-pointers and the returned flag. -/
structure DepthTexResult where
  tex : Option (Tex ℚ)
  srv : Bool
  uav : Bool
  ok : Bool

/-- The lambda `createDepthTex` of `EnsureDepthStereoResources` (lines 342-384).  `apiOk k`
tells whether the `k`-th D3D11 creation call of the enclosing function succeeds; this lambda
issues the calls `k0` (`CreateTexture2D`), `k0 + 1` (`CreateShaderResourceView`) and `k0 + 2`
(`CreateUnorderedAccessView`). -/
def createDepthTex (apiOk : Nat → Bool) (k0 : Nat) (outW outH : Nat) : DepthTexResult :=
  if !apiOk k0 then { tex := none, srv := false, uav := false, ok := false }
  else
    let t : Tex ℚ := { width := outW, height := outH, data := fun _ => none }
    if !apiOk (k0 + 1) then { tex := some t, srv := false, uav := false, ok := false }
    else if !apiOk (k0 + 2) then { tex := some t, srv := true, uav := false, ok := false }
    else { tex := some t, srv := true, uav := true, ok := true }

/-- `ClearUnorderedAccessViewFloat(uav, {v, v, v, v})` on a single-channel texture. -/
def Tex.clearFloat (v : ℚ) (t : Tex ℚ) : Tex ℚ := { t with data := fun _ => some v }

/-- The condition `okExisting` of `EnsureDepthStereoResources` (lines 311-318). -/
def Renderer.okExisting (s : Renderer) (outW outH : Nat) : Bool :=
  s.depthRawTex_.isSome && s.depthRawSrv_ && s.depthRawUav_ &&
  s.depthSmoothTex_.isSome && s.depthSmoothSrv_ && s.depthSmoothUav_ &&
  (s.depthPrevTex_ 0).isSome && s.depthPrevSrv_ 0 && s.depthPrevUav_ 0 &&
  (s.depthPrevTex_ 1).isSome && s.depthPrevSrv_ 1 && s.depthPrevUav_ 1 &&
  s.stereoOutTex_.isSome && s.stereoOutSrv_ && s.stereoOutUav_ &&
  decide (s.depthOutW_ = outW) && decide (s.depthOutH_ = outH)

/-- Lines 321-340 of `EnsureDepthStereoResources` (the same statements as in
`Renderer::Cleanup`, lines 2239-2258): release every depth pipeline resource. -/
def Renderer.releaseDepthStereo (s : Renderer) : Renderer :=
  { s with
    depthRawSrv_ := false, depthRawUav_ := false, depthRawTex_ := none,
    depthSmoothSrv_ := false, depthSmoothUav_ := false, depthSmoothTex_ := none,
    depthPrevSrv_ := fun _ => false, depthPrevUav_ := fun _ => false,
    depthPrevTex_ := fun _ => none,
    depthPrevIndex_ := 0, depthFrame_ := 0,
    stereoOutSrv_ := false, stereoOutUav_ := false, stereoOutTex_ := none,
    depthOutW_ := 0, depthOutH_ := 0 }

/-- Replace slot `i` of a two-element member array. -/
def setSlot {α : Type} (a : Fin 2 → α) (i : Fin 2) (v : α) : Fin 2 → α :=
  fun j => if j = i then v else a j

/-- The method `Renderer::EnsureDepthStereoResources(outW, outH)` (lines 307-438).  `apiOk k`
is the outcome of the `k`-th D3D11 creation call the function issues: calls 0-2 create
`depthRaw`, 3-5 `depthSmooth`, 6-8 `depthPrev0`, 9-11 `depthPrev1` (texture, SRV, UAV each)
and 12-14 the texture, SRV and UAV of `stereoOut`. -/
def Renderer.EnsureDepthStereoResources (apiOk : Nat → Bool) (s : Renderer) (outW outH : Nat) :
    Renderer :=
  if !s.device_ then s
  else if outW = 0 ∨ outH = 0 then s
  else if s.okExisting outW outH then s
  else
    let s := s.releaseDepthStereo
    let r := createDepthTex apiOk 0 outW outH
    let s := { s with depthRawTex_ := r.tex, depthRawSrv_ := r.srv, depthRawUav_ := r.uav }
    if !r.ok then s else
    let r := createDepthTex apiOk 3 outW outH
    let s := { s with depthSmoothTex_ := r.tex, depthSmoothSrv_ := r.srv,
                      depthSmoothUav_ := r.uav }
    if !r.ok then s else
    let r := createDepthTex apiOk 6 outW outH
    let s := { s with depthPrevTex_ := setSlot s.depthPrevTex_ 0 r.tex,
                      depthPrevSrv_ := setSlot s.depthPrevSrv_ 0 r.srv,
                      depthPrevUav_ := setSlot s.depthPrevUav_ 0 r.uav }
    if !r.ok then s else
    let r := createDepthTex apiOk 9 outW outH
    let s := { s with depthPrevTex_ := setSlot s.depthPrevTex_ 1 r.tex,
                      depthPrevSrv_ := setSlot s.depthPrevSrv_ 1 r.srv,
                      depthPrevUav_ := setSlot s.depthPrevUav_ 1 r.uav }
    if !r.ok then s else
    -- output SBS image
    if !apiOk 12 then s else
    let t : Tex Float4 := { width := outW, height := outH, data := fun _ => none }
    let s := { s with stereoOutTex_ := some t }
    if !apiOk 13 then s else
    let s := { s with stereoOutSrv_ := true }
    if !apiOk 14 then s else
    let s := { s with stereoOutUav_ := true }
    let s := { s with depthOutW_ := outW, depthOutH_ := outH }
    -- initialize history to neutral
    if s.context_ then
      let s := if s.depthPrevUav_ 0 then
        { s with depthPrevTex_ :=
            setSlot s.depthPrevTex_ 0 ((s.depthPrevTex_ 0).map (Tex.clearFloat (1 / 2))) }
        else s
      if s.depthPrevUav_ 1 then
        { s with depthPrevTex_ :=
            setSlot s.depthPrevTex_ 1 ((s.depthPrevTex_ 1).map (Tex.clearFloat (1 / 2))) }
        else s
    else s

/-- The method `Renderer::Cleanup`, on the modelled fields (lines 2224-2306): every modelled
resource is released and the size, downscale and capture-statistics fields are reset.  Crop
and stereo settings, `lastFrameTimestamp_`, `repeatCount_` and the WGC cadence estimate are
not touched by `Cleanup`. -/
def Renderer.Cleanup (s : Renderer) : Renderer :=
  { s.releaseDepthStereo with
    rtv_ := false, swapChain_ := false, srcSrv_ := false, srcCopy_ := none, sampler_ := false,
    csDepthRaw_ := false, csDepthSmooth_ := false, csParallaxSbs_ := false,
    csParamsCb_ := false,
    context_ := false, device_ := false,
    downSrv_ := false, downRtv_ := false, downTex_ := none, downW_ := 0, downH_ := 0,
    downDirty_ := true, renderResIndex_ := 0,
    srcW_ := 0, srcH_ := 0, srcFmt_ := 0,
    captureStatsBackend_ := CaptureBackendStats.None }

/-- The first statements of the method `Renderer::Init` (lines 788-804): `Cleanup()`, then
`device_` and `context_` are taken over unless one of the two arguments is null.  The rest
of `Init` (swap chain, shaders, samplers and constant buffers, lines 806-1078) is not part of
this definition. -/
def Renderer.Init (s : Renderer) (device context : Bool) : Renderer :=
  let s := s.Cleanup
  if !device || !context then s
  else { s with device_ := device, context_ := context }

/-! ## `Renderer::Render`: the depth pipeline block (lines 1588-1704) -/

/-- The static helper `DivRoundUp` (Renderer.cpp lines 784-786). -/
def DivRoundUp (a b : Nat) : Nat := (a + b - 1) / b

/-- Lines 1606-1632 of `Render`: the contents `cb` written to the compute constant buffer. -/
def Renderer.depthCSParams (s : Renderer) (computeW computeH : Nat)
    (presentingDownscaled : Bool) : CSParams :=
  let t : ℚ := (s.stereoDepthLevel_ : ℚ) / 20
  let maxShiftPx : ℚ := 60
  let parallaxStrength : ℚ := (s.stereoParallaxStrengthPercent_ : ℚ) / 100
  let needCrop := !presentingDownscaled
  { outWidth := computeW
    outHeight := computeH
    mode3d := 2
    zoomLevel := 0
    parallaxPx := t * maxShiftPx * parallaxStrength
    frame := s.depthFrame_
    cropOffset := if needCrop && s.cropEnabled_ then (s.cropLeft_, s.cropTop_) else (0, 0)
    cropScale := if needCrop && s.cropEnabled_
      then (s.cropRight_ - s.cropLeft_, s.cropBottom_ - s.cropTop_) else (1, 1) }

/-- The `Load` of a bound texture at an integer coordinate (0 where nothing was ever
written, outside the texture, or when no texture is bound). -/
def loadTex (t : Option (Tex ℚ)) (p : Int × Int) : ℚ :=
  match t with
  | some t => (t.data p).getD 0
  | none => 0

/-- Effect of `Dispatch(gx, gy, 1)` with `[numthreads(16, 16, 1)]` on a texture bound as UAV:
every thread `gid` of the grid that executes a store inside the texture overwrites its texel. -/
def Tex.dispatchStore {α : Type} (thread : Nat × Nat → Option α) (gx gy : Nat) (t : Tex α) :
    Tex α :=
  { t with data := fun p =>
      if 0 ≤ p.1 ∧ 0 ≤ p.2 ∧ p.1 < min (t.width : Int) (16 * gx) ∧
          p.2 < min (t.height : Int) (16 * gy) then
        match thread (p.1.toNat, p.2.toNat) with
        | some v => some v
        | none => t.data p
      else t.data p }

/-- The element `a[i]` of a two-element member array for an `int` index `i` in `{0, 1}`. -/
def slot (i : Int) : Fin 2 := if i = 1 then 1 else 0

/-- Lines 1659-1660 of `Render`: `prevIdx = depthPrevIndex_ & 1` and
`nextIdx = (depthPrevIndex_ ^ 1) & 1`. -/
def Renderer.smoothPassSlots (s : Renderer) : Int × Int :=
  (Int.land s.depthPrevIndex_ 1, Int.land (Int.xor s.depthPrevIndex_ 1) 1)

/-- The compute shader objects behind the pointers `csDepthRaw_`, `csDepthSmooth_` and
`csParallaxSbs_`, as `Dispatch` runs them: what one thread stores (`none`: no store), as a
function of the content of the constant buffer at `b0`, of the resources `Render` binds for
the pass, and of the thread id.  `Renderer.cpp` does not determine what a shader object does;
`Render` only binds resources and dispatches whatever `CreateComputeShader` returned in `Init`.
Pass 1 reads `t0` and stores to `u0`; pass 2 reads `t1` and `t2` and stores to `u1` and to `u2`;
pass 3 reads `t0` and `t1` and stores to `u3`. -/
structure ComputeShaders where
  csDepthRaw : CSParams → (Float2 → Float4) → Nat × Nat → Option ℚ
  csDepthSmooth :
    CSParams → (Int × Int → ℚ) → (Int × Int → ℚ) → Nat × Nat → Option ℚ × Option ℚ
  csParallaxSbs : CSParams → (Float2 → Float4) → (Int × Int → ℚ) → Nat × Nat → Option Float4

/-- Pass 1 block of `Render` (lines 1644-1655): the shader object `csDepthRaw_` is dispatched
with `srvToPresent` (sampled through `sampler_`) at `t0` and `depthRawUav_` at `u0`; `P` is the
content of the constant buffer. -/
def Renderer.depthRawPass (cs : ComputeShaders) (P : CSParams) (srcTex : Float2 → Float4)
    (gx gy : Nat) (s : Renderer) : Renderer :=
  { s with depthRawTex_ := s.depthRawTex_.map (Tex.dispatchStore (cs.csDepthRaw P srcTex) gx gy) }

/-- Pass 2 block of `Render` (lines 1658-1680): the shader object `csDepthSmooth_` is
dispatched with `depthRawSrv_` at `t1`, `depthPrevSrv_[prevIdx]` at `t2`,
`depthPrevUav_[nextIdx]` at `u1` and `depthSmoothUav_` at `u2`; afterwards
`depthPrevIndex_ = nextIdx`. -/
def Renderer.depthSmoothPass (cs : ComputeShaders) (P : CSParams) (gx gy : Nat) (s : Renderer) :
    Renderer :=
  let prevIdx := s.smoothPassSlots.1
  let nextIdx := s.smoothPassSlots.2
  let thread :=
    cs.csDepthSmooth P (loadTex s.depthRawTex_) (loadTex (s.depthPrevTex_ (slot prevIdx)))
  let toPrevOut := Tex.dispatchStore (fun gid => (thread gid).1) gx gy
  let toSmoothOut := Tex.dispatchStore (fun gid => (thread gid).2) gx gy
  { s with
    depthPrevTex_ := setSlot s.depthPrevTex_ (slot nextIdx)
      ((s.depthPrevTex_ (slot nextIdx)).map toPrevOut)
    depthSmoothTex_ := s.depthSmoothTex_.map toSmoothOut
    depthPrevIndex_ := nextIdx }

/-- Pass 3 block of `Render` (lines 1683-1696): the shader object `csParallaxSbs_` is
dispatched with `srvToPresent` at `t0`, `depthSmoothSrv_` at `t1` and `stereoOutUav_` at
`u3`. -/
def Renderer.parallaxPass (cs : ComputeShaders) (P : CSParams) (srcTex : Float2 → Float4)
    (gx gy : Nat) (s : Renderer) : Renderer :=
  let thread := cs.csParallaxSbs P srcTex (loadTex s.depthSmoothTex_)
  { s with stereoOutTex_ := s.stereoOutTex_.map (Tex.dispatchStore thread gx gy) }

/-- The condition of line 1590 of `Render`: every view of the depth pipeline is non-null. -/
def Renderer.depthViewsReady (s : Renderer) : Bool :=
  s.depthRawUav_ && s.depthRawSrv_ && s.depthSmoothUav_ && s.depthSmoothSrv_ &&
  s.depthPrevSrv_ 0 && s.depthPrevSrv_ 1 && s.depthPrevUav_ 0 && s.depthPrevUav_ 1 &&
  s.stereoOutUav_ && s.stereoOutSrv_

/-- Lines 1588-1704 of `Render`: `EnsureDepthStereoResources(computeW, computeH)` and, when
all views exist, the three dispatches.  `cs` are the shader objects, `mapOk` is the outcome of
`Map` on the constant buffer and `stale` the buffer content that stays in place when `Map`
fails. -/
def Renderer.renderDepthBlock (cs : ComputeShaders) (apiOk : Nat → Bool) (mapOk : Bool)
    (stale : CSParams) (srcTex : Float2 → Float4) (computeW computeH : Nat)
    (presentingDownscaled : Bool) (s : Renderer) : Renderer :=
  let s := s.EnsureDepthStereoResources apiOk computeW computeH
  if s.depthViewsReady then
    let cb := s.depthCSParams computeW computeH presentingDownscaled
    let s := { s with depthFrame_ := s.depthFrame_ + 1 }
    let P := if mapOk then cb else stale
    let gx := DivRoundUp computeW 16
    let gy := DivRoundUp computeH 16
    let s := s.depthRawPass cs P srcTex gx gy
    let s := s.depthSmoothPass cs P gx gy
    s.parallaxPass cs P srcTex gx gy
  else s

/-! ## Sequences of `Renderer` calls -/

/-- The calls on a `Renderer` that touch the modelled fields. -/
inductive Op where
  | Init (device context : Bool)
  | Cleanup
  | EnsureDepthStereoResources (apiOk : Nat → Bool) (outW outH : Nat)
  | RenderDepth (cs : ComputeShaders) (apiOk : Nat → Bool) (mapOk : Bool) (stale : CSParams)
      (srcTex : Float2 → Float4) (computeW computeH : Nat) (presentingDownscaled : Bool)
  | SetSourceCropNormalized (left top right bottom : ℚ)
  | ClearSourceCrop
  | SetStereoDepthLevel (level : Int)
  | SetStereoParallaxStrengthPercent (percent : Int)

/-- Effect of one call. -/
def Op.apply (s : Renderer) : Op → Renderer
  | Op.Init d c => s.Init d c
  | Op.Cleanup => s.Cleanup
  | Op.EnsureDepthStereoResources apiOk w h => s.EnsureDepthStereoResources apiOk w h
  | Op.RenderDepth cs apiOk mapOk stale srcTex w h pd =>
      s.renderDepthBlock cs apiOk mapOk stale srcTex w h pd
  | Op.SetSourceCropNormalized l t r b => s.SetSourceCropNormalized l t r b
  | Op.ClearSourceCrop => s.ClearSourceCrop
  | Op.SetStereoDepthLevel x => s.SetStereoDepthLevel x
  | Op.SetStereoParallaxStrengthPercent x => s.SetStereoParallaxStrengthPercent x

/-- The state of a freshly constructed `Renderer` after a sequence of calls. -/
def runOps (ops : List Op) : Renderer := ops.foldl Op.apply {}

/-- Sizes of the five depth pipeline textures (raw depth, stabilized depth, history slot 0,
history slot 1, stereo output); `none` for a texture that does not exist. -/
def Renderer.depthBufferSizes (s : Renderer) : List (Option (Nat × Nat)) :=
  [s.depthRawTex_.map (fun t => (t.width, t.height)),
   s.depthSmoothTex_.map (fun t => (t.width, t.height)),
   (s.depthPrevTex_ 0).map (fun t => (t.width, t.height)),
   (s.depthPrevTex_ 1).map (fun t => (t.width, t.height)),
   s.stereoOutTex_.map (fun t => (t.width, t.height))]

/-- The consistency condition the depth pipeline fields satisfy between calls: without a
device there are no depth textures and no recorded size, and when a size is recorded every
depth texture that exists was created with that size. -/
def Renderer.DepthInv (s : Renderer) : Prop :=
  (s.device_ = false →
    s.depthBufferSizes = [none, none, none, none, none] ∧ s.depthOutW_ = 0 ∧ s.depthOutH_ = 0) ∧
  ((s.depthOutW_ ≠ 0 ∨ s.depthOutH_ ≠ 0) →
    ∀ sz ∈ s.depthBufferSizes, sz = none ∨ sz = some (s.depthOutW_, s.depthOutH_))

/-! ## `Renderer`: repeat-frame diagnostics and further setters -/

/-- The method `Renderer::UpdateRepeat` (Renderer.cpp lines 185-208).  `1e-7` is `1/10^7`. -/
def Renderer.UpdateRepeat (s : Renderer) (frameTimestamp : Int) : Renderer :=
  let s :=
    if s.captureStatsBackend_ = CaptureBackendStats.WGC ∧ s.lastFrameTimestamp_ ≠ 0 ∧
        frameTimestamp > s.lastFrameTimestamp_ then
      let dtSec : ℚ := ((frameTimestamp - s.lastFrameTimestamp_ : Int) : ℚ) * (1 / 10000000)
      if dtSec > 0 ∧ dtSec < 1 then
        let ema : ℚ :=
          if s.wgcCaptureDtEmaSec_ ≤ 0 then dtSec
          else (1 - 1 / 10) * s.wgcCaptureDtEmaSec_ + 1 / 10 * dtSec
        { s with wgcCaptureDtEmaSec_ := ema
                 wgcCaptureFpsEstimate_ := if ema > 0 then 1 / ema else 0 }
      else s
    else s
  if frameTimestamp = s.lastFrameTimestamp_ then
    { s with repeatCount_ := s.repeatCount_ + 1 }
  else
    { s with repeatCount_ := 0, lastFrameTimestamp_ := frameTimestamp }

/-- The getter `Renderer::GetRepeatCount`. -/
def Renderer.GetRepeatCount (s : Renderer) : Int := s.repeatCount_

/-- The method `Renderer::ResetRepeatStats` (lines 209-214). -/
def Renderer.ResetRepeatStats (s : Renderer) : Renderer :=
  { s with lastFrameTimestamp_ := 0, repeatCount_ := 0, wgcCaptureDtEmaSec_ := 0,
           wgcCaptureFpsEstimate_ := 0 }

/-- The state after `UpdateRepeat(T)` was called on `n` consecutive ticks. -/
def Renderer.repeatTicks (s : Renderer) (T : Int) : Nat → Renderer
  | 0 => s
  | n + 1 => (s.repeatTicks T n).UpdateRepeat T

/-- The method `Renderer::SetCaptureStatsDXGI`, on the modelled fields (lines 216-220). -/
def Renderer.SetCaptureStatsDXGI (s : Renderer) : Renderer :=
  { s with captureStatsBackend_ := CaptureBackendStats.DXGI }

/-- The method `Renderer::SetCaptureStatsWGC`, on the modelled fields (lines 222-227). -/
def Renderer.SetCaptureStatsWGC (s : Renderer) : Renderer :=
  { s with captureStatsBackend_ := CaptureBackendStats.WGC }

/-- The method `Renderer::SetStereoEnabled` (Renderer.h line 82). -/
def Renderer.SetStereoEnabled (s : Renderer) (enabled : Bool) : Renderer :=
  { s with stereoEnabled_ := enabled }

/-- The method `Renderer::SetRenderResolutionIndex` (lines 440-450). -/
def Renderer.SetRenderResolutionIndex (s : Renderer) (idx : Int) : Renderer :=
  let idx := if idx < 0 then 0 else idx
  if s.renderResIndex_ = idx then s
  else
    { s with renderResIndex_ := idx, downDirty_ := true, downSrv_ := false, downRtv_ := false,
             downTex_ := none, downW_ := 0, downH_ := 0 }

/-! ## `DxgiCrop` -/

/-- The Win32 `RECT`. -/
structure RECT where
  left : Int
  top : Int
  right : Int
  bottom : Int
  deriving DecidableEq

/-- The struct `DxgiCrop::CropState` (DxgiCrop.h); a window handle is a number, 0 for null. -/
structure CropState where
  active : Bool := false
  target : Nat := 0
  monitorRect : RECT := ⟨0, 0, 0, 0⟩

/-- The Win32 calls `UpdateDxgiWindowCropForRenderer` depends on, as functions of the window
handle; `none` is a failed call. -/
structure Win32 where
  IsWindow : Nat → Bool
  GetClientRect : Nat → Option RECT
  ClientToScreen : Nat → Int × Int → Option (Int × Int)

/-- The Win32 function `IntersectRect`: the intersection and whether it is non-empty; an
empty intersection is returned as the all-zero rectangle. -/
def IntersectRect (a b : RECT) : Bool × RECT :=
  let r : RECT := ⟨max a.left b.left, max a.top b.top, min a.right b.right, min a.bottom b.bottom⟩
  if r.left < r.right ∧ r.top < r.bottom then (true, r) else (false, ⟨0, 0, 0, 0⟩)

/-- The helper `DxgiCrop::GetWindowClientRectScreen` (DxgiCrop.cpp lines 6-20). -/
def GetWindowClientRectScreen (w : Win32) (hwnd : Nat) : Bool × RECT :=
  if hwnd = 0 ∨ !w.IsWindow hwnd then (false, ⟨0, 0, 0, 0⟩)
  else
    match w.GetClientRect hwnd with
    | none => (false, ⟨0, 0, 0, 0⟩)
    | some cr =>
      match w.ClientToScreen hwnd (cr.left, cr.top), w.ClientToScreen hwnd (cr.right, cr.bottom) with
      | some tl, some br =>
        (decide (br.1 > tl.1 ∧ br.2 > tl.2), ⟨tl.1, tl.2, br.1, br.2⟩)
      | _, _ => (false, ⟨0, 0, 0, 0⟩)

/-- The function `DxgiCrop::UpdateDxgiWindowCropForRenderer` (DxgiCrop.cpp lines 22-64): the
returned flag and the renderer after the call. -/
def UpdateDxgiWindowCropForRenderer (w : Win32) (renderer : Renderer)
    (activeWindow windowSelect : CropState) : Bool × Renderer :=
  let sel : Nat × RECT :=
    if activeWindow.active then (activeWindow.target, activeWindow.monitorRect)
    else if windowSelect.active then (windowSelect.target, windowSelect.monitorRect)
    else (0, ⟨0, 0, 0, 0⟩)
  let cropTarget := sel.1
  let cropMonitorRect := sel.2
  if cropTarget = 0 ∨ !w.IsWindow cropTarget then (false, renderer.ClearSourceCrop)
  else
    let cs := GetWindowClientRectScreen w cropTarget
    if !cs.1 then (false, renderer.ClearSourceCrop)
    else
      let it := IntersectRect cs.2 cropMonitorRect
      if !it.1 then (false, renderer.ClearSourceCrop)
      else
        let inter := it.2
        let monW := cropMonitorRect.right - cropMonitorRect.left
        let monH := cropMonitorRect.bottom - cropMonitorRect.top
        if monW ≤ 0 ∨ monH ≤ 0 then (false, renderer.ClearSourceCrop)
        else
          let l : ℚ := ((inter.left - cropMonitorRect.left : Int) : ℚ) / (monW : ℚ)
          let t : ℚ := ((inter.top - cropMonitorRect.top : Int) : ℚ) / (monH : ℚ)
          let r : ℚ := ((inter.right - cropMonitorRect.left : Int) : ℚ) / (monW : ℚ)
          let b : ℚ := ((inter.bottom - cropMonitorRect.top : Int) : ℚ) / (monH : ℚ)
          (true, renderer.SetSourceCropNormalized l t r b)

/-! ## `Renderer::Render` (lines 1184-1837)

`Render` is modelled up to the final draws: entry guard, source cache, optional downscale
pre-pass, depth pipeline, draws into the backbuffer.  The result is the renderer afterwards
and the `Dispatch` and `Draw` calls issued, in order.  Not modelled: logging, rate statistics,
the software cursor and menu overlay constants, the diagnostics overlay and `Present`. -/

/-- The three compute shaders. -/
inductive Pass where
  | DepthRaw
  | DepthSmooth
  | ParallaxSbs
  deriving DecidableEq

/-- The texture bound at `t0` for a draw: `srcSrv_`, `downSrv_` or `stereoOutSrv_`. -/
inductive PresentSrc where
  | Source
  | Downscaled
  | StereoOut
  deriving DecidableEq

/-- The render target of a draw: the swap-chain backbuffer (`rtv_`) or `downRtv_`. -/
inductive RenderTarget where
  | Backbuffer
  | Downscale
  deriving DecidableEq

/-- One `Draw(3, 0)` of the blit shader: target, viewport, bound texture and the constants
written just before it by `updateCropCb`, `updateStereoCb` and `updateCursorCb`. -/
structure DrawCmd where
  target : RenderTarget
  vpX : Nat
  vpW : Nat
  vpH : Nat
  srv : PresentSrc
  cropOffset : Float2
  cropScale : Float2
  uOffset : ℚ
  eyeSign : ℚ
  parallaxStrength : ℚ
  foldU : Bool
  deriving DecidableEq

/-- A GPU call of `Render`. -/
inductive GpuCmd where
  | Dispatch (p : Pass) (gx gy : Nat)
  | Draw (d : DrawCmd)
  deriving DecidableEq

/-- What `Render` receives from outside the renderer during one call: what the compute shader
objects do when dispatched, the backbuffer size, the outcomes of the D3D11 creation calls (source cache: texture, SRV;
downscale target: texture, RTV, SRV; depth pipeline: the 15 calls of
`EnsureDepthStereoResources`), the outcome of `Map` on the compute constant buffer with the
content that stays when it fails, and the image a draw of the blit shader leaves in a render
target as a function of its constants and of the texture it samples. -/
structure RenderEnv where
  cs : ComputeShaders
  backW : Nat
  backH : Nat
  srcCopyOk : Nat → Bool
  downOk : Nat → Bool
  depthOk : Nat → Bool
  mapOk : Bool
  stale : CSParams
  rasterize : DrawCmd → (Float2 → Float4) → (Float2 → Float4)

/-- The lambda `updateCropCb(enableCrop)` (lines 1315-1339): the constants it writes. -/
def Renderer.cropConstants (s : Renderer) (enableCrop : Bool) : Float2 × Float2 :=
  if enableCrop && s.cropEnabled_ then
    ((s.cropLeft_, s.cropTop_), (s.cropRight_ - s.cropLeft_, s.cropBottom_ - s.cropTop_))
  else ((0, 0), (1, 1))

/-- Lines 1232-1282 of `Render`: keep a shader-readable copy of the captured frame. -/
def Renderer.updateSourceCopy (env : RenderEnv) (s : Renderer) (srcTex : Option Frame) :
    Renderer :=
  match srcTex with
  | none => s
  | some f =>
    let s := { s with downDirty_ := true, srcW_ := f.width, srcH_ := f.height,
                      srcFmt_ := f.format }
    let needRecreate : Bool :=
      match s.srcCopy_ with
      | none => true
      | some c =>
        !s.srcSrv_ || decide (c.width ≠ s.srcW_ ∨ c.height ≠ s.srcH_ ∨ c.format ≠ s.srcFmt_)
    let s :=
      if needRecreate then
        let s := { s with srcSrv_ := false, srcCopy_ := none }
        if !env.srcCopyOk 0 then s
        else
          let c : Frame := { width := s.srcW_, height := s.srcH_, format := s.srcFmt_,
                             sample := fun _ => (0, 0, 0, 0) }
          let s := { s with srcCopy_ := some c }
          if !env.srcCopyOk 1 then s else { s with srcSrv_ := true }
      else s
    -- `if (srcCopy_) context_->CopyResource(srcCopy_, srcTex);`
    match s.srcCopy_ with
    | some c => { s with srcCopy_ := some { c with sample := f.sample } }
    | none => s

/-- The lambda `computeDownscaleSize` (lines 1393-1412).  `w &= ~1u` is `w - w % 2`. -/
def computeDownscaleSize (srcW srcH boundW boundH : Nat) : Nat × Nat :=
  if srcW = 0 ∨ srcH = 0 ∨ boundW = 0 ∨ boundH = 0 then (0, 0)
  else
    let sx : ℚ := (boundW : ℚ) / (srcW : ℚ)
    let sy : ℚ := (boundH : ℚ) / (srcH : ℚ)
    let s : ℚ := min sx sy
    let s : ℚ := if s > 1 then 1 else s
    let w : Nat := (max 1 ⌊(srcW : ℚ) * s + 1 / 2⌋).toNat
    let h : Nat := (max 1 ⌊(srcH : ℚ) * s + 1 / 2⌋).toNat
    let w := if w > 2 then w - w % 2 else w
    let h := if h > 2 then h - h % 2 else h
    (w, h)

/-- The table `kPresets` (lines 1419-1426) at the index chosen in line 1428. -/
def kPresets (renderResIndex : Int) : Nat × Nat :=
  if renderResIndex = 1 then (1280, 720)
  else if renderResIndex = 2 then (1600, 900)
  else if renderResIndex = 3 then (1920, 1080)
  else if renderResIndex = 4 then (2560, 1440)
  else if renderResIndex = 5 then (3840, 2160)
  else (0, 0)

/-- What sampling `srcSrv_` returns: the content of `srcCopy_`. -/
def Renderer.srcSample (s : Renderer) : Float2 → Float4 :=
  match s.srcCopy_ with
  | some c => c.sample
  | none => fun _ => (0, 0, 0, 0)

/-- Result of the downscale pre-pass: the renderer, the draw issued (if any) and the local
variable `srvToPresent` (`none` for a null pointer). -/
structure Prepass where
  state : Renderer
  cmds : List GpuCmd
  srvToPresent : Option PresentSrc

/-- The draw of the downscale pass (lines 1479-1524): full viewport of the downscale target,
source crop applied, stereo shift disabled. -/
def Renderer.downscaleDraw (s : Renderer) : DrawCmd :=
  { target := RenderTarget.Downscale, vpX := 0, vpW := s.downW_, vpH := s.downH_,
    srv := PresentSrc.Source,
    cropOffset := (s.cropConstants true).1, cropScale := (s.cropConstants true).2,
    uOffset := 0, eyeSign := 0, parallaxStrength := 0, foldU := false }

/-- Lines 1428-1432 of `Render`: the size `(wantW, wantH)` of the downscale target. -/
def Renderer.downscaleWant (s : Renderer) : Nat × Nat :=
  computeDownscaleSize s.srcW_ s.srcH_ (kPresets s.renderResIndex_).1
    (kPresets s.renderResIndex_).2

/-- The conditions of lines 1417 and 1434 of `Render`: the downscale block is entered. -/
def Renderer.downscaleActive (s : Renderer) : Bool :=
  decide (s.renderResIndex_ > 0) && s.device_ && s.context_ &&
    decide (s.downscaleWant.1 > 0) && decide (s.downscaleWant.2 > 0)

/-- The local `needCreate` of line 1435. -/
def Renderer.downscaleNeedCreate (s : Renderer) : Bool :=
  s.downTex_.isNone || !s.downRtv_ || !s.downSrv_ || decide (s.downW_ ≠ s.downscaleWant.1) ||
    decide (s.downH_ ≠ s.downscaleWant.2) || s.downDirty_

/-- Lines 1470-1473 of `Render`: the three creation calls succeeded; a fresh target of the
wanted size, marked dirty. -/
def Renderer.downscaleCreated (s : Renderer) : Renderer :=
  { s with downTex_ := some { width := s.downscaleWant.1, height := s.downscaleWant.2,
                              format := s.srcFmt_, content := none }
           downRtv_ := true, downSrv_ := true
           downW_ := s.downscaleWant.1, downH_ := s.downscaleWant.2, downDirty_ := true }

/-- Lines 1463-1468 of `Render`: a creation call failed; all three pointers are null and the
recorded size is `0 x 0`. -/
def Renderer.downscaleReleased (s : Renderer) : Renderer :=
  { s with downSrv_ := false, downRtv_ := false, downTex_ := none
           downW_ := 0, downH_ := 0, downDirty_ := true }

/-- Lines 1435-1474 of `Render`: (re)create the downscale target when needed.  The three
creation calls are `CreateTexture2D`, `CreateRenderTargetView`, `CreateShaderResourceView`. -/
def Renderer.ensureDownscaleTarget (env : RenderEnv) (s : Renderer) : Renderer :=
  if s.downscaleNeedCreate then
    if env.downOk 0 && env.downOk 1 && env.downOk 2 then s.downscaleCreated
    else s.downscaleReleased
  else s

/-- The condition of line 1479 of `Render`: the downscale draw is issued. -/
def Renderer.downscaleDrawn (s : Renderer) : Bool :=
  s.downRtv_ && s.downSrv_ && s.downTex_.isSome && s.downDirty_ && s.srcSrv_

/-- Lines 1479-1527 of `Render`: the cached source has been drawn into the downscale
target. -/
def Renderer.downscaleDrawnInto (env : RenderEnv) (s : Renderer) : Renderer :=
  { s with downTex_ := s.downTex_.map
             (fun t => { t with content := some (env.rasterize s.downscaleDraw s.srcSample) })
           downDirty_ := false }

/-- Lines 1479-1527 of `Render`: draw the cached source into the downscale target when the
condition of line 1479 holds. -/
def Renderer.drawDownscale (env : RenderEnv) (s : Renderer) : Renderer :=
  if s.downscaleDrawn then s.downscaleDrawnInto env else s

/-- Lines 1416-1534 of `Render`: the optional output-side downscale. -/
def Renderer.downscalePrepass (env : RenderEnv) (s : Renderer) : Prepass :=
  let srvToPresent : Option PresentSrc := if s.srcSrv_ then some PresentSrc.Source else none
  if s.downscaleActive then
    let s1 := s.ensureDownscaleTarget env
    { state := s1.drawDownscale env
      cmds := if s1.downscaleDrawn then [GpuCmd.Draw s1.downscaleDraw] else []
      srvToPresent := if s1.downSrv_ then some PresentSrc.Downscaled else srvToPresent }
  else { state := s, cmds := [], srvToPresent := srvToPresent }

/-- What sampling the texture behind `srvToPresent` returns. -/
def Renderer.presentSample (s : Renderer) : Option PresentSrc → (Float2 → Float4)
  | some PresentSrc.Source => s.srcSample
  | some PresentSrc.Downscaled =>
    match s.downTex_ with
    | some t => t.content.getD (fun _ => (0, 0, 0, 0))
    | none => fun _ => (0, 0, 0, 0)
  | _ => fun _ => (0, 0, 0, 0)

/-- The condition of line 1557; `wantDepthCompute` is true because `Depth3Pass` is the only
value of `StereoShaderMode`. -/
def Renderer.depthPipelineWanted (s : Renderer) (srvToPresent : Option PresentSrc) : Bool :=
  s.stereoEnabled_ && srvToPresent.isSome && s.csDepthRaw_ && s.csDepthSmooth_ &&
    s.csParallaxSbs_ && s.csParamsCb_ && s.sampler_

/-- Lines 1561-1573 of `Render`: the size of the compute passes. -/
def Renderer.computeSize (env : RenderEnv) (s : Renderer) (presentingDownscaled : Bool) :
    Nat × Nat :=
  if presentingDownscaled && decide (s.downW_ > 0) && decide (s.downH_ > 0) then
    (s.downW_, s.downH_)
  else if s.srcW_ > 0 ∧ s.srcH_ > 0 then (s.srcW_, s.srcH_)
  else (env.backW, env.backH)

/-- Lines 1752-1761 of `Render`: the per-eye disparity of the blit shader in UV units. -/
def Renderer.stereoUOffset (s : Renderer) (srvToPresent : Option PresentSrc)
    (presentingDownscaled : Bool) : ℚ :=
  if s.stereoEnabled_ && srvToPresent.isSome then
    let t : ℚ := (s.stereoDepthLevel_ : ℚ) / 20
    let maxShiftPx : ℚ := 60
    let shiftPx : ℚ := t * maxShiftPx
    let texW : ℚ := if presentingDownscaled then (s.downW_ : ℚ) else (s.srcW_ : ℚ)
    if texW > 1 then shiftPx / texW else 0
  else 0

/-- Lines 1763-1837 of `Render`: the draws into the backbuffer. -/
def Renderer.finalDraws (env : RenderEnv) (s : Renderer) (srvToPresent : Option PresentSrc)
    (presentingDownscaled depthStereoPresented : Bool) : List GpuCmd :=
  let parallaxStrength : ℚ := (s.stereoParallaxStrengthPercent_ : ℚ) / 100
  let uOffset := s.stereoUOffset srvToPresent presentingDownscaled
  let crop := s.cropConstants (!presentingDownscaled)
  match srvToPresent with
  | none => []
  | some srv =>
    if s.stereoEnabled_ && !depthStereoPresented then
      let leftWpx := env.backW / 2
      let rightWpx := env.backW - leftWpx
      [GpuCmd.Draw { target := RenderTarget.Backbuffer, vpX := 0, vpW := leftWpx,
                     vpH := env.backH, srv := srv, cropOffset := crop.1, cropScale := crop.2,
                     uOffset := uOffset, eyeSign := -1, parallaxStrength := parallaxStrength,
                     foldU := false },
       GpuCmd.Draw { target := RenderTarget.Backbuffer, vpX := leftWpx, vpW := rightWpx,
                     vpH := env.backH, srv := srv, cropOffset := crop.1, cropScale := crop.2,
                     uOffset := uOffset, eyeSign := 1, parallaxStrength := parallaxStrength,
                     foldU := false }]
    else
      [GpuCmd.Draw { target := RenderTarget.Backbuffer, vpX := 0, vpW := env.backW,
                     vpH := env.backH, srv := srv, cropOffset := crop.1, cropScale := crop.2,
                     uOffset := 0, eyeSign := 0, parallaxStrength := 0,
                     foldU := s.stereoEnabled_ && depthStereoPresented }]

/-- The three dispatches of the depth pipeline (lines 1651, 1672, 1691). -/
def depthDispatches (computeW computeH : Nat) : List GpuCmd :=
  [GpuCmd.Dispatch Pass.DepthRaw (DivRoundUp computeW 16) (DivRoundUp computeH 16),
   GpuCmd.Dispatch Pass.DepthSmooth (DivRoundUp computeW 16) (DivRoundUp computeH 16),
   GpuCmd.Dispatch Pass.ParallaxSbs (DivRoundUp computeW 16) (DivRoundUp computeH 16)]

/-- The method `Renderer::Render(srcTex, depth)`: the renderer afterwards and the GPU calls
issued.  `srcTex = none` is a null source texture; the parameter `depth` is unused by the
source. -/
def Renderer.Render (env : RenderEnv) (s : Renderer) (srcTex : Option Frame) :
    Renderer × List GpuCmd :=
  if !s.context_ || !s.rtv_ || !s.swapChain_ then (s, [])
  else
    let s := s.updateSourceCopy env srcTex
    let r := s.downscalePrepass env
    let s := r.state
    let srvToPresent := r.srvToPresent
    let presentingDownscaled : Bool := decide (srvToPresent = some PresentSrc.Downscaled)
    if s.depthPipelineWanted srvToPresent then
      let cs := s.computeSize env presentingDownscaled
      let ready := (s.EnsureDepthStereoResources env.depthOk cs.1 cs.2).depthViewsReady
      let s' := s.renderDepthBlock env.cs env.depthOk env.mapOk env.stale
        (s.presentSample srvToPresent) cs.1 cs.2 presentingDownscaled
      if ready then
        (s', r.cmds ++ depthDispatches cs.1 cs.2 ++
          s'.finalDraws env (some PresentSrc.StereoOut) true true)
      else
        (s', r.cmds ++ s'.finalDraws env srvToPresent presentingDownscaled false)
    else
      (s, r.cmds ++ s.finalDraws env srvToPresent presentingDownscaled false)

/-- The compute shaders dispatched by a list of GPU calls, in order. -/
def dispatchedPasses : List GpuCmd → List Pass
  | [] => []
  | GpuCmd.Dispatch p _ _ :: rest => p :: dispatchedPasses rest
  | GpuCmd.Draw _ :: rest => dispatchedPasses rest

/-- The draws into the swap-chain backbuffer among a list of GPU calls, in order. -/
def backbufferDraws : List GpuCmd → List DrawCmd
  | [] => []
  | GpuCmd.Dispatch _ _ _ :: rest => backbufferDraws rest
  | GpuCmd.Draw d :: rest =>
    if d.target = RenderTarget.Backbuffer then d :: backbufferDraws rest
    else backbufferDraws rest

/-- The value of the local variable `srvToPresent` of `Render` after the downscale pre-pass
(line 1534): the texture the rest of the call works on, `none` when there is none. -/
def Renderer.viewToPresent (env : RenderEnv) (s : Renderer) (srcTex : Option Frame) :
    Option PresentSrc :=
  ((s.updateSourceCopy env srcTex).downscalePrepass env).srvToPresent

/-- Whether this call of `Render` runs the depth pipeline: the condition of line 1557 holds
and, after `EnsureDepthStereoResources`, so does the condition of line 1590. -/
def Renderer.depthPipelineRuns (env : RenderEnv) (s : Renderer) (srcTex : Option Frame) : Bool :=
  let r := (s.updateSourceCopy env srcTex).downscalePrepass env
  let cs := r.state.computeSize env (decide (r.srvToPresent = some PresentSrc.Downscaled))
  r.state.depthPipelineWanted r.srvToPresent &&
    (r.state.EnsureDepthStereoResources env.depthOk cs.1 cs.2).depthViewsReady

/-- The renderer at line 1557 of `Render`: after the source cache update and the downscale
pre-pass of this call. -/
def Renderer.beforeDepth (env : RenderEnv) (s : Renderer) (srcTex : Option Frame) : Renderer :=
  ((s.updateSourceCopy env srcTex).downscalePrepass env).state

/-- The size `(computeW, computeH)` this call of `Render` passes to
`EnsureDepthStereoResources` (lines 1561-1573). -/
def Renderer.depthComputeSize (env : RenderEnv) (s : Renderer) (srcTex : Option Frame) :
    Nat × Nat :=
  (s.beforeDepth env srcTex).computeSize env
    (decide (s.viewToPresent env srcTex = some PresentSrc.Downscaled))

/-- A draw covers the whole backbuffer. -/
def DrawCmd.fullViewport (env : RenderEnv) (d : DrawCmd) : Prop :=
  d.target = RenderTarget.Backbuffer ∧ d.vpX = 0 ∧ d.vpW = env.backW ∧ d.vpH = env.backH

/-- A draw applies no stereo shift: `updateStereoCb(0, 0, 0)`. -/
def DrawCmd.zeroShift (d : DrawCmd) : Prop :=
  d.uOffset = 0 ∧ d.eyeSign = 0 ∧ d.parallaxStrength = 0

/-- A renderer in which device, context, swap chain, render-target view, the three compute
shader pointers, the compute constant buffer and the sampler are non-null and everything else
has its initial value: the state from which the depth branch of `Render` can be entered.
(With the shader string of this repository `Init` leaves the three shader pointers null, see
`Renderer.InitShaders`.) -/
def Renderer.initialised : Renderer :=
  { device_ := true, context_ := true, swapChain_ := true, rtv_ := true,
    csDepthRaw_ := true, csDepthSmooth_ := true, csParallaxSbs_ := true,
    csParamsCb_ := true, sampler_ := true }

/-- Shader objects whose threads store nothing: a stand-in where an evaluation needs shader
objects and their stores do not matter. -/
def ComputeShaders.idle : ComputeShaders :=
  ⟨fun _ _ _ => none, fun _ _ _ _ => (none, none), fun _ _ _ _ => none⟩

/-- An environment in which every D3D11 call succeeds, for a backbuffer of `backW x backH`
pixels and given shader objects; a draw leaves the sampled texture in the target as it is. -/
def RenderEnv.allOk (cs : ComputeShaders) (backW backH : Nat) : RenderEnv :=
  { cs := cs, backW := backW, backH := backH,
    srcCopyOk := fun _ => true, downOk := fun _ => true, depthOk := fun _ => true,
    mapOk := true, stale := ⟨0, 0, 0, 0, 0, 0, (0, 0), (1, 1)⟩,
    rasterize := fun _ f => f }

/-- An environment like `RenderEnv.allOk` in which the creation call number `k` of
`EnsureDepthStereoResources` fails. -/
def RenderEnv.depthFailAt (cs : ComputeShaders) (backW backH k : Nat) : RenderEnv :=
  { cs := cs, backW := backW, backH := backH,
    srcCopyOk := fun _ => true, downOk := fun _ => true, depthOk := fun i => decide (i ≠ k),
    mapOk := true, stale := ⟨0, 0, 0, 0, 0, 0, (0, 0), (1, 1)⟩,
    rasterize := fun _ f => f }

/-- The texel of the stereo output texture at an integer coordinate (`none`: no texture, or
never written). -/
def Renderer.stereoOutTexel (s : Renderer) (p : Int × Int) : Option Float4 :=
  match s.stereoOutTex_ with
  | some t => t.data p
  | none => none

/-- A captured frame of 4 x 1 pixels, format 87 (`DXGI_FORMAT_B8G8R8A8_UNORM`), opaque white
everywhere. -/
def whiteFrame : Frame := ⟨4, 1, 87, fun _ => (1, 1, 1, 1)⟩

/-- The renderer `Renderer.initialised` after `SetStereoEnabled(true)`,
`SetStereoDepthLevel(1)` and `SetStereoParallaxStrengthPercent(52)`: the parallax constant of
the compute passes is `1 / 20 * 60 * 52 / 100 = 1.56` pixels. -/
def Renderer.stereoLevel1 : Renderer :=
  ((Renderer.initialised.SetStereoEnabled true).SetStereoDepthLevel 1).SetStereoParallaxStrengthPercent
    52

/-! ## `CaptureDXGI` (CaptureDXGI.cpp)

An `HRESULT` is the signed 32-bit number it is in C++; `FAILED(hr)` is `hr < 0`. -/

/-- The code `S_OK`. -/
def S_OK : Int := 0

/-- The code `E_FAIL` (`0x80004005`). -/
def E_FAIL : Int := -2147467259

/-- The code `DXGI_ERROR_WAIT_TIMEOUT` (`0x887A0027`). -/
def DXGI_ERROR_WAIT_TIMEOUT : Int := -2005270489

/-- The code `DXGI_ERROR_ACCESS_LOST` (`0x887A0026`). -/
def DXGI_ERROR_ACCESS_LOST : Int := -2005270490

/-- The code `DXGI_ERROR_INVALID_CALL` (`0x887A0001`). -/
def DXGI_ERROR_INVALID_CALL : Int := -2005270527

/-- The code `DXGI_ERROR_ACCESS_DENIED` (`0x887A002B`). -/
def DXGI_ERROR_ACCESS_DENIED : Int := -2005270485

/-- The Windows macro `FAILED`. -/
def FAILED (hr : Int) : Bool := decide (hr < 0)

/-- What one call of `IDXGIOutputDuplication::AcquireNextFrame` gives back: its `HRESULT`,
the two fields of `DXGI_OUTDUPL_FRAME_INFO` that are read, and the texture obtained from the
desktop resource by `QueryInterface` (`none` when that call fails). -/
structure AcquireResult where
  hr : Int
  LastPresentTime : Int
  AccumulatedFrames : Nat
  texture : Option Frame

/-- The fields of `class CaptureDXGI` that `GetFrame` and `ReleaseFrame` use (CaptureDXGI.h);
`duplication_` is `true` for a non-null pointer. -/
structure CaptureDXGI where
  duplication_ : Bool := false
  frameHeld_ : Bool := false
  producedFramesTotal_ : Nat := 0
  lastAccumulatedFrames_ : Nat := 0
  lastAcquireHr_ : Int := S_OK

/-- The method `CaptureDXGI::GetFrame(outTex, outTimestamp)` (lines 93-174): the object
afterwards and, when it returns `true`, the texture and the timestamp it hands out.  `acq` is
the outcome of the call of `AcquireNextFrame` it makes. -/
def CaptureDXGI.GetFrame (c : CaptureDXGI) (acq : AcquireResult) :
    CaptureDXGI × Option (Frame × Int) :=
  if !c.duplication_ then ({ c with lastAcquireHr_ := E_FAIL }, none)
  else
    let c := if c.frameHeld_ then { c with frameHeld_ := false } else c
    if FAILED acq.hr then
      if acq.hr = DXGI_ERROR_WAIT_TIMEOUT then ({ c with lastAcquireHr_ := acq.hr }, none)
      else ({ c with lastAcquireHr_ := acq.hr }, none)
    else
      let c := { c with
        lastAcquireHr_ := S_OK
        lastAccumulatedFrames_ := acq.AccumulatedFrames
        producedFramesTotal_ := (c.producedFramesTotal_ +
          (if acq.AccumulatedFrames > 0 then acq.AccumulatedFrames else 1)) % 2 ^ 64 }
      match acq.texture with
      | none => (c, none)
      | some frame => ({ c with frameHeld_ := true }, some (frame, acq.LastPresentTime))

/-- The method `CaptureDXGI::ReleaseFrame` (lines 176-181). -/
def CaptureDXGI.ReleaseFrame (c : CaptureDXGI) : CaptureDXGI :=
  if !c.duplication_ then c
  else if !c.frameHeld_ then c
  else { c with frameHeld_ := false }

/-- The method `CaptureDXGI::Cleanup` (lines 183-196), on the modelled fields. -/
def CaptureDXGI.Cleanup (c : CaptureDXGI) : CaptureDXGI :=
  { c with frameHeld_ := if c.duplication_ && c.frameHeld_ then false else c.frameHeld_
           duplication_ := false }

/-! ## `CaptureWGC` (CaptureWGC.cpp) -/

/-- The fields of `CaptureWGC::Impl` that `GetFrame` and `ReleaseFrame` test or set: `impl_`
and `impl_->framePool` (`true` for non-null) and `impl_->frameHeld`. -/
structure CaptureWGC where
  impl_ : Bool := false
  framePool : Bool := false
  frameHeld : Bool := false

/-- The method `CaptureWGC::GetFrame(outTex, outTimestamp)` (lines 579-698), on the modelled
fields: the object afterwards and, when it returns `true`, the texture and the timestamp it
hands out.  `next` is what the frame pool and the conversion to a texture deliver: the most
recent frame with its timestamp, or `none` when the pool is empty or a call fails. -/
def CaptureWGC.GetFrame (c : CaptureWGC) (next : Option (Frame × Int)) :
    CaptureWGC × Option (Frame × Int) :=
  if !c.impl_ || !c.framePool then (c, none)
  else
    let c := if c.frameHeld then { c with frameHeld := false } else c
    match next with
    | none => (c, none)
    | some f => ({ c with frameHeld := true }, some f)

/-- The method `CaptureWGC::ReleaseFrame` (lines 715-720). -/
def CaptureWGC.ReleaseFrame (c : CaptureWGC) : CaptureWGC :=
  if !c.impl_ then c
  else if !c.frameHeld then c
  else { c with frameHeld := false }

/-! ## `RenderOneFrame` (main.cpp lines 999-1087) -/

/-- The enumeration `CaptureMode` (main.cpp lines 107-110). -/
inductive CaptureMode where
  | Monitor
  | Window
  deriving DecidableEq

/-- The globals of main.cpp and the function statics of `RenderOneFrame` that a tick reads
or writes.  A window handle is a number, 0 for null. -/
structure App where
  g_capturing : Bool := false
  g_renderWnd : Nat := 0
  g_trayWnd : Nat := 0
  g_captureMode : CaptureMode := CaptureMode.Monitor
  g_capture : CaptureDXGI := {}
  g_captureWgc : CaptureWGC := {}
  g_renderer : Renderer := {}
  activeWindowDxgiCrop : CropState := {}
  windowSelectDxgiCrop : CropState := {}
  inRender : Bool := false
  lastGoodFrameMs : Nat := 0
  stallStopPosted : Bool := false

/-- What one tick receives from outside: `IsIconic(hWnd)`, `GetTickCount64()`, the Win32
calls of the crop update, the outcome of `AcquireNextFrame`, what the frame pool of
`g_captureWgc` delivers (texture and timestamp, `none` when it delivers nothing) and the
environment of `Render`. -/
structure TickEnv where
  isIconic : Bool
  nowMs : Nat
  win32 : Win32
  acquire : AcquireResult
  wgcFrame : Option (Frame × Int)
  render : RenderEnv

/-- The calls of one tick that the claims speak about, in the order they are made. -/
inductive TickEvent where
  | GetFrameDXGI
  | GetFrameWGC
  | PostMessage (hWnd msg wParam lParam : Nat)
  | UpdateRepeat (frameTimestamp : Int)
  | Render (srcTex : Option Frame)
  | ReleaseFrameDXGI
  | ReleaseFrameWGC

/-- The call `GetFrame` on the capture object of the given mode. -/
def pollEvent : CaptureMode → TickEvent
  | CaptureMode.Monitor => TickEvent.GetFrameDXGI
  | CaptureMode.Window => TickEvent.GetFrameWGC

/-- The call `ReleaseFrame` on the capture object of the given mode. -/
def releaseEvent : CaptureMode → TickEvent
  | CaptureMode.Monitor => TickEvent.ReleaseFrameDXGI
  | CaptureMode.Window => TickEvent.ReleaseFrameWGC

/-- The message number `WM_APP + 2` (`WM_APP` is `0x8000`). -/
def WM_APP_2 : Nat := 32768 + 2

/-- Lines 1034-1040 of `RenderOneFrame`: the one `GetFrame` call of the tick, on `g_capture`
in monitor mode and on `g_captureWgc` otherwise: the object `g_capture` afterwards and what
the call hands out. -/
def App.pollFrame (t : TickEnv) (app : App) : CaptureDXGI × Option (Frame × Int) :=
  match app.g_captureMode with
  | CaptureMode.Monitor => app.g_capture.GetFrame t.acquire
  | CaptureMode.Window => (app.g_capture, (app.g_captureWgc.GetFrame t.wgcFrame).2)

/-- Lines 1034-1040 of `RenderOneFrame`: the object `g_captureWgc` after the one `GetFrame`
call of the tick. -/
def App.pollWgc (t : TickEnv) (app : App) : CaptureWGC :=
  match app.g_captureMode with
  | CaptureMode.Monitor => app.g_captureWgc
  | CaptureMode.Window => (app.g_captureWgc.GetFrame t.wgcFrame).1

/-- Lines 1013-1070 of `RenderOneFrame`: the renderer after the crop update and the push of
the capture statistics, on which `UpdateRepeat` and `Render` are then called. -/
def App.tickRenderer (t : TickEnv) (app : App) : Renderer :=
  match app.g_captureMode with
  | CaptureMode.Monitor =>
    (UpdateDxgiWindowCropForRenderer t.win32 app.g_renderer app.activeWindowDxgiCrop
      app.windowSelectDxgiCrop).2.SetCaptureStatsDXGI
  | CaptureMode.Window => app.g_renderer.ClearSourceCrop.SetCaptureStatsWGC

/-- Lines 1043-1060 of `RenderOneFrame`: the capture stall watchdog.  Returns the two
function statics afterwards and the message posted, if any. -/
def App.watchdog (t : TickEnv) (app : App) (capture : CaptureDXGI) (got : Bool) :
    Nat × Bool × List TickEvent :=
  let lastGoodFrameMs := if got then t.nowMs else app.lastGoodFrameMs
  let stallStopPosted := if got then false else app.stallStopPosted
  if app.g_captureMode = CaptureMode.Monitor then
    let hr := capture.lastAcquireHr_
    if !stallStopPosted && (decide (hr = DXGI_ERROR_ACCESS_LOST) ||
        decide (hr = DXGI_ERROR_INVALID_CALL) || decide (hr = DXGI_ERROR_ACCESS_DENIED)) then
      (lastGoodFrameMs, true,
        if app.g_trayWnd ≠ 0 then [TickEvent.PostMessage app.g_trayWnd WM_APP_2 0 2] else [])
    else (lastGoodFrameMs, stallStopPosted, [])
  else (lastGoodFrameMs, stallStopPosted, [])

/-- The function `RenderOneFrame(hWnd)` (main.cpp lines 999-1087): the application state
afterwards and the calls made.  The software cursor and tray menu overlay updates of lines
1010-1011 are not modelled. -/
def RenderOneFrame (t : TickEnv) (app : App) (hWnd : Nat) : App × List TickEvent :=
  if app.inRender then (app, [])
  else if !app.g_capturing then (app, [])
  else if hWnd = 0 ∨ hWnd ≠ app.g_renderWnd then (app, [])
  else if t.isIconic then (app, [])
  else
    let mode := app.g_captureMode
    let renderer :=
      match mode with
      | CaptureMode.Monitor =>
        (UpdateDxgiWindowCropForRenderer t.win32 app.g_renderer app.activeWindowDxgiCrop
          app.windowSelectDxgiCrop).2
      | CaptureMode.Window => app.g_renderer.ClearSourceCrop
    let polled := app.pollFrame t
    let capture := polled.1
    let captureWgc := app.pollWgc t
    let w := app.watchdog t capture polled.2.isSome
    let renderer :=
      match mode with
      | CaptureMode.Monitor => renderer.SetCaptureStatsDXGI
      | CaptureMode.Window => renderer.SetCaptureStatsWGC
    match polled.2 with
    | some (frame, frameTimestamp) =>
      let renderer := renderer.UpdateRepeat frameTimestamp
      let renderer := (renderer.Render t.render (some frame)).1
      let capture :=
        match mode with
        | CaptureMode.Monitor => capture.ReleaseFrame
        | CaptureMode.Window => capture
      let captureWgc :=
        match mode with
        | CaptureMode.Monitor => captureWgc
        | CaptureMode.Window => captureWgc.ReleaseFrame
      ({ app with g_renderer := renderer, g_capture := capture, g_captureWgc := captureWgc,
                  inRender := false, lastGoodFrameMs := w.1, stallStopPosted := w.2.1 },
        [pollEvent mode] ++ w.2.2 ++
          [TickEvent.UpdateRepeat frameTimestamp, TickEvent.Render (some frame),
            releaseEvent mode])
    | none =>
      let renderer := (renderer.Render t.render none).1
      ({ app with g_renderer := renderer, g_capture := capture, g_captureWgc := captureWgc,
                  inRender := false, lastGoodFrameMs := w.1, stallStopPosted := w.2.1 },
        [pollEvent mode] ++ w.2.2 ++ [TickEvent.Render none])

/-- The messages posted among the calls of a tick: window, message, `wParam`, `lParam`. -/
def postedMessages : List TickEvent → List (Nat × Nat × Nat × Nat)
  | [] => []
  | TickEvent.PostMessage h m w l :: rest => (h, m, w, l) :: postedMessages rest
  | _ :: rest => postedMessages rest

/-- The handler of `WM_APP + 2` with `wParam = 0` (stop capture, main.cpp lines 1714-1780),
on the modelled fields.  The function statics of `RenderOneFrame` are out of its reach. -/
def App.StopCapture (app : App) : App :=
  if app.g_capturing then
    { app with
      g_capture :=
        if app.g_captureMode = CaptureMode.Monitor then app.g_capture.Cleanup
        else app.g_capture
      g_renderer := app.g_renderer.Cleanup
      g_renderWnd := 0
      g_capturing := false
      activeWindowDxgiCrop := {}
      windowSelectDxgiCrop := {} }
  else app

/-- The handler of `WM_APP + 2` with `wParam = 1` (start capture of the primary monitor,
main.cpp lines 1408-1712) in the case where every step succeeds, on the modelled fields:
`g_capture.Init` leaves a duplication, the first frame is polled (outcome `first`) and
released, the render window `renderWnd` is created, `g_renderer.Init` runs and `g_capturing`
is set.  The function statics of `RenderOneFrame` are out of its reach. -/
def App.StartMonitorCapture (app : App) (renderWnd : Nat) (first : AcquireResult) : App :=
  if app.g_capturing then app
  else
    let c : CaptureDXGI := { app.g_capture.Cleanup with duplication_ := true }
    let r := c.GetFrame first
    let c := if r.2.isSome then r.1.ReleaseFrame else r.1
    { app with
      g_captureMode := CaptureMode.Monitor
      g_capture := c
      g_renderWnd := renderWnd
      g_renderer := app.g_renderer.Init true true
      g_capturing := true }

/-- An outcome of `AcquireNextFrame`: success with the frame `whiteFrame`, present time 1,
one accumulated frame. -/
def acquiredWhite : AcquireResult := ⟨S_OK, 1, 1, some whiteFrame⟩

/-- An outcome of `AcquireNextFrame`: the failure with the code `hr`. -/
def acquireFailed (hr : Int) : AcquireResult := ⟨hr, 0, 0, none⟩

/-- A tick on a visible window at time `nowMs` in which `AcquireNextFrame` has the outcome
`acq`; no window exists for the crop update, WGC delivers nothing, every call of `Render`
succeeds. -/
def tickWith (nowMs : Nat) (acq : AcquireResult) : TickEnv :=
  { isIconic := false, nowMs := nowMs,
    win32 := ⟨fun _ => false, fun _ => none, fun _ _ => none⟩,
    acquire := acq, wgcFrame := none,
    render := RenderEnv.allOk ComputeShaders.idle 8 1 }

/-- The application with the tray window 1, after capture of the primary monitor was started
with the render window 2. -/
def App.session1 : App :=
  ({ g_trayWnd := 1 } : App).StartMonitorCapture 2 acquiredWhite

/-- The application `App.session1` after a tick at time 100 in which `AcquireNextFrame`
fails with `DXGI_ERROR_ACCESS_LOST`, the stop of the capture, and a new start of the capture
of the primary monitor with the render window 3. -/
def App.session2 : App :=
  ((RenderOneFrame (tickWith 100 (acquireFailed DXGI_ERROR_ACCESS_LOST)) App.session1
    2).1.StopCapture).StartMonitorCapture 3 acquiredWhite

/-! ## `CSDepthRaw` in stages

The body of `CSDepthRaw` (3PassShader.cpp lines 131-212) once more, cut into the stages the
source comments name; `depthRawValue` is the composition of these stages. -/

/-- Line 131: the local contrast `c` of the five luminance taps. -/
def tapContrast (gC gL gR gU gD : ℚ) : ℚ :=
  max (max |gC - gL| |gC - gR|) (max |gC - gU| |gC - gD|)

/-- Lines 138-158: the softened luminance, the final value of `g_soft`. -/
def softenedLuma (gC gL gR gU gD : ℚ) : ℚ :=
  let c := tapContrast gC gL gR gU gD
  let g_avg := (gC + gL + gR + gU + gD) * (2 / 10)
  let w := 1 - smoothstep (5 / 100) (25 / 100) c
  let g_soft := lerp gC g_avg w
  let soften := smoothstep (10 / 100) (35 / 100) c
  let g_edge_avg := (gC + gL + gR + gU + gD) * (2 / 10)
  let g_soft := lerp g_soft g_edge_avg (soften * (90 / 100))
  let mid_gray : ℚ := 1 / 2
  let dist := |g_soft - mid_gray|
  let torus := 1 - smoothstep 0 (25 / 1000) dist
  let g_soft := lerp g_soft mid_gray (torus * (50 / 100))
  let highlight := smoothstep (78 / 100) (95 / 100) g_soft
  let contrast := smoothstep (12 / 100) (32 / 100) c
  let spec_pop := highlight * contrast
  lerp g_soft (g_soft * (92 / 100)) (spec_pop * (15 / 100))

/-- Lines 171-175: the activation weights `(w_near1, w_near2, w_mid, w_far1, w_far2)` for
`t = saturate(g_soft)`. -/
def curveWeights (t : ℚ) : ℚ × ℚ × ℚ × ℚ × ℚ :=
  (smoothstep 0 (40 / 100) t, smoothstep (10 / 100) (60 / 100) t,
    smoothstep (20 / 100) (80 / 100) t, smoothstep (15 / 100) (85 / 100) (1 - t),
    smoothstep (35 / 100) 1 (1 - t))

/-- Line 177: the normaliser `w_sum`. -/
def curveWeightSum (t : ℚ) : ℚ :=
  (curveWeights t).1 + (curveWeights t).2.1 + (curveWeights t).2.2.1 +
    (curveWeights t).2.2.2.1 + (curveWeights t).2.2.2.2 + 1 / 1000000

/-- Lines 165-169 and 179-183: the curve outputs `(d_near1, d_near2, d_mid, d_far1, d_far2)`. -/
def curveOutputs (pw : ℚ → ℚ → ℚ) (t : ℚ) : ℚ × ℚ × ℚ × ℚ × ℚ :=
  (pw t (22 / 100), pw t (50 / 100), pw t (90 / 100), 1 - pw (1 - t) (95 / 100),
    1 - pw (1 - t) (135 / 100))

/-- Lines 185-191: the value `curve_blend`. -/
def curveBlend (pw : ℚ → ℚ → ℚ) (t : ℚ) : ℚ :=
  ((curveOutputs pw t).1 * (curveWeights t).1 + (curveOutputs pw t).2.1 * (curveWeights t).2.1 +
    (curveOutputs pw t).2.2.1 * (curveWeights t).2.2.1 +
    (curveOutputs pw t).2.2.2.1 * (curveWeights t).2.2.2.1 +
    (curveOutputs pw t).2.2.2.2 * (curveWeights t).2.2.2.2) / curveWeightSum t

/-- Lines 134-135 and 194-212: the depth before the final `saturate`, from `curve_blend`,
`dark_push`, the softened luminance and the local contrast. -/
def depthShaping (curve_blend dark_push g_soft c : ℚ) : ℚ :=
  let structure_ := smoothstep (12 / 100) (35 / 100) c
  let depth_aggression := lerp (55 / 100) (35 / 100) structure_
  let depth := lerp curve_blend dark_push (1 - g_soft)
  let depth := (depth - 1 / 2) * depth_aggression + 1 / 2
  let depth := lerp depth curve_blend (18 / 1000)
  let depth := (depth - 1 / 2) * depth_aggression + 1 / 2
  let lc_soft := smoothstep (30 / 1000) (4 / 1000) c
  let depth := depth + lc_soft * (1 / 1000000)
  let noise_energy := c * g_soft
  let noise_mask := smoothstep (35 / 100) (75 / 100) noise_energy
  let depth := lerp depth (depth * (20 / 100)) (noise_mask * (18 / 100))
  let depth_mid : ℚ := 1 / 2
  let boost : ℚ := 118 / 100
  (depth - depth_mid) * boost + depth_mid

/-! ## The sampler `samp0` (Renderer.cpp lines 981-999) -/

/-- The addressing of the sampler state created by `Renderer::Init`: `AddressU` and
`AddressV` are `D3D11_TEXTURE_ADDRESS_CLAMP`, so a coordinate outside `[0,1]` is read at the
nearest edge of the texture. -/
def samplerAddress (uv : Float2) : Float2 := (max 0 (min uv.1 1), max 0 (min uv.2 1))

/-- Line 123 of `CSDepthRaw`: the distance `uvStep` between neighbouring taps. -/
def depthRawStep (P : CSParams) (gid : Nat × Nat) : Float2 :=
  (P.cropScale.1 / ((max 1 (EyeMapping P gid).viewW : Nat) : ℚ),
    P.cropScale.2 / ((max 1 P.outHeight : Nat) : ℚ))

/-- The five taps of `CSDepthRaw` as a list: centre, left, right, up, down. -/
def depthRawTapList (P : CSParams) (gid : Nat × Nat) : List Float2 :=
  [(depthRawTaps P gid).1, (depthRawTaps P gid).2.1, (depthRawTaps P gid).2.2.1,
    (depthRawTaps P gid).2.2.2.1, (depthRawTaps P gid).2.2.2.2]

/-- A coordinate lies inside the crop rectangle `[cropOffset, cropOffset + cropScale]` of the
compute constants. -/
def CSParams.insideCrop (P : CSParams) (uv : Float2) : Prop :=
  P.cropOffset.1 ≤ uv.1 ∧ uv.1 ≤ P.cropOffset.1 + P.cropScale.1 ∧
    P.cropOffset.2 ≤ uv.2 ∧ uv.2 ≤ P.cropOffset.2 + P.cropScale.2

instance (P : CSParams) (uv : Float2) : Decidable (P.insideCrop uv) := by
  unfold CSParams.insideCrop
  infer_instance

/-! ## The paced branch of the message loop (main.cpp lines 2513-2549) -/

/-- A `LONGLONG` result: the mathematical value wrapped to 64-bit two's complement. -/
def toInt64 (x : Int) : Int := (x + 2 ^ 63) % 2 ^ 64 - 2 ^ 63

/-- One iteration of the message loop that reaches line 2527 (capturing, positive
`intervalTicks`): whether `RenderOneFrame` is called, and `nextFrameQpc` afterwards.  `now` is
`now.QuadPart`. -/
def pacedIteration (now intervalTicks nextFrameQpc : Int) : Bool × Int :=
  let nextFrameQpc := if nextFrameQpc = 0 then toInt64 (now + intervalTicks) else nextFrameQpc
  if now ≥ nextFrameQpc then
    let nextFrameQpc := toInt64 (nextFrameQpc + intervalTicks)
    let nextFrameQpc :=
      if toInt64 (now - nextFrameQpc) > toInt64 (intervalTicks * 4) then
        toInt64 (now + intervalTicks)
      else nextFrameQpc
    (true, nextFrameQpc)
  else (false, nextFrameQpc)

/-! ## `Renderer::Init` to its end, `Resize`, and sequences of calls

The compilation of the compute shaders (3PassShader.cpp lines 11-49 and 326-336) and the rest
of `Renderer::Init` (Renderer.cpp lines 806-1078), on the modelled fields. -/

/-- Line 161 of 3PassShader.cpp, inside the string `kThreePassHlsl`, as it is written. -/
def kThreePassHlsl_line161 : String := "    float dark_push = pow(1.0 - g_soft, 1.15;"

/-- The number of opening parentheses of a line of source text minus the number of closing
ones.  A declaration of a well-formed HLSL program closes every parenthesis it opens before
its `;`, so it has the difference 0. -/
def openParens (line : String) : Int :=
  line.toList.foldl (fun n c => if c = '(' then n + 1 else if c = ')' then n - 1 else n) 0

/-- The helper `CompileHlsl(kThreePassHlsl, entry, "cs_5_0", outBlob)` (3PassShader.cpp
lines 11-49), called by `CompileDepthRawCS`, `CompileDepthSmoothCS` and `CompileParallaxSbsCS`
(lines 326-336): its return value.  `D3DCompile` is given the whole string whatever the
entry point is, and it fails on a string that does not parse; the declaration of line 161 is
tested here.  (Lines 239 and 288 are not well formed either.) -/
def CompileHlsl (_entry : Pass) : Bool := decide (openParens kThreePassHlsl_line161 = 0)

/-- Lines 924-947 of `Init`: the optional compute shaders.  A shader pointer is set by
`CreateComputeShader` only when the compilation of its entry point returned `true`;
`createOk k` is the outcome of the `k`-th call of `CreateComputeShader`. -/
def Renderer.InitShaders (createOk : Nat → Bool) (s : Renderer) : Renderer :=
  let s := if CompileHlsl Pass.DepthRaw then { s with csDepthRaw_ := createOk 0 } else s
  let s := if CompileHlsl Pass.DepthSmooth then { s with csDepthSmooth_ := createOk 1 } else s
  if CompileHlsl Pass.ParallaxSbs then { s with csParallaxSbs_ := createOk 2 } else s

/-- Lines 806-1078 of `Init`, which run when `device` and `context` are non-null, on the
modelled fields.  `ok k` is the outcome of the `k`-th step that can fail: 0-2 `QueryInterface`,
`GetAdapter`, `GetParent`; 3 `CreateSwapChain`; 4 `ResizeBuffers`; 5 `GetBuffer`;
6 `CreateRenderTargetView`; 7 the compilation of the blit shaders; 8-9 `CreateVertexShader`,
`CreatePixelShader`; 10-12 the three calls of `CreateComputeShader`; 13 `CreateInputLayout`;
14 the vertex buffer; 15 `CreateSamplerState`; 16 the compute constant buffer (optional);
17-20 the stereo, crop, cursor and menu constant buffers.  A failed step other than 10-12
and 16 makes `Init` return at once. -/
def Renderer.InitRest (ok : Nat → Bool) (s : Renderer) : Renderer :=
  if !ok 0 || !ok 1 || !ok 2 then s
  else if !ok 3 then s
  else
    let s := { s with swapChain_ := true }
    if !ok 4 || !ok 5 then s
    else if !ok 6 then s
    else
      let s := { s with rtv_ := true }
      if !ok 7 || !ok 8 || !ok 9 then s
      else
        let s := s.InitShaders (fun k => ok (10 + k))
        if !ok 13 || !ok 14 then s
        else if !ok 15 then s
        else
          let s := { s with sampler_ := true, csParamsCb_ := ok 16 }
          let s := { s with srcW_ := 0, srcH_ := 0, srcFmt_ := 0 }
          if !ok 17 || !ok 18 || !ok 19 || !ok 20 then s
          else s.ClearSourceCrop

/-- The method `Renderer::Init` from its first to its last line (lines 788-1078), on the
modelled fields: `Renderer.Init` for lines 788-804, then `Renderer.InitRest`. -/
def Renderer.InitComplete (s : Renderer) (device context : Bool) (ok : Nat → Bool) : Renderer :=
  if !device || !context then s.Init device context
  else (s.Init device context).InitRest ok

/-- The methods `Renderer::Resize` with a non-zero size (lines 1081-1127) and
`Renderer::RefreshSwapChainForCurrentWindow` (lines 1129-1182), on the modelled fields: the
render-target view is released and created again; `ok 0`, `ok 1`, `ok 2` are the outcomes of
`ResizeBuffers`, `GetBuffer` and `CreateRenderTargetView`. -/
def Renderer.Resize (s : Renderer) (ok : Nat → Bool) : Renderer :=
  if !s.swapChain_ || !s.device_ then s
  else { s with rtv_ := ok 0 && ok 1 && ok 2 }

/-- The calls the application makes on its `Renderer` (main.cpp, DxgiCrop.cpp), with the
outcomes of the D3D11 calls they issue. -/
inductive Call where
  | Init (device context : Bool) (ok : Nat → Bool)
  | Cleanup
  | Resize (ok : Nat → Bool)
  | Render (env : RenderEnv) (srcTex : Option Frame)
  | UpdateRepeat (frameTimestamp : Int)
  | ResetRepeatStats
  | SetCaptureStatsDXGI
  | SetCaptureStatsWGC
  | SetSourceCropNormalized (left top right bottom : ℚ)
  | ClearSourceCrop
  | SetStereoEnabled (enabled : Bool)
  | SetStereoDepthLevel (level : Int)
  | SetStereoParallaxStrengthPercent (percent : Int)
  | SetRenderResolutionIndex (idx : Int)

/-- Effect of one call on the renderer. -/
def Call.apply (s : Renderer) : Call → Renderer
  | Call.Init d c ok => s.InitComplete d c ok
  | Call.Cleanup => s.Cleanup
  | Call.Resize ok => s.Resize ok
  | Call.Render env srcTex => (s.Render env srcTex).1
  | Call.UpdateRepeat ts => s.UpdateRepeat ts
  | Call.ResetRepeatStats => s.ResetRepeatStats
  | Call.SetCaptureStatsDXGI => s.SetCaptureStatsDXGI
  | Call.SetCaptureStatsWGC => s.SetCaptureStatsWGC
  | Call.SetSourceCropNormalized l t r b => s.SetSourceCropNormalized l t r b
  | Call.ClearSourceCrop => s.ClearSourceCrop
  | Call.SetStereoEnabled e => s.SetStereoEnabled e
  | Call.SetStereoDepthLevel x => s.SetStereoDepthLevel x
  | Call.SetStereoParallaxStrengthPercent x => s.SetStereoParallaxStrengthPercent x
  | Call.SetRenderResolutionIndex i => s.SetRenderResolutionIndex i

/-- The two calls that change the source crop. -/
inductive CropCall where
  | Set (left top right bottom : ℚ)
  | Clear

/-- Effect of one crop call. -/
def CropCall.apply (s : Renderer) : CropCall → Renderer
  | CropCall.Set l t r b => s.SetSourceCropNormalized l t r b
  | CropCall.Clear => s.ClearSourceCrop

/-- The condition on the stored crop rectangle: ordered inside `[0,1]`, at least `1/4096` wide
and high when enabled, the identity when disabled. -/
def Renderer.CropInv (s : Renderer) : Prop :=
  (0 ≤ s.cropLeft_ ∧ s.cropLeft_ ≤ s.cropRight_ ∧ s.cropRight_ ≤ 1) ∧
  (0 ≤ s.cropTop_ ∧ s.cropTop_ ≤ s.cropBottom_ ∧ s.cropBottom_ ≤ 1) ∧
  (s.cropEnabled_ = true →
    1 / 4096 ≤ s.cropRight_ - s.cropLeft_ ∧ 1 / 4096 ≤ s.cropBottom_ - s.cropTop_) ∧
  (s.cropEnabled_ = false →
    (s.cropLeft_, s.cropTop_, s.cropRight_, s.cropBottom_) = (0, 0, 1, 1))

/-! ## Basic facts about the intrinsics -/

theorem saturate_nonneg (x : ℚ) : 0 ≤ saturate x := by
  unfold saturate; exact le_max_left _ _

theorem saturate_le_one (x : ℚ) : saturate x ≤ 1 := by
  unfold saturate; exact max_le (by norm_num) (min_le_right _ _)

/-! ## Claims -/

theorem EyeMapping_viewW_pos (P : CSParams) (gid : Nat × Nat) (hx : gid.1 < P.outWidth) :
    1 ≤ (EyeMapping P gid).viewW := by
  unfold EyeMapping
  simp only []
  by_cases h : gid.1 ≥ P.outWidth / 2
  · simp only [h, decide_True, if_true]; omega
  · simp only [h, decide_False]; simp; omega

theorem EyeMapping_localX_lt (P : CSParams) (gid : Nat × Nat) (hx : gid.1 < P.outWidth) :
    (EyeMapping P gid).localX < (EyeMapping P gid).viewW := by
  unfold EyeMapping
  simp only []
  by_cases h : gid.1 ≥ P.outWidth / 2
  · simp only [h, decide_True, if_true]; omega
  · simp only [h, decide_False]; simp; omega

theorem EyeMapping_localX (P : CSParams) (gid : Nat × Nat) :
    (EyeMapping P gid).localX =
      if (EyeMapping P gid).rightEye then gid.1 - P.outWidth / 2 else gid.1 := by
  unfold EyeMapping
  simp only []

theorem setSlot_apply {α : Type} (a : Fin 2 → α) (i j : Fin 2) (v : α) :
    setSlot a i v j = if j = i then v else a j := rfl

theorem okExisting_false_of_size_ne (s : Renderer) (outW outH : Nat)
    (h : (s.depthOutW_, s.depthOutH_) ≠ (outW, outH)) : s.okExisting outW outH = false := by
  unfold Renderer.okExisting
  by_cases hw : s.depthOutW_ = outW
  · by_cases hh : s.depthOutH_ = outH
    · exact absurd (by rw [hw, hh]) h
    · simp [hh]
  · simp [hw]

/-- The state `EnsureDepthStereoResources` returns when it allocates and every creation call
succeeds. -/
theorem ensure_alloc_success (apiOk : Nat → Bool) (s : Renderer) (outW outH : Nat)
    (hdev : s.device_ = true) (hw : 0 < outW) (hh : 0 < outH)
    (hex : s.okExisting outW outH = false) (hok : ∀ k, k < 15 → apiOk k = true) :
    let s' := s.EnsureDepthStereoResources apiOk outW outH
    s'.depthPrevIndex_ = 0 ∧ s'.depthOutW_ = outW ∧ s'.depthOutH_ = outH ∧
    s'.context_ = s.context_ ∧
    (∀ i : Fin 2, ∃ t, s'.depthPrevTex_ i = some t ∧ t.width = outW ∧ t.height = outH ∧
      (s.context_ = true → ∀ p, t.data p = some (1 / 2))) := by
  have h0 := hok 0 (by norm_num)
  have h1 := hok 1 (by norm_num)
  have h2 := hok 2 (by norm_num)
  have h3 := hok 3 (by norm_num)
  have h4 := hok 4 (by norm_num)
  have h5 := hok 5 (by norm_num)
  have h6 := hok 6 (by norm_num)
  have h7 := hok 7 (by norm_num)
  have h8 := hok 8 (by norm_num)
  have h9 := hok 9 (by norm_num)
  have h10 := hok 10 (by norm_num)
  have h11 := hok 11 (by norm_num)
  have h12 := hok 12 (by norm_num)
  have h13 := hok 13 (by norm_num)
  have h14 := hok 14 (by norm_num)
  have hw0 : outW ≠ 0 := by omega
  have hh0 : outH ≠ 0 := by omega
  intro s'
  cases hc : s.context_ <;>
  · simp only [s', Renderer.EnsureDepthStereoResources, hdev, hex, hw0, hh0, createDepthTex,
      Renderer.releaseDepthStereo, Tex.clearFloat,
      h0, h1, h2, h3, h4, h5, h6, h7, h8, h9, h10, h11, h12, h13, h14, hc]
    simp [setSlot_apply]
    intro i
    fin_cases i <;> simp [setSlot_apply, Tex.clearFloat]

/-- C5: whenever `EnsureDepthStereoResources(outW, outH)` allocates for a size that differs
from the currently recorded one, with every creation call succeeding and the device context
present, then on return both history buffers `depthPrev[0]` and `depthPrev[1]` exist at the
new size and hold 0.5 at every texel, `depthPrevIndex_` is 0, and the slot the next stabilizer
pass binds as previous loads 0.5 at every coordinate. -/
theorem C5_history_reset_on_realloc (apiOk : Nat → Bool) (s : Renderer) (outW outH : Nat)
    (hdev : s.device_ = true) (hctx : s.context_ = true) (hw : 0 < outW) (hh : 0 < outH)
    (hsize : (s.depthOutW_, s.depthOutH_) ≠ (outW, outH))
    (hok : ∀ k, k < 15 → apiOk k = true) :
    let s' := s.EnsureDepthStereoResources apiOk outW outH
    s'.depthPrevIndex_ = 0 ∧
    (∀ i : Fin 2, ∃ t, s'.depthPrevTex_ i = some t ∧ t.width = outW ∧ t.height = outH ∧
      ∀ p, t.data p = some (1 / 2)) ∧
    (∀ p, loadTex (s'.depthPrevTex_ (slot s'.smoothPassSlots.1)) p = 1 / 2) := by
  intro s'
  have h := ensure_alloc_success apiOk s outW outH hdev hw hh
    (okExisting_false_of_size_ne s outW outH hsize) hok
  have hall : ∀ i : Fin 2, ∃ t, s'.depthPrevTex_ i = some t ∧ t.width = outW ∧
      t.height = outH ∧ ∀ p, t.data p = some (1 / 2) := by
    intro i
    obtain ⟨t, ht, hw', hh', hd⟩ := h.2.2.2.2 i
    exact ⟨t, ht, hw', hh', hd hctx⟩
  refine ⟨h.1, hall, fun p => ?_⟩
  obtain ⟨t, ht, _, _, hd⟩ := hall (slot s'.smoothPassSlots.1)
  rw [ht]
  simp [loadTex, hd p]

/-- Witness for C5: a renderer initialised with a device and context, holding 1920x1080
buffers, is asked for 1280x720. -/
theorem C5_history_reset_on_realloc_witness :
    (((({} : Renderer).Init true true).EnsureDepthStereoResources (fun _ => true) 1920 1080
        ).EnsureDepthStereoResources (fun _ => true) 1280 720).depthPrevIndex_ = 0 ∧
    ∀ i : Fin 2, ∃ t,
      (((({} : Renderer).Init true true).EnsureDepthStereoResources (fun _ => true) 1920 1080
        ).EnsureDepthStereoResources (fun _ => true) 1280 720).depthPrevTex_ i = some t ∧
      t.width = 1280 ∧ t.height = 720 ∧ ∀ p, t.data p = some (1 / 2) :=
  have h := C5_history_reset_on_realloc (fun _ => true)
    ((({} : Renderer).Init true true).EnsureDepthStereoResources (fun _ => true) 1920 1080)
    1280 720 rfl rfl (by decide) (by decide)
    (by decide)
    (fun _ _ => rfl)
  ⟨h.1, h.2.1⟩

/-! ### C6: the history ping-pong -/

theorem int_land_zero (n : Int) : Int.land n 0 = 0 := by
  cases n with
  | ofNat m => show ((m &&& 0 : Nat) : Int) = 0; simp
  | negSucc m => show ((Nat.ldiff 0 m : Nat) : Int) = 0; simp [Nat.ldiff]

theorem int_xor_zero (n : Int) : Int.xor n 0 = n := by
  cases n with
  | ofNat m => show ((m ^^^ 0 : Nat) : Int) = (m : Int); simp
  | negSucc m => show Int.negSucc (m ^^^ 0) = Int.negSucc m; simp

theorem land_one_eq (i : Int) : Int.land i 1 = i % 2 := by
  induction i using Int.bitCasesOn with
  | _ b n =>
    have h1 : (1 : Int) = Int.bit true 0 := by simp [Int.bit_val]
    rw [h1, Int.land_bit, int_land_zero]
    cases b <;> (simp [Int.bit_val]; try omega)

theorem xor_one_land_one_eq (i : Int) : Int.land (Int.xor i 1) 1 = 1 - i % 2 := by
  induction i using Int.bitCasesOn with
  | _ b n =>
    have h1 : (1 : Int) = Int.bit true 0 := by simp [Int.bit_val]
    rw [h1, Int.lxor_bit, Int.land_bit, int_land_zero]
    cases b <;> (simp [Int.bit_val]; try omega)

/-- C6: in the stabilizer pass of `Render`, for every shader object, the history slot bound
for reading (`depthPrevIndex_ & 1`, at `t2`) and the slot bound for writing (at `u1`) are two
distinct members of `{0,1}`.  The slot read is left as it was; the slot written and the
stabilized output receive the stores of threads that were given the slot read as their
history, and nothing the pass stores depends on what the slot written held before.  After the
pass `depthPrevIndex_` equals the slot just written, so the next pass is given exactly the
slot this pass wrote as its history and writes the other one.  This holds for every value of
`depthPrevIndex_`. -/
theorem C6_history_pingpong (cs : ComputeShaders) (P : CSParams) (gx gy : Nat) (s : Renderer) :
    let prevIdx := s.smoothPassSlots.1
    let nextIdx := s.smoothPassSlots.2
    let s' := s.depthSmoothPass cs P gx gy
    let thread :=
      cs.csDepthSmooth P (loadTex s.depthRawTex_) (loadTex (s.depthPrevTex_ (slot prevIdx)))
    (prevIdx = 0 ∨ prevIdx = 1) ∧ (nextIdx = 0 ∨ nextIdx = 1) ∧ prevIdx ≠ nextIdx ∧
    slot prevIdx ≠ slot nextIdx ∧
    s'.depthPrevTex_ (slot prevIdx) = s.depthPrevTex_ (slot prevIdx) ∧
    s'.depthPrevTex_ (slot nextIdx) =
      (s.depthPrevTex_ (slot nextIdx)).map (Tex.dispatchStore (fun gid => (thread gid).1) gx gy) ∧
    s'.depthSmoothTex_ =
      s.depthSmoothTex_.map (Tex.dispatchStore (fun gid => (thread gid).2) gx gy) ∧
    (∀ t : Option (Tex ℚ),
      (Renderer.depthSmoothPass cs P gx gy
        { s with depthPrevTex_ := setSlot s.depthPrevTex_ (slot nextIdx) t }).depthSmoothTex_ =
          s'.depthSmoothTex_ ∧
      (Renderer.depthSmoothPass cs P gx gy
        { s with depthPrevTex_ := setSlot s.depthPrevTex_ (slot nextIdx) t }).depthPrevTex_
          (slot nextIdx) = t.map (Tex.dispatchStore (fun gid => (thread gid).1) gx gy)) ∧
    s'.depthPrevIndex_ = nextIdx ∧
    s'.smoothPassSlots = (nextIdx, prevIdx) ∧
    (∀ (cs2 : ComputeShaders) (P2 : CSParams) (gx2 gy2 : Nat),
      (s'.depthSmoothPass cs2 P2 gx2 gy2).depthSmoothTex_ =
        s'.depthSmoothTex_.map (Tex.dispatchStore
          (fun gid => (cs2.csDepthSmooth P2 (loadTex s'.depthRawTex_)
            (loadTex (s'.depthPrevTex_ (slot nextIdx))) gid).2) gx2 gy2) ∧
      (s'.depthSmoothPass cs2 P2 gx2 gy2).depthPrevTex_ (slot nextIdx) =
        s'.depthPrevTex_ (slot nextIdx)) := by
  intro prevIdx nextIdx s' thread
  have hp : prevIdx = s.depthPrevIndex_ % 2 := land_one_eq _
  have hn : nextIdx = 1 - s.depthPrevIndex_ % 2 := xor_one_land_one_eq _
  have hidx : s'.depthPrevIndex_ = nextIdx := rfl
  have hcase : (prevIdx = 0 ∧ nextIdx = 1) ∨ (prevIdx = 1 ∧ nextIdx = 0) := by omega
  have hslot : slot prevIdx ≠ slot nextIdx := by
    rcases hcase with ⟨h1, h2⟩ | ⟨h1, h2⟩ <;> rw [h1, h2] <;> decide
  have hslots : s'.smoothPassSlots = (nextIdx, prevIdx) := by
    show (Int.land s'.depthPrevIndex_ 1, Int.land (Int.xor s'.depthPrevIndex_ 1) 1) = _
    rw [hidx, land_one_eq, xor_one_land_one_eq]
    rcases hcase with ⟨h1, h2⟩ | ⟨h1, h2⟩ <;> rw [h1, h2] <;> rfl
  have hkeep : s'.depthPrevTex_ (slot prevIdx) = s.depthPrevTex_ (slot prevIdx) := by
    show setSlot s.depthPrevTex_ (slot nextIdx) _ (slot prevIdx) = _
    rw [setSlot_apply, if_neg hslot]
  have hwritten : s'.depthPrevTex_ (slot nextIdx) =
      (s.depthPrevTex_ (slot nextIdx)).map
        (Tex.dispatchStore (fun gid => (thread gid).1) gx gy) := by
    show setSlot s.depthPrevTex_ (slot nextIdx) _ (slot nextIdx) = _
    rw [setSlot_apply, if_pos rfl]
  refine ⟨by omega, by omega, by omega, hslot, hkeep, hwritten, rfl, fun t => ⟨?_, ?_⟩, hidx,
    hslots, fun cs2 P2 gx2 gy2 => ⟨?_, ?_⟩⟩
  · show Option.map (Tex.dispatchStore (fun gid =>
      (cs.csDepthSmooth P (loadTex s.depthRawTex_)
        (loadTex (setSlot s.depthPrevTex_ (slot nextIdx) t (slot prevIdx))) gid).2) gx gy)
        s.depthSmoothTex_ = _
    rw [setSlot_apply, if_neg hslot]
    rfl
  · show setSlot (setSlot s.depthPrevTex_ (slot nextIdx) t) (slot nextIdx)
      (Option.map (Tex.dispatchStore (fun gid =>
        (cs.csDepthSmooth P (loadTex s.depthRawTex_)
          (loadTex (setSlot s.depthPrevTex_ (slot nextIdx) t (slot prevIdx))) gid).1) gx gy)
        (setSlot s.depthPrevTex_ (slot nextIdx) t (slot nextIdx))) (slot nextIdx) = _
    rw [setSlot_apply, if_pos rfl, setSlot_apply, if_neg hslot, setSlot_apply, if_pos rfl]
  · show Option.map (Tex.dispatchStore (fun gid =>
      (cs2.csDepthSmooth P2 (loadTex s'.depthRawTex_)
        (loadTex (s'.depthPrevTex_ (slot s'.smoothPassSlots.1))) gid).2) gx2 gy2)
        s'.depthSmoothTex_ = _
    rw [hslots]
  · show setSlot s'.depthPrevTex_ (slot s'.smoothPassSlots.2) _ (slot nextIdx) = _
    rw [hslots, setSlot_apply, if_neg (Ne.symm hslot)]

/-! ### C7: the depth buffers are recreated as a unit -/

/-- What `EnsureDepthStereoResources` leaves behind when it takes the allocation path: only
textures of the requested size, and either no recorded size or a complete set. -/
theorem ensure_alloc_cases (apiOk : Nat → Bool) (s : Renderer) (outW outH : Nat)
    (hdev : s.device_ = true) (hw : outW ≠ 0) (hh : outH ≠ 0)
    (hex : s.okExisting outW outH = false) :
    let s' := s.EnsureDepthStereoResources apiOk outW outH
    s'.device_ = true ∧
    (∀ sz ∈ s'.depthBufferSizes, sz = none ∨ sz = some (outW, outH)) ∧
    ((s'.depthOutW_ = 0 ∧ s'.depthOutH_ = 0) ∨
      (s'.depthOutW_ = outW ∧ s'.depthOutH_ = outH ∧
        s'.depthBufferSizes = List.replicate 5 (some (outW, outH)))) := by
  intro s'
  cases h0 : apiOk 0
  · simp [s', Renderer.EnsureDepthStereoResources, hdev, hex, hw, hh, createDepthTex,
      Renderer.releaseDepthStereo, Tex.clearFloat, Renderer.depthBufferSizes, setSlot_apply,
      h0]
  cases h1 : apiOk 1
  · simp [s', Renderer.EnsureDepthStereoResources, hdev, hex, hw, hh, createDepthTex,
      Renderer.releaseDepthStereo, Tex.clearFloat, Renderer.depthBufferSizes, setSlot_apply,
      h0, h1]
  cases h2 : apiOk 2
  · simp [s', Renderer.EnsureDepthStereoResources, hdev, hex, hw, hh, createDepthTex,
      Renderer.releaseDepthStereo, Tex.clearFloat, Renderer.depthBufferSizes, setSlot_apply,
      h0, h1, h2]
  cases h3 : apiOk 3
  · simp [s', Renderer.EnsureDepthStereoResources, hdev, hex, hw, hh, createDepthTex,
      Renderer.releaseDepthStereo, Tex.clearFloat, Renderer.depthBufferSizes, setSlot_apply,
      h0, h1, h2, h3]
  cases h4 : apiOk 4
  · simp [s', Renderer.EnsureDepthStereoResources, hdev, hex, hw, hh, createDepthTex,
      Renderer.releaseDepthStereo, Tex.clearFloat, Renderer.depthBufferSizes, setSlot_apply,
      h0, h1, h2, h3, h4]
  cases h5 : apiOk 5
  · simp [s', Renderer.EnsureDepthStereoResources, hdev, hex, hw, hh, createDepthTex,
      Renderer.releaseDepthStereo, Tex.clearFloat, Renderer.depthBufferSizes, setSlot_apply,
      h0, h1, h2, h3, h4, h5]
  cases h6 : apiOk 6
  · simp [s', Renderer.EnsureDepthStereoResources, hdev, hex, hw, hh, createDepthTex,
      Renderer.releaseDepthStereo, Tex.clearFloat, Renderer.depthBufferSizes, setSlot_apply,
      h0, h1, h2, h3, h4, h5, h6]
  cases h7 : apiOk 7
  · simp [s', Renderer.EnsureDepthStereoResources, hdev, hex, hw, hh, createDepthTex,
      Renderer.releaseDepthStereo, Tex.clearFloat, Renderer.depthBufferSizes, setSlot_apply,
      h0, h1, h2, h3, h4, h5, h6, h7]
  cases h8 : apiOk 8
  · simp [s', Renderer.EnsureDepthStereoResources, hdev, hex, hw, hh, createDepthTex,
      Renderer.releaseDepthStereo, Tex.clearFloat, Renderer.depthBufferSizes, setSlot_apply,
      h0, h1, h2, h3, h4, h5, h6, h7, h8]
  cases h9 : apiOk 9
  · simp [s', Renderer.EnsureDepthStereoResources, hdev, hex, hw, hh, createDepthTex,
      Renderer.releaseDepthStereo, Tex.clearFloat, Renderer.depthBufferSizes, setSlot_apply,
      h0, h1, h2, h3, h4, h5, h6, h7, h8, h9]
  cases h10 : apiOk 10
  · simp [s', Renderer.EnsureDepthStereoResources, hdev, hex, hw, hh, createDepthTex,
      Renderer.releaseDepthStereo, Tex.clearFloat, Renderer.depthBufferSizes, setSlot_apply,
      h0, h1, h2, h3, h4, h5, h6, h7, h8, h9, h10]
  cases h11 : apiOk 11
  · simp [s', Renderer.EnsureDepthStereoResources, hdev, hex, hw, hh, createDepthTex,
      Renderer.releaseDepthStereo, Tex.clearFloat, Renderer.depthBufferSizes, setSlot_apply,
      h0, h1, h2, h3, h4, h5, h6, h7, h8, h9, h10, h11]
  cases h12 : apiOk 12
  · simp [s', Renderer.EnsureDepthStereoResources, hdev, hex, hw, hh, createDepthTex,
      Renderer.releaseDepthStereo, Tex.clearFloat, Renderer.depthBufferSizes, setSlot_apply,
      h0, h1, h2, h3, h4, h5, h6, h7, h8, h9, h10, h11, h12]
  cases h13 : apiOk 13
  · simp [s', Renderer.EnsureDepthStereoResources, hdev, hex, hw, hh, createDepthTex,
      Renderer.releaseDepthStereo, Tex.clearFloat, Renderer.depthBufferSizes, setSlot_apply,
      h0, h1, h2, h3, h4, h5, h6, h7, h8, h9, h10, h11, h12, h13]
  cases h14 : apiOk 14
  · simp [s', Renderer.EnsureDepthStereoResources, hdev, hex, hw, hh, createDepthTex,
      Renderer.releaseDepthStereo, Tex.clearFloat, Renderer.depthBufferSizes, setSlot_apply,
      h0, h1, h2, h3, h4, h5, h6, h7, h8, h9, h10, h11, h12, h13, h14]
  cases hc : s.context_ <;>
    simp [s', Renderer.EnsureDepthStereoResources, hdev, hex, hw, hh, createDepthTex,
      Renderer.releaseDepthStereo, Tex.clearFloat, Renderer.depthBufferSizes, setSlot_apply,
      h0, h1, h2, h3, h4, h5, h6, h7, h8, h9, h10, h11, h12, h13, h14, hc]

theorem okExisting_sizes (s : Renderer) (outW outH : Nat) (h : s.okExisting outW outH = true) :
    s.depthOutW_ = outW ∧ s.depthOutH_ = outH ∧ ∀ sz ∈ s.depthBufferSizes, sz ≠ none := by
  unfold Renderer.okExisting at h
  simp only [Bool.and_eq_true, decide_eq_true_eq] at h
  obtain ⟨⟨⟨⟨⟨⟨⟨⟨⟨⟨⟨⟨⟨⟨⟨⟨a, _⟩, _⟩, b⟩, _⟩, _⟩, c⟩, _⟩, _⟩, d⟩, _⟩, _⟩, e⟩, _⟩, _⟩, hw⟩, hh⟩ := h
  refine ⟨hw, hh, ?_⟩
  intro sz hsz
  simp only [Renderer.depthBufferSizes, List.mem_cons, List.mem_singleton, List.mem_nil_iff,
    or_false] at hsz
  rw [Option.isSome_iff_exists] at a b c d e
  obtain ⟨ta, ha⟩ := a
  obtain ⟨tb, hb⟩ := b
  obtain ⟨tc, hc⟩ := c
  obtain ⟨td, hd⟩ := d
  obtain ⟨te, he⟩ := e
  rcases hsz with h | h | h | h | h <;> simp [h, ha, hb, hc, hd, he]

/-- Under the consistency condition, a call `EnsureDepthStereoResources(w, h)` with
`w, h > 0` ends with a complete set of `w x h` textures recorded as `(w, h)` or with no
recorded size, never with a texture of another size; and the condition holds again. -/
theorem ensure_under_inv (apiOk : Nat → Bool) (s : Renderer) (outW outH : Nat)
    (hinv : s.DepthInv) (hw : 0 < outW) (hh : 0 < outH) :
    let s' := s.EnsureDepthStereoResources apiOk outW outH
    ((s'.depthBufferSizes = List.replicate 5 (some (outW, outH)) ∧
        (s'.depthOutW_, s'.depthOutH_) = (outW, outH)) ∨
      (s'.depthOutW_, s'.depthOutH_) = (0, 0)) ∧
    (∀ sz ∈ s'.depthBufferSizes, sz = none ∨ sz = some (outW, outH)) := by
  intro s'
  have hw0 : outW ≠ 0 := by omega
  have hh0 : outH ≠ 0 := by omega
  cases hdev : s.device_ with
  | false =>
    have hs : s' = s := by simp [s', Renderer.EnsureDepthStereoResources, hdev]
    obtain ⟨h1, h2, h3⟩ := hinv.1 hdev
    rw [hs]
    refine ⟨Or.inr (by rw [h2, h3]), ?_⟩
    rw [h1]
    intro sz hsz
    simp at hsz
    exact Or.inl hsz
  | true =>
    cases hex : s.okExisting outW outH with
    | true =>
      have hs : s' = s := by
        simp [s', Renderer.EnsureDepthStereoResources, hdev, hex, hw0, hh0]
      obtain ⟨h1, h2, h3⟩ := okExisting_sizes s outW outH hex
      have h4 := hinv.2 (Or.inl (by omega))
      rw [h1, h2] at h4
      rw [hs]
      have hfive : s.depthBufferSizes = List.replicate 5 (some (outW, outH)) := by
        have e1 := h4 _ (List.mem_cons_self _ _)
        have n1 := h3 _ (List.mem_cons_self _ _)
        have e2 := h4 _ (List.mem_cons_of_mem _ (List.mem_cons_self _ _))
        have n2 := h3 _ (List.mem_cons_of_mem _ (List.mem_cons_self _ _))
        have e3 := h4 _ (List.mem_cons_of_mem _ (List.mem_cons_of_mem _ (List.mem_cons_self _ _)))
        have n3 := h3 _ (List.mem_cons_of_mem _ (List.mem_cons_of_mem _ (List.mem_cons_self _ _)))
        have e4 := h4 _ (List.mem_cons_of_mem _ (List.mem_cons_of_mem _
          (List.mem_cons_of_mem _ (List.mem_cons_self _ _))))
        have n4 := h3 _ (List.mem_cons_of_mem _ (List.mem_cons_of_mem _
          (List.mem_cons_of_mem _ (List.mem_cons_self _ _))))
        have e5 := h4 _ (List.mem_cons_of_mem _ (List.mem_cons_of_mem _
          (List.mem_cons_of_mem _ (List.mem_cons_of_mem _ (List.mem_cons_self _ _)))))
        have n5 := h3 _ (List.mem_cons_of_mem _ (List.mem_cons_of_mem _
          (List.mem_cons_of_mem _ (List.mem_cons_of_mem _ (List.mem_cons_self _ _)))))
        unfold Renderer.depthBufferSizes
        rw [e1.resolve_left n1, e2.resolve_left n2, e3.resolve_left n3, e4.resolve_left n4,
          e5.resolve_left n5]
        rfl
      exact ⟨Or.inl ⟨hfive, by rw [h1, h2]⟩, h4⟩
    | false =>
      obtain ⟨_, h2, h3⟩ := ensure_alloc_cases apiOk s outW outH hdev hw0 hh0 hex
      refine ⟨?_, h2⟩
      rcases h3 with ⟨a, b⟩ | ⟨a, b, c⟩
      · exact Or.inr (by rw [a, b])
      · exact Or.inl ⟨c, by rw [a, b]⟩

theorem DepthInv_of_eq (s s' : Renderer) (hd : s'.device_ = s.device_)
    (hb : s'.depthBufferSizes = s.depthBufferSizes) (hw : s'.depthOutW_ = s.depthOutW_)
    (hh : s'.depthOutH_ = s.depthOutH_) (h : s.DepthInv) : s'.DepthInv := by
  unfold Renderer.DepthInv at *
  rw [hd, hb, hw, hh]
  exact h

theorem DepthInv_released (s : Renderer)
    (hb : s.depthBufferSizes = [none, none, none, none, none])
    (hw : s.depthOutW_ = 0) (hh : s.depthOutH_ = 0) : s.DepthInv := by
  unfold Renderer.DepthInv
  rw [hb, hw, hh]
  simp

theorem DepthInv_ensure (apiOk : Nat → Bool) (s : Renderer) (outW outH : Nat)
    (hinv : s.DepthInv) : (s.EnsureDepthStereoResources apiOk outW outH).DepthInv := by
  cases hdev : s.device_ with
  | false =>
    have hs : s.EnsureDepthStereoResources apiOk outW outH = s := by
      simp [Renderer.EnsureDepthStereoResources, hdev]
    rw [hs]; exact hinv
  | true =>
    by_cases hz : outW = 0 ∨ outH = 0
    · have hs : s.EnsureDepthStereoResources apiOk outW outH = s := by
        simp [Renderer.EnsureDepthStereoResources, hdev, hz]
      rw [hs]; exact hinv
    · push_neg at hz
      cases hex : s.okExisting outW outH with
      | true =>
        have hs : s.EnsureDepthStereoResources apiOk outW outH = s := by
          simp [Renderer.EnsureDepthStereoResources, hdev, hex, hz.1, hz.2]
        rw [hs]; exact hinv
      | false =>
        obtain ⟨h1, h2, h3⟩ := ensure_alloc_cases apiOk s outW outH hdev hz.1 hz.2 hex
        refine ⟨fun hf => ?_, fun hne => ?_⟩
        · rw [h1] at hf; cases hf
        · rcases h3 with ⟨a, b⟩ | ⟨a, b, _⟩
          · rcases hne with hne | hne
            · exact absurd a hne
            · exact absurd b hne
          · rw [a, b]; exact h2

theorem map_size_dispatchStore {α : Type} (thread : Nat × Nat → Option α) (gx gy : Nat)
    (t : Option (Tex α)) :
    (t.map (Tex.dispatchStore thread gx gy)).map (fun t => (t.width, t.height)) =
      t.map (fun t => (t.width, t.height)) := by
  cases t <;> rfl

theorem DepthInv_depthRawPass (cs : ComputeShaders) (P : CSParams) (srcTex : Float2 → Float4)
    (gx gy : Nat) (s : Renderer) (h : s.DepthInv) : (s.depthRawPass cs P srcTex gx gy).DepthInv := by
  refine DepthInv_of_eq s _ rfl ?_ rfl rfl h
  simp only [Renderer.depthBufferSizes, Renderer.depthRawPass, map_size_dispatchStore]

theorem DepthInv_parallaxPass (cs : ComputeShaders) (P : CSParams) (srcTex : Float2 → Float4)
    (gx gy : Nat) (s : Renderer) (h : s.DepthInv) : (s.parallaxPass cs P srcTex gx gy).DepthInv := by
  refine DepthInv_of_eq s _ rfl ?_ rfl rfl h
  simp only [Renderer.depthBufferSizes, Renderer.parallaxPass, map_size_dispatchStore]

theorem DepthInv_depthSmoothPass (cs : ComputeShaders) (P : CSParams) (gx gy : Nat) (s : Renderer)
    (h : s.DepthInv) : (s.depthSmoothPass cs P gx gy).DepthInv := by
  refine DepthInv_of_eq s _ rfl ?_ rfl rfl h
  have hslot : ∀ j : Fin 2,
      ((s.depthSmoothPass cs P gx gy).depthPrevTex_ j).map (fun t => (t.width, t.height)) =
        (s.depthPrevTex_ j).map (fun t => (t.width, t.height)) := by
    intro j
    show (setSlot s.depthPrevTex_ _ _ j).map _ = _
    rw [setSlot_apply]
    split
    · rename_i hj
      rw [map_size_dispatchStore, hj]
    · rfl
  have hsm : ((s.depthSmoothPass cs P gx gy).depthSmoothTex_).map (fun t => (t.width, t.height)) =
      s.depthSmoothTex_.map (fun t => (t.width, t.height)) := map_size_dispatchStore _ _ _ _
  unfold Renderer.depthBufferSizes
  rw [hslot 0, hslot 1, hsm]
  rfl

theorem DepthInv_renderDepthBlock (cs : ComputeShaders) (apiOk : Nat → Bool) (mapOk : Bool)
    (stale : CSParams) (srcTex : Float2 → Float4) (computeW computeH : Nat)
    (presentingDownscaled : Bool) (s : Renderer) (h : s.DepthInv) :
    (s.renderDepthBlock cs apiOk mapOk stale srcTex computeW computeH
      presentingDownscaled).DepthInv := by
  have h1 := DepthInv_ensure apiOk s computeW computeH h
  unfold Renderer.renderDepthBlock
  simp only []
  split
  · apply DepthInv_parallaxPass
    apply DepthInv_depthSmoothPass
    apply DepthInv_depthRawPass
    exact DepthInv_of_eq _ _ rfl rfl rfl rfl h1
  · exact h1

theorem DepthInv_apply (s : Renderer) (op : Op) (h : s.DepthInv) : (op.apply s).DepthInv := by
  cases op with
  | Init d c =>
    show (s.Init d c).DepthInv
    unfold Renderer.Init Renderer.Cleanup
    simp only []
    split
    · exact DepthInv_released _ rfl rfl rfl
    · exact DepthInv_released _ rfl rfl rfl
  | Cleanup => exact DepthInv_released _ rfl rfl rfl
  | EnsureDepthStereoResources apiOk w h' => exact DepthInv_ensure apiOk s w h' h
  | RenderDepth cs apiOk mapOk stale srcTex w h' pd =>
    exact DepthInv_renderDepthBlock cs apiOk mapOk stale srcTex w h' pd s h
  | SetSourceCropNormalized l t r b =>
    show (s.SetSourceCropNormalized l t r b).DepthInv
    unfold Renderer.SetSourceCropNormalized Renderer.ClearSourceCrop
    simp only []
    split_ifs <;> exact DepthInv_of_eq s _ rfl rfl rfl rfl h
  | ClearSourceCrop => exact DepthInv_of_eq s _ rfl rfl rfl rfl h
  | SetStereoDepthLevel x => exact DepthInv_of_eq s _ rfl rfl rfl rfl h
  | SetStereoParallaxStrengthPercent x => exact DepthInv_of_eq s _ rfl rfl rfl rfl h

theorem DepthInv_foldl (ops : List Op) (s : Renderer) (h : s.DepthInv) :
    (ops.foldl Op.apply s).DepthInv := by
  induction ops generalizing s with
  | nil => exact h
  | cons op rest ih => exact ih _ (DepthInv_apply s op h)

theorem DepthInv_runOps (ops : List Op) : (runOps ops).DepthInv := by
  apply DepthInv_foldl
  unfold Renderer.DepthInv
  simp [Renderer.depthBufferSizes]

/-- C7: after every call `EnsureDepthStereoResources(w, h)` with `w, h > 0`, made in any state
a `Renderer` can reach through its calls, either all five depth pipeline textures (raw depth,
stabilized depth, both history slots, stereo output) exist and were created at exactly
`w x h` with the recorded size `(depthOutW_, depthOutH_) = (w, h)`, or the recorded size is
`(0, 0)`; and no texture created for a size other than `(w, h)` survives the call. -/
theorem C7_buffers_recreated_as_unit (ops : List Op) (apiOk : Nat → Bool) (w h : Nat)
    (hw : 0 < w) (hh : 0 < h) :
    let s' := (runOps ops).EnsureDepthStereoResources apiOk w h
    ((s'.depthBufferSizes = List.replicate 5 (some (w, h)) ∧
        (s'.depthOutW_, s'.depthOutH_) = (w, h)) ∨
      (s'.depthOutW_, s'.depthOutH_) = (0, 0)) ∧
    (∀ sz ∈ s'.depthBufferSizes, sz = none ∨ sz = some (w, h)) :=
  ensure_under_inv apiOk (runOps ops) w h (DepthInv_runOps ops) hw hh

/-- Witness for C7: buffers allocated at 1920x1080, then a call for 1280x720 in which the
creation of the second history texture (call 9) fails. -/
theorem C7_buffers_recreated_as_unit_witness :
    (0 : Nat) < 1280 ∧ (0 : Nat) < 720 ∧
    (((runOps [Op.Init true true, Op.EnsureDepthStereoResources (fun _ => true) 1920 1080]
        ).EnsureDepthStereoResources (fun k => decide (k ≠ 9)) 1280 720).depthOutW_,
     ((runOps [Op.Init true true, Op.EnsureDepthStereoResources (fun _ => true) 1920 1080]
        ).EnsureDepthStereoResources (fun k => decide (k ≠ 9)) 1280 720).depthOutH_) = (0, 0) ∧
    ∀ sz ∈ ((runOps [Op.Init true true, Op.EnsureDepthStereoResources (fun _ => true) 1920 1080]
        ).EnsureDepthStereoResources (fun k => decide (k ≠ 9)) 1280 720).depthBufferSizes,
      sz = none ∨ sz = some (1280, 720) :=
  ⟨by decide, by decide, by decide,
    (C7_buffers_recreated_as_unit
      [Op.Init true true, Op.EnsureDepthStereoResources (fun _ => true) 1920 1080]
      (fun k => decide (k ≠ 9)) 1280 720 (by decide) (by decide)).2⟩

/-! ### C8: degenerate crop rectangles -/

theorem Clamp01_eq (v : ℚ) : Clamp01 v = max 0 (min v 1) := by
  unfold Clamp01
  split_ifs with h1 h2
  · rw [max_eq_left]; exact le_trans (min_le_left _ _) (le_of_lt h1)
  · rw [min_eq_right (le_of_lt h2), max_eq_right (by norm_num)]
  · push_neg at h1 h2
    rw [min_eq_left h2, max_eq_right h1]

theorem swap_fst (a b : ℚ) : (if b < a then (b, a) else (a, b)).1 = min a b := by
  split_ifs with h
  · exact (min_eq_right (le_of_lt h)).symm
  · exact (min_eq_left (not_lt.mp h)).symm

theorem swap_snd (a b : ℚ) : (if b < a then (b, a) else (a, b)).2 = max a b := by
  split_ifs with h
  · exact (max_eq_left (le_of_lt h)).symm
  · exact (max_eq_right (not_lt.mp h)).symm

/-- C8: for all arguments `l, t, r, b` of `SetSourceCropNormalized`: if, after clamping each
to `[0,1]` and ordering each pair, the width `r - l` or the height `b - t` is smaller than
`1/4096`, then on return the crop is disabled and the stored rectangle is `(0, 0, 1, 1)`. -/
theorem C8_degenerate_crop_disabled (s : Renderer) (l t r b : ℚ)
    (h : max (max 0 (min l 1)) (max 0 (min r 1)) - min (max 0 (min l 1)) (max 0 (min r 1))
           < 1 / 4096 ∨
         max (max 0 (min t 1)) (max 0 (min b 1)) - min (max 0 (min t 1)) (max 0 (min b 1))
           < 1 / 4096) :
    (s.SetSourceCropNormalized l t r b).cropEnabled_ = false ∧
    ((s.SetSourceCropNormalized l t r b).cropLeft_, (s.SetSourceCropNormalized l t r b).cropTop_,
      (s.SetSourceCropNormalized l t r b).cropRight_,
      (s.SetSourceCropNormalized l t r b).cropBottom_) = (0, 0, 1, 1) := by
  have hc : (if Clamp01 r < Clamp01 l then (Clamp01 r, Clamp01 l) else (Clamp01 l, Clamp01 r)).2 -
        (if Clamp01 r < Clamp01 l then (Clamp01 r, Clamp01 l) else (Clamp01 l, Clamp01 r)).1
          < 1 / 4096 ∨
      (if Clamp01 b < Clamp01 t then (Clamp01 b, Clamp01 t) else (Clamp01 t, Clamp01 b)).2 -
        (if Clamp01 b < Clamp01 t then (Clamp01 b, Clamp01 t) else (Clamp01 t, Clamp01 b)).1
          < 1 / 4096 := by
    rw [swap_fst, swap_snd, swap_fst, swap_snd, Clamp01_eq l, Clamp01_eq r, Clamp01_eq t,
      Clamp01_eq b]
    exact h
  have hs : s.SetSourceCropNormalized l t r b = s.ClearSourceCrop := by
    unfold Renderer.SetSourceCropNormalized
    simp only []
    rw [if_pos hc]
  rw [hs]
  exact ⟨rfl, rfl⟩

/-- Witness for C8: the rectangle `(0.3, 0.2, 0.3001, 0.9)` has width `0.0001 < 1/4096`. -/
theorem C8_degenerate_crop_disabled_witness :
    (({} : Renderer).SetSourceCropNormalized (3 / 10) (2 / 10) (3001 / 10000) (9 / 10)
      ).cropEnabled_ = false ∧
    ((({} : Renderer).SetSourceCropNormalized (3 / 10) (2 / 10) (3001 / 10000) (9 / 10)).cropLeft_,
     (({} : Renderer).SetSourceCropNormalized (3 / 10) (2 / 10) (3001 / 10000) (9 / 10)).cropTop_,
     (({} : Renderer).SetSourceCropNormalized (3 / 10) (2 / 10) (3001 / 10000) (9 / 10)).cropRight_,
     (({} : Renderer).SetSourceCropNormalized (3 / 10) (2 / 10) (3001 / 10000) (9 / 10)).cropBottom_)
      = (0, 0, 1, 1) :=
  C8_degenerate_crop_disabled {} (3 / 10) (2 / 10) (3001 / 10000) (9 / 10)
    (Or.inl (by norm_num))

/-! ### C9, C10: stereo settings and the parallax constant -/

/-- C9: for every integer `x`, `SetStereoDepthLevel(x)` stores `min(max(x, 0), 20)` and
`SetStereoParallaxStrengthPercent(x)` stores `min(max(x, 0), 100)`; the getters then return a
value in `[0,20]` respectively `[0,100]`, and return `x` itself whenever `x` is in range. -/
theorem C9_setters_clamp (s : Renderer) (x : Int) :
    (s.SetStereoDepthLevel x).GetStereoDepthLevel = min (max x 0) 20 ∧
    (s.SetStereoParallaxStrengthPercent x).GetStereoParallaxStrengthPercent = min (max x 0) 100 ∧
    0 ≤ (s.SetStereoDepthLevel x).GetStereoDepthLevel ∧
    (s.SetStereoDepthLevel x).GetStereoDepthLevel ≤ 20 ∧
    0 ≤ (s.SetStereoParallaxStrengthPercent x).GetStereoParallaxStrengthPercent ∧
    (s.SetStereoParallaxStrengthPercent x).GetStereoParallaxStrengthPercent ≤ 100 ∧
    (0 ≤ x ∧ x ≤ 20 → (s.SetStereoDepthLevel x).GetStereoDepthLevel = x) ∧
    (0 ≤ x ∧ x ≤ 100 →
      (s.SetStereoParallaxStrengthPercent x).GetStereoParallaxStrengthPercent = x) := by
  have hd : (s.SetStereoDepthLevel x).GetStereoDepthLevel =
      (if (if x < 0 then 0 else x) > 20 then 20 else (if x < 0 then 0 else x)) := rfl
  have hp : (s.SetStereoParallaxStrengthPercent x).GetStereoParallaxStrengthPercent =
      (if x < 0 then 0 else if x > 100 then 100 else x) := rfl
  rw [hd, hp]
  refine ⟨?_, ?_, ?_, ?_, ?_, ?_, ?_, ?_⟩ <;> split_ifs <;> omega

/-- Witness for C9: the in-range value 7 is stored unchanged by both setters. -/
theorem C9_setters_clamp_witness :
    (({} : Renderer).SetStereoDepthLevel 7).GetStereoDepthLevel = 7 ∧
    (({} : Renderer).SetStereoParallaxStrengthPercent 7).GetStereoParallaxStrengthPercent = 7 :=
  ⟨(C9_setters_clamp {} 7).2.2.2.2.2.2.1 (by decide),
   (C9_setters_clamp {} 7).2.2.2.2.2.2.2 (by decide)⟩

/-- C10: the parallax constant `Render` writes to the compute constant buffer is
`parallaxPx = (depthLevel / 20) * 60 * (parallaxStrengthPercent / 100)`; for every depth level
in `[0,20]` and strength in `[0,100]` (the values the setters can store) it lies in `[0, 60]`,
and it is 0 exactly when the depth level or the parallax strength is 0. -/
theorem C10_parallaxPx_range (s : Renderer) (computeW computeH : Nat)
    (presentingDownscaled : Bool)
    (hl0 : 0 ≤ s.GetStereoDepthLevel) (hl1 : s.GetStereoDepthLevel ≤ 20)
    (hp0 : 0 ≤ s.GetStereoParallaxStrengthPercent)
    (hp1 : s.GetStereoParallaxStrengthPercent ≤ 100) :
    (s.depthCSParams computeW computeH presentingDownscaled).parallaxPx =
      ((s.GetStereoDepthLevel : ℚ) / 20) * 60 * ((s.GetStereoParallaxStrengthPercent : ℚ) / 100) ∧
    0 ≤ (s.depthCSParams computeW computeH presentingDownscaled).parallaxPx ∧
    (s.depthCSParams computeW computeH presentingDownscaled).parallaxPx ≤ 60 ∧
    ((s.depthCSParams computeW computeH presentingDownscaled).parallaxPx = 0 ↔
      s.GetStereoDepthLevel = 0 ∨ s.GetStereoParallaxStrengthPercent = 0) := by
  have hval : (s.depthCSParams computeW computeH presentingDownscaled).parallaxPx =
      ((s.GetStereoDepthLevel : ℚ) / 20) * 60 *
        ((s.GetStereoParallaxStrengthPercent : ℚ) / 100) := rfl
  have a0 : (0 : ℚ) ≤ (s.GetStereoDepthLevel : ℚ) := by exact_mod_cast hl0
  have a1 : (s.GetStereoDepthLevel : ℚ) ≤ 20 := by exact_mod_cast hl1
  have b0 : (0 : ℚ) ≤ (s.GetStereoParallaxStrengthPercent : ℚ) := by exact_mod_cast hp0
  have b1 : (s.GetStereoParallaxStrengthPercent : ℚ) ≤ 100 := by exact_mod_cast hp1
  rw [hval]
  refine ⟨rfl, ?_, ?_, ?_⟩
  · positivity
  · have h1 : (s.GetStereoDepthLevel : ℚ) * (s.GetStereoParallaxStrengthPercent : ℚ) ≤ 20 * 100 :=
      mul_le_mul a1 b1 b0 (by norm_num)
    linarith
  · constructor
    · intro h
      have h2 : (s.GetStereoDepthLevel : ℚ) * (s.GetStereoParallaxStrengthPercent : ℚ) = 0 := by
        linarith
      rcases mul_eq_zero.mp h2 with h3 | h3
      · exact Or.inl (by exact_mod_cast h3)
      · exact Or.inr (by exact_mod_cast h3)
    · rintro (h | h) <;> rw [h] <;> simp

/-- Witness for C10: after `SetStereoDepthLevel(25)` (stored as 20) and
`SetStereoParallaxStrengthPercent(100)` the constant is at most 60. -/
theorem C10_parallaxPx_range_witness :
    ((({} : Renderer).SetStereoDepthLevel 25).SetStereoParallaxStrengthPercent 100
      |>.depthCSParams 1920 1080 false).parallaxPx ≤ 60 :=
  (C10_parallaxPx_range
    ((({} : Renderer).SetStereoDepthLevel 25).SetStereoParallaxStrengthPercent 100)
    1920 1080 false (by decide) (by decide) (by decide) (by decide)).2.2.1

/-! ### C11: the eye split -/

/-- C11: for every output width `W` and every column `x < W` (so `W >= 1`), `EyeMapping`
assigns `x` to exactly one eye: the left eye with `localX = x` and `viewW = floor(W/2)` when
`x < floor(W/2)`, otherwise the right eye with `localX = x - floor(W/2)` and
`viewW = W - floor(W/2)`; the two widths add up to `W`, and in every case `localX < viewW`,
so `viewW >= 1`. -/
theorem C11_eye_split (P : CSParams) (gid : Nat × Nat) (hx : gid.1 < P.outWidth) :
    let e := EyeMapping P gid
    (gid.1 < P.outWidth / 2 →
      e.rightEye = false ∧ e.localX = gid.1 ∧ e.viewW = P.outWidth / 2) ∧
    (¬ gid.1 < P.outWidth / 2 →
      e.rightEye = true ∧ e.localX = gid.1 - P.outWidth / 2 ∧
        e.viewW = P.outWidth - P.outWidth / 2) ∧
    P.outWidth / 2 + (P.outWidth - P.outWidth / 2) = P.outWidth ∧
    e.localX < e.viewW ∧ 1 ≤ e.viewW := by
  intro e
  refine ⟨fun h => ?_, fun h => ?_, by omega, EyeMapping_localX_lt P gid hx,
    EyeMapping_viewW_pos P gid hx⟩
  · have h' : ¬ gid.1 ≥ P.outWidth / 2 := by omega
    simp [e, EyeMapping, h']
  · have h' : gid.1 ≥ P.outWidth / 2 := by omega
    simp [e, EyeMapping, h']

/-- Witness for C11: column 3 of a 5 pixel wide output is column 1 of the right eye, whose
view is 3 pixels wide. -/
theorem C11_eye_split_witness :
    (EyeMapping ⟨5, 1, 2, 0, 0, 0, (0, 0), (1, 1)⟩ (3, 0)).rightEye = true ∧
    (EyeMapping ⟨5, 1, 2, 0, 0, 0, (0, 0), (1, 1)⟩ (3, 0)).localX = 3 - 5 / 2 ∧
    (EyeMapping ⟨5, 1, 2, 0, 0, 0, (0, 0), (1, 1)⟩ (3, 0)).viewW = 5 - 5 / 2 :=
  (C11_eye_split ⟨5, 1, 2, 0, 0, 0, (0, 0), (1, 1)⟩ (3, 0) (by decide)).2.1 (by decide)

/-! ### C20: the temporal filter of the stabilizer -/

theorem temporalClamp_eq (prev d : ℚ) :
    temporalClamp prev d = prev + clamp (28 / 100 * (d - prev)) (-(5 / 100)) (5 / 100) := by
  unfold temporalClamp lerp
  simp only []
  congr 2
  ring

theorem temporalClamp_between (prev d : ℚ) :
    min prev d ≤ temporalClamp prev d ∧ temporalClamp prev d ≤ max prev d := by
  rw [temporalClamp_eq]
  unfold clamp
  rcases le_total prev d with h | h
  · rw [min_eq_left h, max_eq_right h]
    constructor
    · have : (0 : ℚ) ≤ min (max (28 / 100 * (d - prev)) (-(5 / 100))) (5 / 100) :=
        le_min (le_trans (by nlinarith) (le_max_left _ _)) (by norm_num)
      linarith
    · have : min (max (28 / 100 * (d - prev)) (-(5 / 100))) (5 / 100) ≤ d - prev := by
        apply le_trans (min_le_left _ _)
        apply max_le <;> linarith
      linarith
  · rw [min_eq_right h, max_eq_left h]
    constructor
    · have : d - prev ≤ min (max (28 / 100 * (d - prev)) (-(5 / 100))) (5 / 100) := by
        apply le_min
        · exact le_trans (by linarith) (le_max_left _ _)
        · linarith
      linarith
    · have : min (max (28 / 100 * (d - prev)) (-(5 / 100))) (5 / 100) ≤ 0 := by
        apply le_trans (min_le_left _ _)
        apply max_le <;> linarith
      linarith

theorem Clamp01_bounds (v : ℚ) : 0 ≤ Clamp01 v ∧ Clamp01 v ≤ 1 := by
  unfold Clamp01
  split_ifs with h1 h2
  · exact ⟨le_refl _, by norm_num⟩
  · exact ⟨by norm_num, le_refl _⟩
  · exact ⟨not_lt.mp h1, not_lt.mp h2⟩

theorem CropInv_clear (s : Renderer) : s.ClearSourceCrop.CropInv := by
  unfold Renderer.CropInv Renderer.ClearSourceCrop
  norm_num

theorem CropInv_set (s : Renderer) (l t r b : ℚ) : (s.SetSourceCropNormalized l t r b).CropInv := by
  have hl := Clamp01_bounds l
  have hr := Clamp01_bounds r
  have ht := Clamp01_bounds t
  have hb := Clamp01_bounds b
  have h1 := swap_fst (Clamp01 l) (Clamp01 r)
  have h2 := swap_snd (Clamp01 l) (Clamp01 r)
  have h3 := swap_fst (Clamp01 t) (Clamp01 b)
  have h4 := swap_snd (Clamp01 t) (Clamp01 b)
  unfold Renderer.SetSourceCropNormalized
  simp only []
  generalize (if Clamp01 r < Clamp01 l then (Clamp01 r, Clamp01 l)
    else (Clamp01 l, Clamp01 r)) = lr at h1 h2 ⊢
  generalize (if Clamp01 b < Clamp01 t then (Clamp01 b, Clamp01 t)
    else (Clamp01 t, Clamp01 b)) = tb at h3 h4 ⊢
  split_ifs with hdeg
  · exact CropInv_clear s
  · push_neg at hdeg
    unfold Renderer.CropInv
    simp only [h1, h2, h3, h4]
    rw [h1, h2, h3, h4] at hdeg
    refine ⟨⟨le_min hl.1 hr.1, le_trans (min_le_left _ _) (le_max_left _ _), max_le hl.2 hr.2⟩,
      ⟨le_min ht.1 hb.1, le_trans (min_le_left _ _) (le_max_left _ _), max_le ht.2 hb.2⟩,
      fun _ => ⟨hdeg.1, hdeg.2⟩, fun h => ?_⟩
    simp at h

/-- C17: after any finite sequence of `SetSourceCropNormalized` and `ClearSourceCrop` calls
on a freshly constructed `Renderer`, the stored crop rectangle satisfies
`0 <= left <= right <= 1` and `0 <= top <= bottom <= 1`; whenever the crop is enabled both
`right - left` and `bottom - top` are at least `1/4096`, and whenever it is disabled the
rectangle is `(0, 0, 1, 1)`. -/
theorem C17_crop_invariant (calls : List CropCall) :
    (calls.foldl CropCall.apply ({} : Renderer)).CropInv := by
  have hgen : ∀ (cs : List CropCall) (s : Renderer), s.CropInv →
      (cs.foldl CropCall.apply s).CropInv := by
    intro cs
    induction cs with
    | nil => intro s h; exact h
    | cons c rest ih =>
      intro s _
      apply ih
      cases c with
      | Set l t r b => exact CropInv_set s l t r b
      | Clear => exact CropInv_clear s
  apply hgen
  unfold Renderer.CropInv
  norm_num

/-! ### C18: the black band at the inner edges -/

theorem UpdateRepeat_count (s : Renderer) (T : Int) :
    (s.UpdateRepeat T).lastFrameTimestamp_ = T ∧
    (s.lastFrameTimestamp_ = T → (s.UpdateRepeat T).repeatCount_ = s.repeatCount_ + 1) ∧
    (s.lastFrameTimestamp_ ≠ T → (s.UpdateRepeat T).repeatCount_ = 0) := by
  unfold Renderer.UpdateRepeat
  simp only []
  split_ifs with h1 h2 h3 h4 h5 <;> simp_all <;> intro h <;> exact absurd h.symm (by assumption)

theorem repeatTicks_same (s : Renderer) (T : Int) (h : s.lastFrameTimestamp_ = T) (n : Nat) :
    (s.repeatTicks T n).lastFrameTimestamp_ = T ∧
    (s.repeatTicks T n).repeatCount_ = s.repeatCount_ + n := by
  induction n with
  | zero => exact ⟨h, by simp [Renderer.repeatTicks]⟩
  | succ n ih =>
    have hu := UpdateRepeat_count (s.repeatTicks T n) T
    refine ⟨hu.1, ?_⟩
    show ((s.repeatTicks T n).UpdateRepeat T).repeatCount_ = _
    rw [hu.2.1 ih.1, ih.2]
    push_cast
    ring

/-- C15 (counterexample to the claim as stated): on a freshly constructed `Renderer` (last
recorded timestamp 0, counter 0) one tick (`N = 1`) with the new timestamp `T = 100` leaves
`GetRepeatCount()` at 0, not at `0 + 1`. -/
theorem C15_counterexample :
    (({} : Renderer).repeatTicks 100 1).GetRepeatCount = 0 ∧
    ¬ (({} : Renderer).repeatTicks 100 1).GetRepeatCount = ({} : Renderer).GetRepeatCount + 1 := by
  constructor <;> decide

/-- C15 (amended): for every `N >= 1` and every timestamp `T`, when `UpdateRepeat(T)` runs on
`N` consecutive ticks: if `T` equals the timestamp recorded before those ticks, the counter is
incremented on each of them and `GetRepeatCount()` ends `N` higher; if `T` differs from it,
the first tick resets the counter to 0 and records `T`, the other `N - 1` ticks increment it,
and `GetRepeatCount()` ends at `N - 1`. -/
theorem C15_repeat_count (s : Renderer) (T : Int) (N : Nat) (hN : 1 ≤ N) :
    (s.lastFrameTimestamp_ = T →
      (s.repeatTicks T N).GetRepeatCount = s.GetRepeatCount + N) ∧
    (s.lastFrameTimestamp_ ≠ T →
      (s.repeatTicks T 1).GetRepeatCount = 0 ∧
      (s.repeatTicks T N).GetRepeatCount = (N : Int) - 1) ∧
    (s.repeatTicks T N).lastFrameTimestamp_ = T := by
  have hlast : ∀ n, 1 ≤ n → (s.repeatTicks T n).lastFrameTimestamp_ = T := by
    intro n hn
    cases n with
    | zero => omega
    | succ m => exact (UpdateRepeat_count (s.repeatTicks T m) T).1
  have hshift : ∀ n, s.repeatTicks T (n + 1) = (s.UpdateRepeat T).repeatTicks T n := by
    intro n
    induction n with
    | zero => rfl
    | succ n ih =>
      show (s.repeatTicks T (n + 1)).UpdateRepeat T = ((s.UpdateRepeat T).repeatTicks T n).UpdateRepeat T
      rw [ih]
  refine ⟨fun h => (repeatTicks_same s T h N).2, fun h => ?_, hlast N hN⟩
  have h1 := UpdateRepeat_count s T
  refine ⟨h1.2.2 h, ?_⟩
  obtain ⟨m, rfl⟩ : ∃ m, N = m + 1 := ⟨N - 1, by omega⟩
  rw [hshift]
  show ((s.UpdateRepeat T).repeatTicks T m).repeatCount_ = _
  rw [(repeatTicks_same (s.UpdateRepeat T) T h1.1 m).2, h1.2.2 h]
  push_cast
  ring

/-- Witness for C15 (amended): three ticks with the new timestamp 100 on a fresh `Renderer`
leave the counter at 2. -/
theorem C15_repeat_count_witness :
    (({} : Renderer).repeatTicks 100 3).GetRepeatCount = 2 :=
  ((C15_repeat_count {} 100 3 (by decide)).2.1 (by decide)).2

/-! ### C19: the return value of `UpdateDxgiWindowCropForRenderer` -/

/-- C19 (the code at the failing input): the monitor rectangle is `(0, 0, 5120, 2880)` and the
client area of the target window is `(5119, 0) - (6000, 1000)` on screen, so the window and
the monitor share a strip one pixel wide.  `UpdateDxgiWindowCropForRenderer` returns `true`,
yet the normalized width `1/5120` is below `1/4096`, `SetSourceCropNormalized` falls back to
`ClearSourceCrop`, and on return the crop is disabled with the identity rectangle. -/
theorem C19_true_with_crop_cleared :
    (UpdateDxgiWindowCropForRenderer
        { IsWindow := fun _ => true
          GetClientRect := fun _ => some ⟨0, 0, 881, 1000⟩
          ClientToScreen := fun _ p => some (p.1 + 5119, p.2) }
        {} { active := true, target := 1, monitorRect := ⟨0, 0, 5120, 2880⟩ } {}).1 = true ∧
    (UpdateDxgiWindowCropForRenderer
        { IsWindow := fun _ => true
          GetClientRect := fun _ => some ⟨0, 0, 881, 1000⟩
          ClientToScreen := fun _ p => some (p.1 + 5119, p.2) }
        {} { active := true, target := 1, monitorRect := ⟨0, 0, 5120, 2880⟩ } {}).2.cropEnabled_
      = false := by
  constructor
  · norm_num [UpdateDxgiWindowCropForRenderer, GetWindowClientRectScreen, IntersectRect]
  · norm_num [UpdateDxgiWindowCropForRenderer, GetWindowClientRectScreen, IntersectRect,
      Renderer.SetSourceCropNormalized, Renderer.ClearSourceCrop, Clamp01]

/-! ### C12: the compositing path of `Render` -/

theorem dispatchedPasses_append (a b : List GpuCmd) :
    dispatchedPasses (a ++ b) = dispatchedPasses a ++ dispatchedPasses b := by
  induction a with
  | nil => rfl
  | cons c rest ih => cases c <;> simp [dispatchedPasses, ih]

theorem backbufferDraws_append (a b : List GpuCmd) :
    backbufferDraws (a ++ b) = backbufferDraws a ++ backbufferDraws b := by
  induction a with
  | nil => rfl
  | cons c rest ih =>
    cases c with
    | Dispatch p gx gy => simp [backbufferDraws, ih]
    | Draw d =>
      by_cases h : d.target = RenderTarget.Backbuffer <;> simp [backbufferDraws, ih, h]

theorem prepass_cmds (env : RenderEnv) (s : Renderer) :
    dispatchedPasses (s.downscalePrepass env).cmds = [] ∧
      backbufferDraws (s.downscalePrepass env).cmds = [] := by
  unfold Renderer.downscalePrepass
  simp only []
  split_ifs <;> simp [dispatchedPasses, backbufferDraws, Renderer.downscaleDraw]

theorem updateSourceCopy_stereoEnabled (env : RenderEnv) (s : Renderer) (srcTex : Option Frame) :
    (s.updateSourceCopy env srcTex).stereoEnabled_ = s.stereoEnabled_ := by
  unfold Renderer.updateSourceCopy
  cases srcTex with
  | none => rfl
  | some f =>
    simp only []
    split <;> split_ifs <;> rfl

theorem downscalePrepass_stereoEnabled (env : RenderEnv) (s : Renderer) :
    (s.downscalePrepass env).state.stereoEnabled_ = s.stereoEnabled_ := by
  unfold Renderer.downscalePrepass Renderer.drawDownscale Renderer.ensureDownscaleTarget
  simp only []
  split_ifs <;> rfl

/-- The method `EnsureDepthStereoResources` changes depth pipeline fields only. -/
theorem ensure_frame (apiOk : Nat → Bool) (s : Renderer) (outW outH : Nat) :
    (s.EnsureDepthStereoResources apiOk outW outH).releaseDepthStereo = s.releaseDepthStereo := by
  cases hdev : s.device_
  · simp [Renderer.EnsureDepthStereoResources, hdev]
  by_cases hz : outW = 0 ∨ outH = 0
  · simp [Renderer.EnsureDepthStereoResources, hdev, hz]
  cases hex : s.okExisting outW outH
  swap
  · simp [Renderer.EnsureDepthStereoResources, hdev, hz, hex]
  cases h0 : apiOk 0
  · simp [Renderer.EnsureDepthStereoResources, hdev, hex, hz, createDepthTex,
      Renderer.releaseDepthStereo, h0]
  cases h1 : apiOk 1
  · simp [Renderer.EnsureDepthStereoResources, hdev, hex, hz, createDepthTex,
      Renderer.releaseDepthStereo, h0, h1]
  cases h2 : apiOk 2
  · simp [Renderer.EnsureDepthStereoResources, hdev, hex, hz, createDepthTex,
      Renderer.releaseDepthStereo, h0, h1, h2]
  cases h3 : apiOk 3
  · simp [Renderer.EnsureDepthStereoResources, hdev, hex, hz, createDepthTex,
      Renderer.releaseDepthStereo, h0, h1, h2, h3]
  cases h4 : apiOk 4
  · simp [Renderer.EnsureDepthStereoResources, hdev, hex, hz, createDepthTex,
      Renderer.releaseDepthStereo, h0, h1, h2, h3, h4]
  cases h5 : apiOk 5
  · simp [Renderer.EnsureDepthStereoResources, hdev, hex, hz, createDepthTex,
      Renderer.releaseDepthStereo, h0, h1, h2, h3, h4, h5]
  cases h6 : apiOk 6
  · simp [Renderer.EnsureDepthStereoResources, hdev, hex, hz, createDepthTex,
      Renderer.releaseDepthStereo, h0, h1, h2, h3, h4, h5, h6]
  cases h7 : apiOk 7
  · simp [Renderer.EnsureDepthStereoResources, hdev, hex, hz, createDepthTex,
      Renderer.releaseDepthStereo, h0, h1, h2, h3, h4, h5, h6, h7]
  cases h8 : apiOk 8
  · simp [Renderer.EnsureDepthStereoResources, hdev, hex, hz, createDepthTex,
      Renderer.releaseDepthStereo, h0, h1, h2, h3, h4, h5, h6, h7, h8]
  cases h9 : apiOk 9
  · simp [Renderer.EnsureDepthStereoResources, hdev, hex, hz, createDepthTex,
      Renderer.releaseDepthStereo, h0, h1, h2, h3, h4, h5, h6, h7, h8, h9]
  cases h10 : apiOk 10
  · simp [Renderer.EnsureDepthStereoResources, hdev, hex, hz, createDepthTex,
      Renderer.releaseDepthStereo, h0, h1, h2, h3, h4, h5, h6, h7, h8, h9, h10]
  cases h11 : apiOk 11
  · simp [Renderer.EnsureDepthStereoResources, hdev, hex, hz, createDepthTex,
      Renderer.releaseDepthStereo, h0, h1, h2, h3, h4, h5, h6, h7, h8, h9, h10, h11]
  cases h12 : apiOk 12
  · simp [Renderer.EnsureDepthStereoResources, hdev, hex, hz, createDepthTex,
      Renderer.releaseDepthStereo, h0, h1, h2, h3, h4, h5, h6, h7, h8, h9, h10, h11, h12]
  cases h13 : apiOk 13
  · simp [Renderer.EnsureDepthStereoResources, hdev, hex, hz, createDepthTex,
      Renderer.releaseDepthStereo, h0, h1, h2, h3, h4, h5, h6, h7, h8, h9, h10, h11, h12, h13]
  cases h14 : apiOk 14
  · simp [Renderer.EnsureDepthStereoResources, hdev, hex, hz, createDepthTex,
      Renderer.releaseDepthStereo, h0, h1, h2, h3, h4, h5, h6, h7, h8, h9, h10, h11, h12, h13, h14]
  cases hc : s.context_ <;>
    simp [Renderer.EnsureDepthStereoResources, hdev, hex, hz, createDepthTex,
      Renderer.releaseDepthStereo, setSlot_apply, h0, h1, h2, h3, h4, h5, h6, h7, h8, h9, h10,
      h11, h12, h13, h14, hc]

theorem renderDepthBlock_frame (cs : ComputeShaders) (apiOk : Nat → Bool) (mapOk : Bool)
    (stale : CSParams) (srcTex : Float2 → Float4) (computeW computeH : Nat)
    (presentingDownscaled : Bool) (s : Renderer) :
    (s.renderDepthBlock cs apiOk mapOk stale srcTex computeW computeH
      presentingDownscaled).releaseDepthStereo = s.releaseDepthStereo := by
  have h := ensure_frame apiOk s computeW computeH
  unfold Renderer.renderDepthBlock
  simp only []
  split
  · exact h
  · exact h

theorem renderDepthBlock_stereoEnabled (cs : ComputeShaders) (apiOk : Nat → Bool) (mapOk : Bool)
    (stale : CSParams) (srcTex : Float2 → Float4) (computeW computeH : Nat)
    (presentingDownscaled : Bool) (s : Renderer) :
    (s.renderDepthBlock cs apiOk mapOk stale srcTex computeW computeH
      presentingDownscaled).stereoEnabled_ = s.stereoEnabled_ := by
  have h := congrArg Renderer.stereoEnabled_
    (renderDepthBlock_frame cs apiOk mapOk stale srcTex computeW computeH presentingDownscaled s)
  exact h

theorem finalDraws_single (env : RenderEnv) (s : Renderer) (v : PresentSrc) (pd dp : Bool)
    (h : (s.stereoEnabled_ && !dp) = false) :
    ∃ d, s.finalDraws env (some v) pd dp = [GpuCmd.Draw d] ∧ d.srv = v ∧ d.fullViewport env ∧
      d.zeroShift := by
  unfold Renderer.finalDraws
  simp only [h]
  exact ⟨_, rfl, rfl, ⟨rfl, rfl, rfl, rfl⟩, ⟨rfl, rfl, rfl⟩⟩

theorem finalDraws_pair (env : RenderEnv) (s : Renderer) (v : PresentSrc) (pd : Bool)
    (h : s.stereoEnabled_ = true) :
    ∃ l r, s.finalDraws env (some v) pd false = [GpuCmd.Draw l, GpuCmd.Draw r] ∧
      l.target = RenderTarget.Backbuffer ∧ r.target = RenderTarget.Backbuffer ∧
      l.srv = v ∧ r.srv = v ∧
      l.vpX = 0 ∧ l.vpW = env.backW / 2 ∧ l.vpH = env.backH ∧
      r.vpX = env.backW / 2 ∧ r.vpW = env.backW - env.backW / 2 ∧ r.vpH = env.backH ∧
      l.eyeSign = -1 ∧ r.eyeSign = 1 ∧ l.uOffset = r.uOffset ∧
      l.parallaxStrength = r.parallaxStrength := by
  unfold Renderer.finalDraws
  simp only [h]
  exact ⟨_, _, rfl, rfl, rfl, rfl, rfl, rfl, rfl, rfl, rfl, rfl, rfl, rfl, rfl, rfl, rfl⟩

theorem Render_cmds (env : RenderEnv) (s : Renderer) (srcTex : Option Frame)
    (hg : s.context_ = true ∧ s.rtv_ = true ∧ s.swapChain_ = true) :
    ∃ (pre : List GpuCmd) (t : Renderer) (pd : Bool) (w h : Nat),
      dispatchedPasses pre = [] ∧ backbufferDraws pre = [] ∧
      t.stereoEnabled_ = s.stereoEnabled_ ∧
      (s.Render env srcTex).2 = pre ++
        (if s.depthPipelineRuns env srcTex = true then
          depthDispatches w h ++ t.finalDraws env (some PresentSrc.StereoOut) true true
        else t.finalDraws env (s.viewToPresent env srcTex) pd false) := by
  have hguard : (!s.context_ || !s.rtv_ || !s.swapChain_) = false := by
    simp [hg.1, hg.2.1, hg.2.2]
  have hpre := prepass_cmds env (s.updateSourceCopy env srcTex)
  have hst : ((s.updateSourceCopy env srcTex).downscalePrepass env).state.stereoEnabled_ =
      s.stereoEnabled_ := by
    rw [downscalePrepass_stereoEnabled, updateSourceCopy_stereoEnabled]
  unfold Renderer.viewToPresent Renderer.depthPipelineRuns Renderer.Render
  simp only [hguard, Bool.false_eq_true, if_false]
  generalize (s.updateSourceCopy env srcTex).downscalePrepass env = r at hpre hst ⊢
  obtain ⟨hp1, hp2⟩ := hpre
  by_cases hw : r.state.depthPipelineWanted r.srvToPresent = true
  · by_cases hready : (r.state.EnsureDepthStereoResources env.depthOk
        (r.state.computeSize env (decide (r.srvToPresent = some PresentSrc.Downscaled))).1
        (r.state.computeSize env
          (decide (r.srvToPresent = some PresentSrc.Downscaled))).2).depthViewsReady = true
    · rw [if_pos hw, if_pos hready]
      simp only [hw, hready, Bool.and_self, if_true]
      refine ⟨r.cmds, _, true, _, _, hp1, hp2, ?_, by rw [List.append_assoc]⟩
      rw [renderDepthBlock_stereoEnabled, hst]
    · rw [if_pos hw, if_neg hready]
      rw [Bool.not_eq_true] at hready
      simp only [hw, hready, Bool.and_false, Bool.false_eq_true, if_false]
      refine ⟨r.cmds, _, _, 0, 0, hp1, hp2, ?_, rfl⟩
      rw [renderDepthBlock_stereoEnabled, hst]
  · rw [if_neg hw]
    rw [Bool.not_eq_true] at hw
    simp only [hw, Bool.false_and, Bool.false_eq_true, if_false]
    exact ⟨r.cmds, r.state, _, 0, 0, hp1, hp2, hst, rfl⟩

theorem depthPipelineRuns_stereo (env : RenderEnv) (s : Renderer) (srcTex : Option Frame)
    (h : s.depthPipelineRuns env srcTex = true) :
    s.stereoEnabled_ = true ∧ ∃ v, s.viewToPresent env srcTex = some v := by
  unfold Renderer.depthPipelineRuns Renderer.depthPipelineWanted at h
  simp only [Bool.and_eq_true] at h
  obtain ⟨⟨⟨⟨⟨⟨⟨h1, h2⟩, _⟩, _⟩, _⟩, _⟩, _⟩, _⟩ := h
  rw [downscalePrepass_stereoEnabled, updateSourceCopy_stereoEnabled] at h1
  exact ⟨h1, Option.isSome_iff_exists.mp h2⟩

/-- C12, as stated, fails: a renderer that passes the entry guard of `Render` but holds no
shader-readable source yet (no frame was ever cached) issues no draw at all when `Render` is
called with a null source texture, although stereo is disabled. -/
theorem C12_counterexample :
    Renderer.initialised.stereoEnabled_ = false ∧
      (Renderer.initialised.Render (RenderEnv.allOk ComputeShaders.idle 1920 1080) none).2 = [] := by
  decide!

/-- C12 (amended): a call of `Render` that passes the entry guard issues no dispatch and no
backbuffer draw when it has no texture to present.  When it has one: with stereo disabled it
issues no dispatch and one full-viewport backbuffer draw with zero stereo shift; with stereo
enabled and the depth pipeline running, its calls end with the dispatches of `CSDepthRaw`,
`CSDepthSmooth`, `CSParallaxSbs`, in that order, followed by one full-viewport zero-shift draw
of the stereo output, and nothing before them is a dispatch or a backbuffer draw; with stereo
enabled and the depth pipeline not running it issues no dispatch and two backbuffer draws, the
left half with eye sign -1 and the right half with eye sign +1, with the same shift. -/
theorem C12_render_paths (env : RenderEnv) (s : Renderer) (srcTex : Option Frame)
    (hg : s.context_ = true ∧ s.rtv_ = true ∧ s.swapChain_ = true) :
    (s.viewToPresent env srcTex = none →
      dispatchedPasses (s.Render env srcTex).2 = [] ∧
        backbufferDraws (s.Render env srcTex).2 = []) ∧
    (∀ v, s.viewToPresent env srcTex = some v →
      (s.stereoEnabled_ = false →
        dispatchedPasses (s.Render env srcTex).2 = [] ∧
        ∃ d, backbufferDraws (s.Render env srcTex).2 = [d] ∧ d.srv = v ∧ d.fullViewport env ∧
          d.zeroShift) ∧
      (s.stereoEnabled_ = true → s.depthPipelineRuns env srcTex = true →
        ∃ pre gx gy d, (s.Render env srcTex).2 =
            pre ++ [GpuCmd.Dispatch Pass.DepthRaw gx gy, GpuCmd.Dispatch Pass.DepthSmooth gx gy,
              GpuCmd.Dispatch Pass.ParallaxSbs gx gy, GpuCmd.Draw d] ∧
          dispatchedPasses pre = [] ∧ backbufferDraws pre = [] ∧
          d.srv = PresentSrc.StereoOut ∧ d.fullViewport env ∧ d.zeroShift) ∧
      (s.stereoEnabled_ = true → s.depthPipelineRuns env srcTex = false →
        dispatchedPasses (s.Render env srcTex).2 = [] ∧
        ∃ l r, backbufferDraws (s.Render env srcTex).2 = [l, r] ∧ l.srv = v ∧ r.srv = v ∧
          l.vpX = 0 ∧ l.vpW = env.backW / 2 ∧ l.vpH = env.backH ∧
          r.vpX = env.backW / 2 ∧ r.vpW = env.backW - env.backW / 2 ∧ r.vpH = env.backH ∧
          l.eyeSign = -1 ∧ r.eyeSign = 1 ∧ l.uOffset = r.uOffset)) := by
  obtain ⟨pre, t, pd, w, h, hp1, hp2, hst, hR⟩ := Render_cmds env s srcTex hg
  have hoff : s.stereoEnabled_ = false → s.depthPipelineRuns env srcTex = false := by
    intro hs
    cases hr : s.depthPipelineRuns env srcTex
    · rfl
    · rw [(depthPipelineRuns_stereo env s srcTex hr).1] at hs
      cases hs
  rw [hR]
  refine ⟨fun hv => ?_, fun v hv => ⟨fun hs => ?_, fun hs hrun => ?_, fun hs hrun => ?_⟩⟩
  · have hrun : s.depthPipelineRuns env srcTex = false := by
      cases hr : s.depthPipelineRuns env srcTex
      · rfl
      · obtain ⟨_, v, hv2⟩ := depthPipelineRuns_stereo env s srcTex hr
        rw [hv] at hv2
        cases hv2
    simp [hrun, hv, dispatchedPasses_append, backbufferDraws_append, hp1, hp2,
      Renderer.finalDraws, dispatchedPasses, backbufferDraws]
  · obtain ⟨d, hd, h1, h2, h3⟩ := finalDraws_single env t v pd false (by simp [hst, hs])
    simp only [hoff hs, Bool.false_eq_true, if_false, hv, hd]
    refine ⟨by simp [dispatchedPasses_append, hp1, dispatchedPasses], d, ?_, h1, h2, h3⟩
    simp [backbufferDraws_append, hp2, backbufferDraws, h2.1]
  · obtain ⟨d, hd, h1, h2, h3⟩ := finalDraws_single env t PresentSrc.StereoOut true true
      (by simp)
    simp only [hrun, if_true, hd]
    exact ⟨pre, DivRoundUp w 16, DivRoundUp h 16, d, by simp [depthDispatches], hp1, hp2, h1,
      h2, h3⟩
  · obtain ⟨l, r, hd, hl, hr, h1, h2, h3, h4, h5, h6, h7, h8, h9, h10, h11, _⟩ :=
      finalDraws_pair env t v pd (by rw [hst, hs])
    simp only [hrun, Bool.false_eq_true, if_false, hv, hd]
    refine ⟨by simp [dispatchedPasses_append, hp1, dispatchedPasses], l, r, ?_, h1, h2, h3, h4,
      h5, h6, h7, h8, h9, h10, h11⟩
    simp [backbufferDraws_append, hp2, backbufferDraws, hl, hr]

theorem C12_render_paths_witness :
    ∃ pre gx gy d,
      ((Renderer.initialised.SetStereoEnabled true).Render
          (RenderEnv.allOk ComputeShaders.idle 1920 1080)
          (some ⟨32, 16, 87, fun _ => (1, 1, 1, 1)⟩)).2 =
        pre ++ [GpuCmd.Dispatch Pass.DepthRaw gx gy, GpuCmd.Dispatch Pass.DepthSmooth gx gy,
          GpuCmd.Dispatch Pass.ParallaxSbs gx gy, GpuCmd.Draw d] ∧
      dispatchedPasses pre = [] ∧ backbufferDraws pre = [] ∧
      d.srv = PresentSrc.StereoOut ∧
      d.fullViewport (RenderEnv.allOk ComputeShaders.idle 1920 1080) ∧ d.zeroShift :=
  ((C12_render_paths (RenderEnv.allOk ComputeShaders.idle 1920 1080)
      (Renderer.initialised.SetStereoEnabled true) (some ⟨32, 16, 87, fun _ => (1, 1, 1, 1)⟩)
      ⟨rfl, rfl, rfl⟩).2 PresentSrc.Source rfl).2.1 rfl rfl

/-! ### C14: ticks without a new frame -/

theorem GetFrame_some_hr (c : CaptureDXGI) (acq : AcquireResult) (f : Frame) (ts : Int)
    (h : (c.GetFrame acq).2 = some (f, ts)) : (c.GetFrame acq).1.lastAcquireHr_ = S_OK := by
  unfold CaptureDXGI.GetFrame at h ⊢
  by_cases hd : (!c.duplication_) = true
  · rw [if_pos hd] at h
    cases h
  · rw [if_neg hd] at h ⊢
    simp only [] at h ⊢
    by_cases hf : FAILED acq.hr = true
    · rw [if_pos hf] at h
      by_cases hto : acq.hr = DXGI_ERROR_WAIT_TIMEOUT
      · rw [if_pos hto] at h
        cases h
      · rw [if_neg hto] at h
        cases h
    · rw [if_neg hf] at h ⊢
      cases ht : acq.texture with
      | none => simp [ht] at h
      | some frame => rfl

theorem watchdog_got (t : TickEnv) (app : App) (capture : CaptureDXGI)
    (h : app.g_captureMode = CaptureMode.Monitor → capture.lastAcquireHr_ = S_OK) :
    (app.watchdog t capture true).2.2 = [] := by
  unfold App.watchdog
  simp only [if_true]
  by_cases hm : app.g_captureMode = CaptureMode.Monitor
  · rw [if_pos hm, h hm]
    rfl
  · rw [if_neg hm]

theorem watchdog_posts (t : TickEnv) (app : App) (capture : CaptureDXGI) (got : Bool) :
    (app.watchdog t capture got).2.2 = [] ∨
      (app.watchdog t capture got).2.2 = [TickEvent.PostMessage app.g_trayWnd WM_APP_2 0 2] := by
  unfold App.watchdog
  simp only []
  split_ifs <;> simp

theorem GetFrame_some_held (c : CaptureDXGI) (acq : AcquireResult) (f : Frame) (ts : Int)
    (h : (c.GetFrame acq).2 = some (f, ts)) :
    (c.GetFrame acq).1.frameHeld_ = true ∧ (c.GetFrame acq).1.duplication_ = true := by
  unfold CaptureDXGI.GetFrame at h ⊢
  by_cases hd : (!c.duplication_) = true
  · rw [if_pos hd] at h
    cases h
  · rw [if_neg hd] at h ⊢
    simp only [] at h ⊢
    have hdup : c.duplication_ = true := by simpa using hd
    by_cases hf : FAILED acq.hr = true
    · rw [if_pos hf] at h
      by_cases hto : acq.hr = DXGI_ERROR_WAIT_TIMEOUT
      · rw [if_pos hto] at h
        cases h
      · rw [if_neg hto] at h
        cases h
    · rw [if_neg hf] at h ⊢
      cases ht : acq.texture with
      | none => simp [ht] at h
      | some frame =>
        by_cases hh : c.frameHeld_ = true
        · simp [hh, hdup]
        · simp [hh, hdup]

theorem WgcGetFrame_some_held (c : CaptureWGC) (next : Option (Frame × Int)) (f : Frame)
    (ts : Int) (h : (c.GetFrame next).2 = some (f, ts)) :
    (c.GetFrame next).1.frameHeld = true ∧ (c.GetFrame next).1.impl_ = true := by
  unfold CaptureWGC.GetFrame at h ⊢
  by_cases hd : (!c.impl_ || !c.framePool) = true
  · rw [if_pos hd] at h
    cases h
  · rw [if_neg hd] at h ⊢
    simp only [] at h ⊢
    have hi : c.impl_ = true := by
      cases hc : c.impl_
      · simp [hc] at hd
      · rfl
    cases next with
    | none => simp at h
    | some g =>
      by_cases hh : c.frameHeld = true
      · simp [hh, hi]
      · simp [hh, hi]

theorem UpdateRepeat_timestamp (s : Renderer) (ts : Int) :
    (s.UpdateRepeat ts).lastFrameTimestamp_ = ts := by
  unfold Renderer.UpdateRepeat
  simp only []
  split_ifs
  all_goals first | rfl | (symm; assumption)

theorem updateSourceCopy_timestamp (env : RenderEnv) (s : Renderer) (srcTex : Option Frame) :
    (s.updateSourceCopy env srcTex).lastFrameTimestamp_ = s.lastFrameTimestamp_ := by
  unfold Renderer.updateSourceCopy
  cases srcTex with
  | none => rfl
  | some f =>
    simp only []
    split <;> split_ifs <;> rfl

theorem downscalePrepass_timestamp (env : RenderEnv) (s : Renderer) :
    (s.downscalePrepass env).state.lastFrameTimestamp_ = s.lastFrameTimestamp_ := by
  unfold Renderer.downscalePrepass Renderer.drawDownscale Renderer.ensureDownscaleTarget
  simp only []
  split_ifs <;> rfl

theorem Render_timestamp (env : RenderEnv) (s : Renderer) (srcTex : Option Frame) :
    (s.Render env srcTex).1.lastFrameTimestamp_ = s.lastFrameTimestamp_ := by
  have h0 : ((s.updateSourceCopy env srcTex).downscalePrepass env).state.lastFrameTimestamp_ =
      s.lastFrameTimestamp_ := by
    rw [downscalePrepass_timestamp, updateSourceCopy_timestamp]
  unfold Renderer.Render
  simp only []
  split_ifs
  · rfl
  · have h := congrArg Renderer.lastFrameTimestamp_
      (renderDepthBlock_frame env.cs env.depthOk env.mapOk env.stale
        (((s.updateSourceCopy env srcTex).downscalePrepass env).state.presentSample
          ((s.updateSourceCopy env srcTex).downscalePrepass env).srvToPresent)
        ((((s.updateSourceCopy env srcTex).downscalePrepass env).state.computeSize env
          (decide (((s.updateSourceCopy env srcTex).downscalePrepass env).srvToPresent =
            some PresentSrc.Downscaled))).1)
        ((((s.updateSourceCopy env srcTex).downscalePrepass env).state.computeSize env
          (decide (((s.updateSourceCopy env srcTex).downscalePrepass env).srvToPresent =
            some PresentSrc.Downscaled))).2)
        (decide (((s.updateSourceCopy env srcTex).downscalePrepass env).srvToPresent =
            some PresentSrc.Downscaled))
        ((s.updateSourceCopy env srcTex).downscalePrepass env).state)
    exact h.trans h0
  · have h := congrArg Renderer.lastFrameTimestamp_
      (renderDepthBlock_frame env.cs env.depthOk env.mapOk env.stale
        (((s.updateSourceCopy env srcTex).downscalePrepass env).state.presentSample
          ((s.updateSourceCopy env srcTex).downscalePrepass env).srvToPresent)
        ((((s.updateSourceCopy env srcTex).downscalePrepass env).state.computeSize env
          (decide (((s.updateSourceCopy env srcTex).downscalePrepass env).srvToPresent =
            some PresentSrc.Downscaled))).1)
        ((((s.updateSourceCopy env srcTex).downscalePrepass env).state.computeSize env
          (decide (((s.updateSourceCopy env srcTex).downscalePrepass env).srvToPresent =
            some PresentSrc.Downscaled))).2)
        (decide (((s.updateSourceCopy env srcTex).downscalePrepass env).srvToPresent =
            some PresentSrc.Downscaled))
        ((s.updateSourceCopy env srcTex).downscalePrepass env).state)
    exact h.trans h0
  · exact h0


theorem tickRenderer_eq (t : TickEnv) (app : App) :
    app.tickRenderer t =
      (match app.g_captureMode with
      | CaptureMode.Monitor =>
        (match app.g_captureMode with
          | CaptureMode.Monitor =>
            (UpdateDxgiWindowCropForRenderer t.win32 app.g_renderer app.activeWindowDxgiCrop
              app.windowSelectDxgiCrop).2
          | CaptureMode.Window => app.g_renderer.ClearSourceCrop).SetCaptureStatsDXGI
      | CaptureMode.Window =>
        (match app.g_captureMode with
          | CaptureMode.Monitor =>
            (UpdateDxgiWindowCropForRenderer t.win32 app.g_renderer app.activeWindowDxgiCrop
              app.windowSelectDxgiCrop).2
          | CaptureMode.Window => app.g_renderer.ClearSourceCrop).SetCaptureStatsWGC) := by
  unfold App.tickRenderer
  cases app.g_captureMode <;> rfl

theorem RenderOneFrame_frame (t : TickEnv) (app : App) (hWnd : Nat)
    (h1 : app.inRender = false) (h2 : app.g_capturing = true) (h3 : hWnd ≠ 0)
    (h4 : hWnd = app.g_renderWnd) (h5 : t.isIconic = false) (frame : Frame) (ts : Int)
    (hp : (app.pollFrame t).2 = some (frame, ts)) :
    (RenderOneFrame t app hWnd).1.g_renderer =
        (((app.tickRenderer t).UpdateRepeat ts).Render t.render (some frame)).1 ∧
    (RenderOneFrame t app hWnd).1.g_capture =
      (match app.g_captureMode with
        | CaptureMode.Monitor => (app.pollFrame t).1.ReleaseFrame
        | CaptureMode.Window => (app.pollFrame t).1) ∧
    (RenderOneFrame t app hWnd).1.g_captureWgc =
      (match app.g_captureMode with
        | CaptureMode.Monitor => app.pollWgc t
        | CaptureMode.Window => (app.pollWgc t).ReleaseFrame) := by
  have hguard : ¬ (hWnd = 0 ∨ hWnd ≠ app.g_renderWnd) := by
    rintro (h | h)
    · exact h3 h
    · exact h h4
  rw [tickRenderer_eq]
  unfold RenderOneFrame
  simp only [h1, h2, h5, hguard, Bool.false_eq_true, if_false, Bool.not_true, hp]
  refine ⟨?_, ?_, ?_⟩ <;> first | rfl | trivial

theorem RenderOneFrame_none (t : TickEnv) (app : App) (hWnd : Nat)
    (h1 : app.inRender = false) (h2 : app.g_capturing = true) (h3 : hWnd ≠ 0)
    (h4 : hWnd = app.g_renderWnd) (h5 : t.isIconic = false)
    (hp : (app.pollFrame t).2 = none) :
    (RenderOneFrame t app hWnd).1.g_renderer = ((app.tickRenderer t).Render t.render none).1 ∧
    (RenderOneFrame t app hWnd).1.g_capture = (app.pollFrame t).1 ∧
    (RenderOneFrame t app hWnd).1.g_captureWgc = app.pollWgc t := by
  have hguard : ¬ (hWnd = 0 ∨ hWnd ≠ app.g_renderWnd) := by
    rintro (h | h)
    · exact h3 h
    · exact h h4
  rw [tickRenderer_eq]
  unfold RenderOneFrame
  simp only [h1, h2, h5, hguard, Bool.false_eq_true, if_false, Bool.not_true, hp]
  refine ⟨?_, ?_, ?_⟩ <;> first | rfl | trivial

/-- C13: a call of `RenderOneFrame` that passes the four entry guards calls `GetFrame` once,
on the capture object of the current mode.  When that call hands out a frame, the calls of the
tick are, in order: `GetFrame`, `UpdateRepeat` with the frame timestamp, `Render` with that
frame, `ReleaseFrame` on the same capture object, and nothing else; the renderer the tick
leaves is the one these `UpdateRepeat` and `Render` calls produce from the renderer the tick
prepared (so its `lastFrameTimestamp_` is the frame timestamp), the capture object of the
current mode holds the frame after `GetFrame`, is left as `ReleaseFrame` leaves it, holding
no frame, and the capture object of the other mode is not touched.  When `GetFrame` hands
out none, the calls are `GetFrame`, possibly the posting of the capture-lost message, and
`Render` with a null texture; `ReleaseFrame` is not called: the renderer is the one `Render`
with a null texture produces, and both capture objects are as the poll left them. -/
theorem C13_tick_order (t : TickEnv) (app : App) (hWnd : Nat)
    (h1 : app.inRender = false) (h2 : app.g_capturing = true) (h3 : hWnd ≠ 0)
    (h4 : hWnd = app.g_renderWnd) (h5 : t.isIconic = false) :
    (∀ frame ts, (app.pollFrame t).2 = some (frame, ts) →
      (RenderOneFrame t app hWnd).2 =
        [pollEvent app.g_captureMode, TickEvent.UpdateRepeat ts, TickEvent.Render (some frame),
          releaseEvent app.g_captureMode] ∧
      (RenderOneFrame t app hWnd).1.g_renderer =
        (((app.tickRenderer t).UpdateRepeat ts).Render t.render (some frame)).1 ∧
      (RenderOneFrame t app hWnd).1.g_renderer.lastFrameTimestamp_ = ts ∧
      (app.g_captureMode = CaptureMode.Monitor →
        (app.g_capture.GetFrame t.acquire).1.frameHeld_ = true ∧
        (RenderOneFrame t app hWnd).1.g_capture =
          (app.g_capture.GetFrame t.acquire).1.ReleaseFrame ∧
        (RenderOneFrame t app hWnd).1.g_capture.frameHeld_ = false ∧
        (RenderOneFrame t app hWnd).1.g_captureWgc = app.g_captureWgc) ∧
      (app.g_captureMode = CaptureMode.Window →
        (app.g_captureWgc.GetFrame t.wgcFrame).1.frameHeld = true ∧
        (RenderOneFrame t app hWnd).1.g_captureWgc =
          (app.g_captureWgc.GetFrame t.wgcFrame).1.ReleaseFrame ∧
        (RenderOneFrame t app hWnd).1.g_captureWgc.frameHeld = false ∧
        (RenderOneFrame t app hWnd).1.g_capture = app.g_capture)) ∧
    ((app.pollFrame t).2 = none →
      ((RenderOneFrame t app hWnd).2 = [pollEvent app.g_captureMode, TickEvent.Render none] ∨
        (RenderOneFrame t app hWnd).2 =
          [pollEvent app.g_captureMode, TickEvent.PostMessage app.g_trayWnd WM_APP_2 0 2,
            TickEvent.Render none]) ∧
      (RenderOneFrame t app hWnd).1.g_renderer = ((app.tickRenderer t).Render t.render none).1 ∧
      (RenderOneFrame t app hWnd).1.g_capture = (app.pollFrame t).1 ∧
      (RenderOneFrame t app hWnd).1.g_captureWgc = app.pollWgc t) := by
  have hguard : ¬ (hWnd = 0 ∨ hWnd ≠ app.g_renderWnd) := by
    rintro (h | h)
    · exact h3 h
    · exact h h4
  constructor
  · intro frame ts hp
    obtain ⟨e1, e2, e3⟩ := RenderOneFrame_frame t app hWnd h1 h2 h3 h4 h5 frame ts hp
    have hw : (app.watchdog t (app.pollFrame t).1 true).2.2 = [] := by
      apply watchdog_got
      intro hm
      unfold App.pollFrame at hp ⊢
      rw [hm] at hp ⊢
      exact GetFrame_some_hr _ _ frame ts hp
    refine ⟨?_, e1, ?_, fun hm => ?_, fun hm => ?_⟩
    · unfold RenderOneFrame
      simp only [h1, h2, h5, hguard, Bool.false_eq_true, if_false, Bool.not_true, hp,
        Option.isSome_some, hw]
      rfl
    · rw [e1, Render_timestamp, UpdateRepeat_timestamp]
    · have hpf : app.pollFrame t = app.g_capture.GetFrame t.acquire := by
        unfold App.pollFrame
        rw [hm]
      have hpw : app.pollWgc t = app.g_captureWgc := by
        unfold App.pollWgc
        rw [hm]
      rw [hpf] at hp
      obtain ⟨hh, hd⟩ := GetFrame_some_held _ _ frame ts hp
      rw [hm, hpf] at e2
      rw [hm, hpw] at e3
      refine ⟨hh, e2, ?_, e3⟩
      rw [e2]
      unfold CaptureDXGI.ReleaseFrame
      simp [hh, hd]
    · have hpf : (app.pollFrame t).2 = (app.g_captureWgc.GetFrame t.wgcFrame).2 ∧
          (app.pollFrame t).1 = app.g_capture := by
        unfold App.pollFrame
        rw [hm]
        exact ⟨rfl, rfl⟩
      have hpw : app.pollWgc t = (app.g_captureWgc.GetFrame t.wgcFrame).1 := by
        unfold App.pollWgc
        rw [hm]
      rw [hpf.1] at hp
      obtain ⟨hh, hd⟩ := WgcGetFrame_some_held _ _ frame ts hp
      rw [hm, hpf.2] at e2
      rw [hm, hpw] at e3
      refine ⟨hh, e3, ?_, e2⟩
      rw [e3]
      unfold CaptureWGC.ReleaseFrame
      simp [hh, hd]
  · intro hp
    obtain ⟨e1, e2, e3⟩ := RenderOneFrame_none t app hWnd h1 h2 h3 h4 h5 hp
    refine ⟨?_, e1, e2, e3⟩
    unfold RenderOneFrame
    simp only [h1, h2, h5, hguard, Bool.false_eq_true, if_false, Bool.not_true, hp,
      Option.isSome_none]
    rcases watchdog_posts t app (app.pollFrame t).1 false with h | h
    · left
      rw [h]
      rfl
    · right
      rw [h]
      rfl

/-- Witness for C13: a Monitor-mode tick of the first session that acquires a white frame with
timestamp 1: the four calls in order, the renderer records the timestamp, the capture
object holds the frame after `GetFrame` and holds none at the end of the tick. -/
theorem C13_tick_order_witness :
    (RenderOneFrame (tickWith 100 acquiredWhite) App.session1 2).2 =
      [TickEvent.GetFrameDXGI, TickEvent.UpdateRepeat 1, TickEvent.Render (some whiteFrame),
        TickEvent.ReleaseFrameDXGI] ∧
    (RenderOneFrame (tickWith 100 acquiredWhite) App.session1 2).1.g_renderer.lastFrameTimestamp_
      = 1 ∧
    (App.session1.g_capture.GetFrame acquiredWhite).1.frameHeld_ = true ∧
    (RenderOneFrame (tickWith 100 acquiredWhite) App.session1 2).1.g_capture.frameHeld_ = false :=
  have h := (C13_tick_order (tickWith 100 acquiredWhite) App.session1 2 rfl rfl (by decide) rfl
    rfl).1 whiteFrame 1 rfl
  ⟨h.1, h.2.2.1, (h.2.2.2.1 rfl).1, (h.2.2.2.1 rfl).2.2.1⟩


/-! ### C16: the capture-lost message -/

/-- C16 (the code at the failing input): in the first capture session a tick
whose acquisition fails with `DXGI_ERROR_ACCESS_LOST` posts `WM_APP + 2` with `lParam = 2` to
the tray window.  After the capture is stopped and started again, the application is
capturing; the first tick of the new session fails with `DXGI_ERROR_ACCESS_LOST` again, and
no message is posted in it: the function static `stallStopPosted` is still set. -/
theorem C16_no_message_in_second_session :
    postedMessages (RenderOneFrame (tickWith 100 (acquireFailed DXGI_ERROR_ACCESS_LOST))
        App.session1 2).2 = [(1, WM_APP_2, 0, 2)] ∧
    App.session2.g_capturing = true ∧ App.session2.g_renderWnd = 3 ∧
    App.session2.stallStopPosted = true ∧
    (RenderOneFrame (tickWith 200 (acquireFailed DXGI_ERROR_ACCESS_LOST)) App.session2
        3).1.g_capture.lastAcquireHr_ = DXGI_ERROR_ACCESS_LOST ∧
    (RenderOneFrame (tickWith 200 (acquireFailed DXGI_ERROR_ACCESS_LOST)) App.session2 3).2.length
        = 2 ∧
    postedMessages (RenderOneFrame (tickWith 200 (acquireFailed DXGI_ERROR_ACCESS_LOST))
        App.session2 3).2 = [] := by
  decide!

/-! ### C27: the stabilizer on a locally constant history -/

theorem toInt64_eq (x : Int) (h1 : -2 ^ 63 ≤ x) (h2 : x < 2 ^ 63) : toInt64 x = x := by
  unfold toInt64
  omega

theorem pacedIteration_fired (now intervalTicks nextFrameQpc : Int)
    (hI : 0 < intervalTicks) (hI2 : intervalTicks < 2 ^ 60)
    (hn : 0 ≤ now) (hn2 : now < 2 ^ 62) (hx : 0 ≤ nextFrameQpc)
    (hfire : (pacedIteration now intervalTicks nextFrameQpc).1 = true) :
    nextFrameQpc ≤ now ∧
    (pacedIteration now intervalTicks nextFrameQpc).2 =
      if now - (nextFrameQpc + intervalTicks) > intervalTicks * 4 then now + intervalTicks
      else nextFrameQpc + intervalTicks := by
  have e1 : toInt64 (now + intervalTicks) = now + intervalTicks :=
    toInt64_eq _ (by omega) (by omega)
  have e4 : toInt64 (intervalTicks * 4) = intervalTicks * 4 := toInt64_eq _ (by omega) (by omega)
  unfold pacedIteration at hfire ⊢
  simp only [e1, e4] at hfire ⊢
  by_cases h0 : nextFrameQpc = 0
  · simp only [h0, if_true] at hfire ⊢
    have : ¬ now ≥ now + intervalTicks := by omega
    simp [this] at hfire
  · simp only [h0, if_false] at hfire ⊢
    by_cases hge : now ≥ nextFrameQpc
    · have e2 : toInt64 (nextFrameQpc + intervalTicks) = nextFrameQpc + intervalTicks :=
        toInt64_eq _ (by omega) (by omega)
      have e3 : toInt64 (now - (nextFrameQpc + intervalTicks)) =
          now - (nextFrameQpc + intervalTicks) := toInt64_eq _ (by omega) (by omega)
      rw [if_pos hge]
      simp only [e2, e3]
      exact ⟨hge, trivial⟩
    · simp [hge] at hfire

/-- C30: in the paced branch of the message loop, with `0 < intervalTicks < 2^60` and
`0 <= now < 2^62` (no 64-bit overflow) and a deadline that is not negative, each time a tick
fires the deadline was reached (`nextFrameQpc <= now`), and the updated deadline satisfies
`now - nextFrameQpc <= 4 * intervalTicks` and is strictly greater than the old deadline: it
is the old deadline plus one interval, or `now` plus one interval after a lag of more than
four intervals. -/
theorem C30_paced_deadline (now intervalTicks nextFrameQpc : Int)
    (hI : 0 < intervalTicks) (hI2 : intervalTicks < 2 ^ 60)
    (hn : 0 ≤ now) (hn2 : now < 2 ^ 62) (hx : 0 ≤ nextFrameQpc)
    (hfire : (pacedIteration now intervalTicks nextFrameQpc).1 = true) :
    nextFrameQpc ≤ now ∧
    now - (pacedIteration now intervalTicks nextFrameQpc).2 ≤ 4 * intervalTicks ∧
    nextFrameQpc < (pacedIteration now intervalTicks nextFrameQpc).2 ∧
    ((pacedIteration now intervalTicks nextFrameQpc).2 = nextFrameQpc + intervalTicks ∨
      (pacedIteration now intervalTicks nextFrameQpc).2 = now + intervalTicks) := by
  obtain ⟨hle, hv⟩ := pacedIteration_fired now intervalTicks nextFrameQpc hI hI2 hn hn2 hx hfire
  rw [hv]
  refine ⟨hle, ?_⟩
  split_ifs with h
  · exact ⟨by omega, by omega, Or.inr rfl⟩
  · exact ⟨by omega, by omega, Or.inl rfl⟩

/-- Witness for C30: deadline 1000, interval 100, tick at 10000: the deadline is resynchronised
to 10100. -/
theorem C30_paced_deadline_witness :
    (1000 : Int) ≤ 10000 ∧
    10000 - (pacedIteration 10000 100 1000).2 ≤ 4 * 100 ∧
    1000 < (pacedIteration 10000 100 1000).2 ∧
    ((pacedIteration 10000 100 1000).2 = 1000 + 100 ∨
      (pacedIteration 10000 100 1000).2 = 10000 + 100) :=
  C30_paced_deadline 10000 100 1000 (by decide) (by decide) (by decide) (by decide) (by decide)
    (by decide)

/-! ### C25: the downscale size -/

theorem roundHalf_bound (x : ℚ) (M : Nat) (hM : 1 ≤ M) (hx : x ≤ (M : ℚ)) :
    1 ≤ (max 1 ⌊x + 1 / 2⌋).toNat ∧ (max 1 ⌊x + 1 / 2⌋).toNat ≤ M := by
  have h1 : ⌊x + 1 / 2⌋ < (M : Int) + 1 := by
    rw [Int.floor_lt]
    push_cast
    linarith
  have h2 : (1 : Int) ≤ max 1 ⌊x + 1 / 2⌋ := le_max_left _ _
  have h3 : max 1 ⌊x + 1 / 2⌋ ≤ (M : Int) := by
    apply max_le
    · exact_mod_cast hM
    · omega
  omega

theorem evenFloor_bound (w0 M : Nat) (h1 : 1 ≤ w0) (h2 : w0 ≤ M) :
    1 ≤ (if w0 > 2 then w0 - w0 % 2 else w0) ∧ (if w0 > 2 then w0 - w0 % 2 else w0) ≤ M ∧
      (2 < (if w0 > 2 then w0 - w0 % 2 else w0) →
        (if w0 > 2 then w0 - w0 % 2 else w0) % 2 = 0) := by
  split_ifs <;> omega

theorem downscaleScale_bound (srcW srcH boundW boundH : Nat)
    (h1 : 0 < srcW) (h2 : 0 < srcH) (h3 : 0 < boundW) (h4 : 0 < boundH) :
    (srcW : ℚ) * (if min ((boundW : ℚ) / (srcW : ℚ)) ((boundH : ℚ) / (srcH : ℚ)) > 1 then 1
        else min ((boundW : ℚ) / (srcW : ℚ)) ((boundH : ℚ) / (srcH : ℚ))) ≤
      ((min srcW boundW : Nat) : ℚ) ∧
    (srcH : ℚ) * (if min ((boundW : ℚ) / (srcW : ℚ)) ((boundH : ℚ) / (srcH : ℚ)) > 1 then 1
        else min ((boundW : ℚ) / (srcW : ℚ)) ((boundH : ℚ) / (srcH : ℚ))) ≤
      ((min srcH boundH : Nat) : ℚ) := by
  have a1 : (0 : ℚ) < (srcW : ℚ) := by exact_mod_cast h1
  have a2 : (0 : ℚ) < (srcH : ℚ) := by exact_mod_cast h2
  have a3 : (0 : ℚ) < (boundW : ℚ) := by exact_mod_cast h3
  have a4 : (0 : ℚ) < (boundH : ℚ) := by exact_mod_cast h4
  have hs1 : (if min ((boundW : ℚ) / (srcW : ℚ)) ((boundH : ℚ) / (srcH : ℚ)) > 1 then 1
        else min ((boundW : ℚ) / (srcW : ℚ)) ((boundH : ℚ) / (srcH : ℚ))) ≤ 1 := by
    split_ifs with h
    · exact le_refl _
    · exact not_lt.mp h
  have hsx : (if min ((boundW : ℚ) / (srcW : ℚ)) ((boundH : ℚ) / (srcH : ℚ)) > 1 then 1
        else min ((boundW : ℚ) / (srcW : ℚ)) ((boundH : ℚ) / (srcH : ℚ))) ≤
        (boundW : ℚ) / (srcW : ℚ) := by
    split_ifs with h
    · exact le_of_lt (lt_of_lt_of_le h (min_le_left _ _))
    · exact min_le_left _ _
  have hsy : (if min ((boundW : ℚ) / (srcW : ℚ)) ((boundH : ℚ) / (srcH : ℚ)) > 1 then 1
        else min ((boundW : ℚ) / (srcW : ℚ)) ((boundH : ℚ) / (srcH : ℚ))) ≤
        (boundH : ℚ) / (srcH : ℚ) := by
    split_ifs with h
    · exact le_of_lt (lt_of_lt_of_le h (min_le_right _ _))
    · exact min_le_right _ _
  generalize (if min ((boundW : ℚ) / (srcW : ℚ)) ((boundH : ℚ) / (srcH : ℚ)) > 1 then 1
        else min ((boundW : ℚ) / (srcW : ℚ)) ((boundH : ℚ) / (srcH : ℚ))) = sc at hs1 hsx hsy ⊢
  have bx : (srcW : ℚ) * sc ≤ (boundW : ℚ) := by
    have := mul_le_mul_of_nonneg_left hsx (le_of_lt a1)
    rwa [mul_div_cancel₀ _ (ne_of_gt a1)] at this
  have by_ : (srcH : ℚ) * sc ≤ (boundH : ℚ) := by
    have := mul_le_mul_of_nonneg_left hsy (le_of_lt a2)
    rwa [mul_div_cancel₀ _ (ne_of_gt a2)] at this
  have cx : (srcW : ℚ) * sc ≤ (srcW : ℚ) := by nlinarith
  have cy : (srcH : ℚ) * sc ≤ (srcH : ℚ) := by nlinarith
  constructor
  · rw [Nat.cast_min]
    exact le_min cx bx
  · rw [Nat.cast_min]
    exact le_min cy by_

theorem computeDownscaleSize_pos (srcW srcH boundW boundH : Nat)
    (h1 : 0 < srcW) (h2 : 0 < srcH) (h3 : 0 < boundW) (h4 : 0 < boundH) :
    1 ≤ (computeDownscaleSize srcW srcH boundW boundH).1 ∧
    (computeDownscaleSize srcW srcH boundW boundH).1 ≤ min srcW boundW ∧
    1 ≤ (computeDownscaleSize srcW srcH boundW boundH).2 ∧
    (computeDownscaleSize srcW srcH boundW boundH).2 ≤ min srcH boundH ∧
    (2 < (computeDownscaleSize srcW srcH boundW boundH).1 →
      (computeDownscaleSize srcW srcH boundW boundH).1 % 2 = 0) ∧
    (2 < (computeDownscaleSize srcW srcH boundW boundH).2 →
      (computeDownscaleSize srcW srcH boundW boundH).2 % 2 = 0) := by
  have hz : ¬ (srcW = 0 ∨ srcH = 0 ∨ boundW = 0 ∨ boundH = 0) := by omega
  obtain ⟨bx, by_⟩ := downscaleScale_bound srcW srcH boundW boundH h1 h2 h3 h4
  have mx : 1 ≤ min srcW boundW := by omega
  have my : 1 ≤ min srcH boundH := by omega
  obtain ⟨rx1, rx2⟩ := roundHalf_bound _ _ mx bx
  obtain ⟨ry1, ry2⟩ := roundHalf_bound _ _ my by_
  obtain ⟨ex1, ex2, ex3⟩ := evenFloor_bound _ _ rx1 rx2
  obtain ⟨ey1, ey2, ey3⟩ := evenFloor_bound _ _ ry1 ry2
  unfold computeDownscaleSize
  rw [if_neg hz]
  exact ⟨ex1, ex2, ey1, ey2, ex3, ey3⟩


theorem downscalePrepass_inactive (env : RenderEnv) (s : Renderer)
    (h : s.downscaleWant = (0, 0)) :
    (s.downscalePrepass env).state = s ∧ (s.downscalePrepass env).cmds = [] ∧
      (s.downscalePrepass env).srvToPresent ≠ some PresentSrc.Downscaled := by
  have ha : s.downscaleActive = false := by
    unfold Renderer.downscaleActive
    rw [h]
    simp
  unfold Renderer.downscalePrepass
  simp only [ha, Bool.false_eq_true, if_false]
  refine ⟨trivial, trivial, ?_⟩
  split_ifs <;> simp

/-- C25: for every source size and preset bound, all positive, the downscale size `(w, h)`
computed in `Render` satisfies `1 <= w <= min(srcW, boundW)` and `1 <= h <= min(srcH, boundH)`,
and `w` and `h` are each even whenever they exceed 2; if any of the four inputs is 0 the
result is `(0, 0)`, and with a wanted size `(0, 0)` the downscale pre-pass changes nothing,
draws nothing and does not present a downscaled texture. -/
theorem C25_downscale_size (srcW srcH boundW boundH : Nat)
    (h1 : 0 < srcW) (h2 : 0 < srcH) (h3 : 0 < boundW) (h4 : 0 < boundH) :
    (1 ≤ (computeDownscaleSize srcW srcH boundW boundH).1 ∧
      (computeDownscaleSize srcW srcH boundW boundH).1 ≤ min srcW boundW ∧
      1 ≤ (computeDownscaleSize srcW srcH boundW boundH).2 ∧
      (computeDownscaleSize srcW srcH boundW boundH).2 ≤ min srcH boundH ∧
      (2 < (computeDownscaleSize srcW srcH boundW boundH).1 →
        (computeDownscaleSize srcW srcH boundW boundH).1 % 2 = 0) ∧
      (2 < (computeDownscaleSize srcW srcH boundW boundH).2 →
        (computeDownscaleSize srcW srcH boundW boundH).2 % 2 = 0)) ∧
    (∀ a b c d : Nat, a = 0 ∨ b = 0 ∨ c = 0 ∨ d = 0 → computeDownscaleSize a b c d = (0, 0)) ∧
    (∀ (env : RenderEnv) (s : Renderer), s.downscaleWant = (0, 0) →
      (s.downscalePrepass env).state = s ∧ (s.downscalePrepass env).cmds = [] ∧
        (s.downscalePrepass env).srvToPresent ≠ some PresentSrc.Downscaled) := by
  refine ⟨computeDownscaleSize_pos srcW srcH boundW boundH h1 h2 h3 h4, ?_, ?_⟩
  · intro a b c d h
    unfold computeDownscaleSize
    rw [if_pos h]
  · intro env s h
    exact downscalePrepass_inactive env s h

/-- Witness for C25: a 3840x2161 source under the 1280x720 preset gives 1278x720. -/
theorem C25_downscale_size_witness :
    computeDownscaleSize 3840 2161 1280 720 = (1278, 720) ∧
    1 ≤ (computeDownscaleSize 3840 2161 1280 720).1 ∧
    (computeDownscaleSize 3840 2161 1280 720).1 ≤ min 3840 1280 ∧
    1 ≤ (computeDownscaleSize 3840 2161 1280 720).2 ∧
    (computeDownscaleSize 3840 2161 1280 720).2 ≤ min 2161 720 :=
  ⟨by decide!,
    (C25_downscale_size 3840 2161 1280 720 (by decide) (by decide) (by decide) (by decide)).1.1,
    (C25_downscale_size 3840 2161 1280 720 (by decide) (by decide) (by decide) (by decide)).1.2.1,
    (C25_downscale_size 3840 2161 1280 720 (by decide) (by decide) (by decide) (by decide)).1.2.2.1,
    (C25_downscale_size 3840 2161 1280 720 (by decide) (by decide) (by decide)
      (by decide)).1.2.2.2.1⟩

/-! ### C21: the stabilized field stays in the unit interval -/

theorem hermite_mem (t : ℚ) (h0 : 0 ≤ t) (h1 : t ≤ 1) :
    0 ≤ t * t * (3 - 2 * t) ∧ t * t * (3 - 2 * t) ≤ 1 := by
  constructor
  · have : 0 ≤ 3 - 2 * t := by linarith
    positivity
  · nlinarith [mul_nonneg h0 h0, mul_nonneg (sub_nonneg.mpr h1) (sub_nonneg.mpr h1),
      mul_nonneg (mul_nonneg (sub_nonneg.mpr h1) (sub_nonneg.mpr h1)) (by linarith : (0:ℚ) ≤ 1 + 2 * t)]

theorem lerp_mem (a b t lo hi : ℚ) (ha : lo ≤ a ∧ a ≤ hi) (hb : lo ≤ b ∧ b ≤ hi)
    (ht : 0 ≤ t ∧ t ≤ 1) : lo ≤ lerp a b t ∧ lerp a b t ≤ hi := by
  unfold lerp
  constructor
  · nlinarith [mul_nonneg ht.1 (sub_nonneg.mpr hb.1), mul_nonneg (sub_nonneg.mpr ht.2) (sub_nonneg.mpr ha.1)]
  · nlinarith [mul_nonneg ht.1 (sub_nonneg.mpr hb.2), mul_nonneg (sub_nonneg.mpr ht.2) (sub_nonneg.mpr ha.2)]

theorem reshapeDepth_mem (pw : ℚ → ℚ → ℚ) (x : ℚ) :
    0 ≤ reshapeDepth pw x ∧ reshapeDepth pw x ≤ 1 := by
  unfold reshapeDepth
  simp only []
  have h0 := saturate_nonneg ((pw (saturate x) (65 / 100) - 1 / 2) * (220 / 100) + 1 / 2)
  have h1 := saturate_le_one ((pw (saturate x) (65 / 100) - 1 / 2) * (220 / 100) + 1 / 2)
  generalize saturate ((pw (saturate x) (65 / 100) - 1 / 2) * (220 / 100) + 1 / 2) = d at h0 h1
  exact lerp_mem d (d * d * (3 - 2 * d)) (20 / 100) 0 1 ⟨h0, h1⟩ (hermite_mem d h0 h1)
    ⟨by norm_num, by norm_num⟩

theorem spatialBlend_mem (temporal v1 v2 h1 h2 : ℚ)
    (ht : 0 ≤ temporal ∧ temporal ≤ 1) (hv1 : 0 ≤ v1 ∧ v1 ≤ 1) (hv2 : 0 ≤ v2 ∧ v2 ≤ 1)
    (hh1 : 0 ≤ h1 ∧ h1 ≤ 1) (hh2 : 0 ≤ h2 ∧ h2 ≤ 1) :
    0 ≤ spatialBlend temporal v1 v2 h1 h2 ∧ spatialBlend temporal v1 v2 h1 h2 ≤ 1 := by
  unfold spatialBlend lerp
  simp only []
  constructor <;> linarith [ht.1, ht.2, hv1.1, hv1.2, hv2.1, hv2.2, hh1.1, hh1.2, hh2.1, hh2.2]

theorem CSDepthSmooth_mem (pw : ℚ → ℚ → ℚ) (P : CSParams)
    (depthRawTex depthPrevTex : Int × Int → ℚ) (prev : ℚ) (gid : Nat × Nat) (v : ℚ)
    (hp : 0 ≤ prev ∧ prev ≤ 1)
    (hprev : ∀ p, 0 ≤ depthPrevTex p ∧ depthPrevTex p ≤ 1)
    (h : CSDepthSmooth pw P depthRawTex depthPrevTex prev gid = some v) : 0 ≤ v ∧ v ≤ 1 := by
  unfold CSDepthSmooth at h
  split_ifs at h with hc
  simp only [Option.some.injEq] at h
  rw [← h]
  have hd := reshapeDepth_mem pw (depthRawTex ((gid.1 : Int), (gid.2 : Int)))
  have hb := temporalClamp_between prev
    (reshapeDepth pw (depthRawTex ((gid.1 : Int), (gid.2 : Int))))
  apply spatialBlend_mem
  · exact ⟨le_trans (le_min hp.1 hd.1) hb.1, le_trans hb.2 (max_le hp.2 hd.2)⟩
  · exact hprev _
  · exact hprev _
  · exact hprev _
  · exact hprev _

theorem smoothstep_mem (e0 e1 x : ℚ) : 0 ≤ smoothstep e0 e1 x ∧ smoothstep e0 e1 x ≤ 1 := by
  unfold smoothstep
  exact hermite_mem _ (saturate_nonneg _) (saturate_le_one _)

theorem saturate_mono (x y : ℚ) (h : x ≤ y) : saturate x ≤ saturate y := by
  unfold saturate
  exact max_le_max (le_refl _) (min_le_min h (le_refl _))

theorem hermite_mono (t u : ℚ) (h0 : 0 ≤ t) (htu : t ≤ u) (h1 : u ≤ 1) :
    t * t * (3 - 2 * t) ≤ u * u * (3 - 2 * u) := by
  have hu0 : 0 ≤ u := le_trans h0 htu
  have ht1 : t ≤ 1 := le_trans htu h1
  have key : u * u * (3 - 2 * u) - t * t * (3 - 2 * t) =
      (u - t) * (3 * (u + t) - 2 * (u * u + u * t + t * t)) := by ring
  have h2 : 0 ≤ 3 * (u + t) - 2 * (u * u + u * t + t * t) := by
    nlinarith [mul_nonneg hu0 (sub_nonneg.mpr h1), mul_nonneg h0 (sub_nonneg.mpr ht1),
      mul_nonneg hu0 (sub_nonneg.mpr ht1), mul_nonneg h0 (sub_nonneg.mpr h1)]
  nlinarith [mul_nonneg (sub_nonneg.mpr htu) h2]

theorem smoothstep_mono (e0 e1 x y : ℚ) (he : e0 < e1) (h : x ≤ y) :
    smoothstep e0 e1 x ≤ smoothstep e0 e1 y := by
  unfold smoothstep
  apply hermite_mono _ _ (saturate_nonneg _) _ (saturate_le_one _)
  apply saturate_mono
  exact div_le_div_of_nonneg_right (by linarith) (le_of_lt (sub_pos.mpr he))

theorem smoothstep_one_of_ge (e0 e1 x : ℚ) (he : e0 < e1) (h : e1 ≤ x) :
    smoothstep e0 e1 x = 1 := by
  have h1 : 1 ≤ (x - e0) / (e1 - e0) := by
    rw [le_div_iff₀ (sub_pos.mpr he)]
    linarith
  have hs : saturate ((x - e0) / (e1 - e0)) = 1 := by
    unfold saturate
    rw [min_eq_right h1, max_eq_right (by norm_num)]
  unfold smoothstep
  rw [hs]
  norm_num

theorem curveWeights_nonneg (t : ℚ) :
    0 ≤ (curveWeights t).1 ∧ 0 ≤ (curveWeights t).2.1 ∧ 0 ≤ (curveWeights t).2.2.1 ∧
      0 ≤ (curveWeights t).2.2.2.1 ∧ 0 ≤ (curveWeights t).2.2.2.2 :=
  ⟨(smoothstep_mem _ _ _).1, (smoothstep_mem _ _ _).1, (smoothstep_mem _ _ _).1,
    (smoothstep_mem _ _ _).1, (smoothstep_mem _ _ _).1⟩

theorem curveWeights_le_one (t : ℚ) :
    (curveWeights t).1 ≤ 1 ∧ (curveWeights t).2.1 ≤ 1 ∧ (curveWeights t).2.2.1 ≤ 1 ∧
      (curveWeights t).2.2.2.1 ≤ 1 ∧ (curveWeights t).2.2.2.2 ≤ 1 :=
  ⟨(smoothstep_mem _ _ _).2, (smoothstep_mem _ _ _).2, (smoothstep_mem _ _ _).2,
    (smoothstep_mem _ _ _).2, (smoothstep_mem _ _ _).2⟩

theorem curveWeightSum_ge (t : ℚ) : 1 + 1 / 1000000 ≤ curveWeightSum t := by
  obtain ⟨n1, n2, n3, n4, n5⟩ := curveWeights_nonneg t
  unfold curveWeightSum
  rcases le_total (2 / 5) t with h | h
  · have h1 : (curveWeights t).1 = 1 := smoothstep_one_of_ge 0 (40 / 100) t (by norm_num) (by linarith)
    linarith
  · have f1 : smoothstep (15 / 100) (85 / 100) (6 / 10) ≤ (curveWeights t).2.2.2.1 :=
      smoothstep_mono _ _ _ _ (by norm_num) (by linarith)
    have f2 : smoothstep (35 / 100) 1 (6 / 10) ≤ (curveWeights t).2.2.2.2 :=
      smoothstep_mono _ _ _ _ (by norm_num) (by linarith)
    have v1 : smoothstep (15 / 100) (85 / 100) (6 / 10) = 243 / 343 := by decide!
    have v2 : smoothstep (35 / 100) 1 (6 / 10) = 725 / 2197 := by decide!
    rw [v1] at f1
    rw [v2] at f2
    linarith

theorem depthRawValue_staged (pw : ℚ → ℚ → ℚ) (dark_push gC gL gR gU gD : ℚ) :
    depthRawValue pw dark_push gC gL gR gU gD =
      depthShaping (curveBlend pw (saturate (softenedLuma gC gL gR gU gD)))
        dark_push (softenedLuma gC gL gR gU gD) (tapContrast gC gL gR gU gD) := rfl

/-- C23, as stated, fails: for `g_soft = 1` the five activation weights are `(1, 1, 1, 0, 0)`,
the normaliser `w_sum` is `3.000001`, and the weights divided by it add up to
`3000000 / 3000001`, not to 1. -/
theorem C23_counterexample :
    curveWeights (saturate 1) = (1, 1, 1, 0, 0) ∧
    (curveWeights (saturate 1)).1 / curveWeightSum (saturate 1) +
      (curveWeights (saturate 1)).2.1 / curveWeightSum (saturate 1) +
      (curveWeights (saturate 1)).2.2.1 / curveWeightSum (saturate 1) +
      (curveWeights (saturate 1)).2.2.2.1 / curveWeightSum (saturate 1) +
      (curveWeights (saturate 1)).2.2.2.2 / curveWeightSum (saturate 1) = 3000000 / 3000001 ∧
    ¬ ((curveWeights (saturate 1)).1 / curveWeightSum (saturate 1) +
      (curveWeights (saturate 1)).2.1 / curveWeightSum (saturate 1) +
      (curveWeights (saturate 1)).2.2.1 / curveWeightSum (saturate 1) +
      (curveWeights (saturate 1)).2.2.2.1 / curveWeightSum (saturate 1) +
      (curveWeights (saturate 1)).2.2.2.2 / curveWeightSum (saturate 1) = 1) := by
  decide!

/-- C23 (amended): for every softened luminance `g_soft`, with `t = saturate(g_soft)`, the
five activation weights divided by the normaliser `w_sum` are not negative and add up to
`1 - 0.000001 / w_sum`, which lies strictly between `1 - 0.000001` and 1; `curve_blend` is
the sum of the five curve outputs weighted by them. -/
theorem C23_weights_sum (pw : ℚ → ℚ → ℚ) (g_soft : ℚ) :
    (0 ≤ (curveWeights (saturate g_soft)).1 / curveWeightSum (saturate g_soft) ∧
      0 ≤ (curveWeights (saturate g_soft)).2.1 / curveWeightSum (saturate g_soft) ∧
      0 ≤ (curveWeights (saturate g_soft)).2.2.1 / curveWeightSum (saturate g_soft) ∧
      0 ≤ (curveWeights (saturate g_soft)).2.2.2.1 / curveWeightSum (saturate g_soft) ∧
      0 ≤ (curveWeights (saturate g_soft)).2.2.2.2 / curveWeightSum (saturate g_soft)) ∧
    (curveWeights (saturate g_soft)).1 / curveWeightSum (saturate g_soft) +
      (curveWeights (saturate g_soft)).2.1 / curveWeightSum (saturate g_soft) +
      (curveWeights (saturate g_soft)).2.2.1 / curveWeightSum (saturate g_soft) +
      (curveWeights (saturate g_soft)).2.2.2.1 / curveWeightSum (saturate g_soft) +
      (curveWeights (saturate g_soft)).2.2.2.2 / curveWeightSum (saturate g_soft) =
        1 - 1 / 1000000 / curveWeightSum (saturate g_soft) ∧
    1 - 1 / 1000000 < 1 - 1 / 1000000 / curveWeightSum (saturate g_soft) ∧
    1 - 1 / 1000000 / curveWeightSum (saturate g_soft) < 1 ∧
    curveBlend pw (saturate g_soft) =
      (curveOutputs pw (saturate g_soft)).1 *
          ((curveWeights (saturate g_soft)).1 / curveWeightSum (saturate g_soft)) +
        (curveOutputs pw (saturate g_soft)).2.1 *
          ((curveWeights (saturate g_soft)).2.1 / curveWeightSum (saturate g_soft)) +
        (curveOutputs pw (saturate g_soft)).2.2.1 *
          ((curveWeights (saturate g_soft)).2.2.1 / curveWeightSum (saturate g_soft)) +
        (curveOutputs pw (saturate g_soft)).2.2.2.1 *
          ((curveWeights (saturate g_soft)).2.2.2.1 / curveWeightSum (saturate g_soft)) +
        (curveOutputs pw (saturate g_soft)).2.2.2.2 *
          ((curveWeights (saturate g_soft)).2.2.2.2 / curveWeightSum (saturate g_soft)) := by
  obtain ⟨n1, n2, n3, n4, n5⟩ := curveWeights_nonneg (saturate g_soft)
  have hS := curveWeightSum_ge (saturate g_soft)
  have hS0 : 0 < curveWeightSum (saturate g_soft) := by linarith
  have hdef : curveWeightSum (saturate g_soft) =
      (curveWeights (saturate g_soft)).1 + (curveWeights (saturate g_soft)).2.1 +
        (curveWeights (saturate g_soft)).2.2.1 + (curveWeights (saturate g_soft)).2.2.2.1 +
        (curveWeights (saturate g_soft)).2.2.2.2 + 1 / 1000000 := rfl
  refine ⟨⟨div_nonneg n1 hS0.le, div_nonneg n2 hS0.le, div_nonneg n3 hS0.le,
    div_nonneg n4 hS0.le, div_nonneg n5 hS0.le⟩, ?_, ?_, ?_, ?_⟩
  · field_simp
    rw [hdef]
    ring
  · have : 1 / 1000000 / curveWeightSum (saturate g_soft) < 1 / 1000000 := by
      rw [div_lt_iff₀ hS0]
      nlinarith
    linarith
  · have : 0 < 1 / 1000000 / curveWeightSum (saturate g_soft) := by positivity
    linarith
  · unfold curveBlend
    field_simp

/-! ### C28: the range of the raw depth -/

theorem tapContrast_nonneg (gC gL gR gU gD : ℚ) : 0 ≤ tapContrast gC gL gR gU gD := by
  unfold tapContrast
  exact le_trans (abs_nonneg (gC - gL)) (le_trans (le_max_left _ _) (le_max_left _ _))

theorem softenedLuma_mem (gC gL gR gU gD : ℚ)
    (hC : 0 ≤ gC ∧ gC ≤ 1) (hL : 0 ≤ gL ∧ gL ≤ 1) (hR : 0 ≤ gR ∧ gR ≤ 1)
    (hU : 0 ≤ gU ∧ gU ≤ 1) (hD : 0 ≤ gD ∧ gD ≤ 1) :
    0 ≤ softenedLuma gC gL gR gU gD ∧ softenedLuma gC gL gR gU gD ≤ 1 := by
  have havg : 0 ≤ (gC + gL + gR + gU + gD) * (2 / 10) ∧ (gC + gL + gR + gU + gD) * (2 / 10) ≤ 1 := by
    constructor <;> linarith [hC.1, hC.2, hL.1, hL.2, hR.1, hR.2, hU.1, hU.2, hD.1, hD.2]
  unfold softenedLuma
  simp only []
  generalize tapContrast gC gL gR gU gD = c
  generalize (gC + gL + gR + gU + gD) * (2 / 10) = avg at havg ⊢
  have h1 : 0 ≤ lerp gC avg (1 - smoothstep (5 / 100) (25 / 100) c) ∧
      lerp gC avg (1 - smoothstep (5 / 100) (25 / 100) c) ≤ 1 :=
    lerp_mem _ _ _ 0 1 hC havg
      ⟨by linarith [(smoothstep_mem (5 / 100) (25 / 100) c).2],
        by linarith [(smoothstep_mem (5 / 100) (25 / 100) c).1]⟩
  generalize lerp gC avg (1 - smoothstep (5 / 100) (25 / 100) c) = g1 at h1 ⊢
  have h2 : 0 ≤ lerp g1 avg (smoothstep (10 / 100) (35 / 100) c * (90 / 100)) ∧
      lerp g1 avg (smoothstep (10 / 100) (35 / 100) c * (90 / 100)) ≤ 1 :=
    lerp_mem _ _ _ 0 1 h1 havg
      ⟨by linarith [(smoothstep_mem (10 / 100) (35 / 100) c).1],
        by linarith [(smoothstep_mem (10 / 100) (35 / 100) c).2]⟩
  generalize lerp g1 avg (smoothstep (10 / 100) (35 / 100) c * (90 / 100)) = g2 at h2 ⊢
  have h3 : 0 ≤ lerp g2 (1 / 2) ((1 - smoothstep 0 (25 / 1000) |g2 - 1 / 2|) * (50 / 100)) ∧
      lerp g2 (1 / 2) ((1 - smoothstep 0 (25 / 1000) |g2 - 1 / 2|) * (50 / 100)) ≤ 1 :=
    lerp_mem _ _ _ 0 1 h2 ⟨by norm_num, by norm_num⟩
      ⟨by linarith [(smoothstep_mem 0 (25 / 1000) |g2 - 1 / 2|).2],
        by linarith [(smoothstep_mem 0 (25 / 1000) |g2 - 1 / 2|).1]⟩
  generalize lerp g2 (1 / 2) ((1 - smoothstep 0 (25 / 1000) |g2 - 1 / 2|) * (50 / 100)) = g3
    at h3 ⊢
  have hh := smoothstep_mem (78 / 100) (95 / 100) g3
  have hc := smoothstep_mem (12 / 100) (32 / 100) c
  apply lerp_mem _ _ _ 0 1 h3
  · constructor <;> linarith [h3.1, h3.2]
  · constructor
    · have := mul_nonneg hh.1 hc.1
      linarith
    · have := mul_le_one₀ hh.2 hc.1 hc.2
      linarith

theorem curveBlend_mem (pw : ℚ → ℚ → ℚ)
    (hpw : ∀ x y : ℚ, 0 ≤ x → x ≤ 1 → 0 ≤ pw x y ∧ pw x y ≤ 1) (t : ℚ)
    (h0 : 0 ≤ t) (h1 : t ≤ 1) : 0 ≤ curveBlend pw t ∧ curveBlend pw t ≤ 1 := by
  obtain ⟨n1, n2, n3, n4, n5⟩ := curveWeights_nonneg t
  have hS := curveWeightSum_ge t
  have hS0 : 0 < curveWeightSum t := by linarith
  have hdef : curveWeightSum t =
      (curveWeights t).1 + (curveWeights t).2.1 + (curveWeights t).2.2.1 +
        (curveWeights t).2.2.2.1 + (curveWeights t).2.2.2.2 + 1 / 1000000 := rfl
  have a1 := hpw t (22 / 100) h0 h1
  have a2 := hpw t (50 / 100) h0 h1
  have a3 := hpw t (90 / 100) h0 h1
  have a4 := hpw (1 - t) (95 / 100) (by linarith) (by linarith)
  have a5 := hpw (1 - t) (135 / 100) (by linarith) (by linarith)
  unfold curveBlend curveOutputs
  simp only []
  constructor
  · apply div_nonneg _ hS0.le
    have b1 := mul_nonneg a1.1 n1
    have b2 := mul_nonneg a2.1 n2
    have b3 := mul_nonneg a3.1 n3
    have b4 := mul_nonneg (sub_nonneg.mpr a4.2) n4
    have b5 := mul_nonneg (sub_nonneg.mpr a5.2) n5
    linarith
  · rw [div_le_one hS0, hdef]
    have b1 := mul_le_mul_of_nonneg_right a1.2 n1
    have b2 := mul_le_mul_of_nonneg_right a2.2 n2
    have b3 := mul_le_mul_of_nonneg_right a3.2 n3
    have b4 := mul_nonneg a4.1 n4
    have b5 := mul_nonneg a5.1 n5
    linarith

theorem aggression_bound (d A r : ℚ) (hd : 1 / 2 - r ≤ d ∧ d ≤ 1 / 2 + r)
    (hA : 35 / 100 ≤ A ∧ A ≤ 55 / 100) :
    1 / 2 - r * (55 / 100) ≤ (d - 1 / 2) * A + 1 / 2 ∧
      (d - 1 / 2) * A + 1 / 2 ≤ 1 / 2 + r * (55 / 100) := by
  have hr : 0 ≤ r := by linarith
  have hA0 : 0 ≤ A := by linarith
  constructor
  · nlinarith [mul_nonneg (sub_nonneg.mpr hd.1) hA0, mul_nonneg hr (sub_nonneg.mpr hA.2)]
  · nlinarith [mul_nonneg (sub_nonneg.mpr hd.2) hA0, mul_nonneg hr (sub_nonneg.mpr hA.2)]

theorem depthShaping_bound (cb dp g c : ℚ) (hcb : 0 ≤ cb ∧ cb ≤ 1) (hdp : 0 ≤ dp ∧ dp ≤ 1)
    (hg : 0 ≤ g ∧ g ≤ 1) :
    259 / 1000 ≤ depthShaping cb dp g c ∧ depthShaping cb dp g c ≤ 6812 / 10000 := by
  have hA := lerp_mem (55 / 100) (35 / 100) (smoothstep (12 / 100) (35 / 100) c) (35 / 100)
    (55 / 100) ⟨by norm_num, by norm_num⟩ ⟨by norm_num, by norm_num⟩ (smoothstep_mem _ _ _)
  have hlc := smoothstep_mem (30 / 1000) (4 / 1000) c
  have hnm := smoothstep_mem (35 / 100) (75 / 100) (c * g)
  have hd0 := lerp_mem cb dp (1 - g) 0 1 hcb hdp ⟨by linarith [hg.2], by linarith [hg.1]⟩
  unfold depthShaping
  simp only []
  generalize lerp (55 / 100) (35 / 100) (smoothstep (12 / 100) (35 / 100) c) = A at hA ⊢
  generalize smoothstep (30 / 1000) (4 / 1000) c = lc at hlc ⊢
  generalize smoothstep (35 / 100) (75 / 100) (c * g) = nm at hnm ⊢
  generalize lerp cb dp (1 - g) = d0 at hd0 ⊢
  have hd1 := aggression_bound d0 A (1 / 2) ⟨by linarith [hd0.1], by linarith [hd0.2]⟩ hA
  generalize (d0 - 1 / 2) * A + 1 / 2 = d1 at hd1 ⊢
  have hd2 : 1 / 2 - 27905 / 100000 ≤ lerp d1 cb (18 / 1000) ∧
      lerp d1 cb (18 / 1000) ≤ 1 / 2 + 27905 / 100000 := by
    unfold lerp
    constructor <;> linarith [hd1.1, hd1.2, hcb.1, hcb.2]
  generalize lerp d1 cb (18 / 1000) = d2 at hd2 ⊢
  have hd3 := aggression_bound d2 A (27905 / 100000) hd2 hA
  generalize (d2 - 1 / 2) * A + 1 / 2 = d3 at hd3 ⊢
  have hd4 : 3465 / 10000 ≤ d3 + lc * (1 / 1000000) ∧ d3 + lc * (1 / 1000000) ≤ 65348 / 100000 := by
    constructor <;> linarith [hd3.1, hd3.2, hlc.1, hlc.2]
  generalize d3 + lc * (1 / 1000000) = d4 at hd4 ⊢
  have hd5 : 2966 / 10000 ≤ lerp d4 (d4 * (20 / 100)) (nm * (18 / 100)) ∧
      lerp d4 (d4 * (20 / 100)) (nm * (18 / 100)) ≤ 65348 / 100000 := by
    unfold lerp
    have p1 := mul_nonneg hnm.1 (by linarith [hd4.1] : (0 : ℚ) ≤ d4)
    have p2 := mul_nonneg (sub_nonneg.mpr hnm.2) (by linarith [hd4.1] : (0 : ℚ) ≤ d4)
    constructor <;> nlinarith [hd4.1, hd4.2]
  generalize lerp d4 (d4 * (20 / 100)) (nm * (18 / 100)) = d5 at hd5 ⊢
  constructor <;> linarith [hd5.1, hd5.2]

theorem depthRawValue_range (pw : ℚ → ℚ → ℚ) (dark_push gC gL gR gU gD : ℚ)
    (hpw : ∀ x y : ℚ, 0 ≤ x → x ≤ 1 → 0 ≤ pw x y ∧ pw x y ≤ 1)
    (hdp : 0 ≤ dark_push ∧ dark_push ≤ 1)
    (hC : 0 ≤ gC ∧ gC ≤ 1) (hL : 0 ≤ gL ∧ gL ≤ 1) (hR : 0 ≤ gR ∧ gR ≤ 1)
    (hU : 0 ≤ gU ∧ gU ≤ 1) (hD : 0 ≤ gD ∧ gD ≤ 1) :
    25 / 100 ≤ depthRawValue pw dark_push gC gL gR gU gD ∧
    depthRawValue pw dark_push gC gL gR gU gD ≤ 70 / 100 := by
  have hg := softenedLuma_mem gC gL gR gU gD hC hL hR hU hD
  have hcb := curveBlend_mem pw hpw (saturate (softenedLuma gC gL gR gU gD))
    (saturate_nonneg _) (saturate_le_one _)
  have hb := depthShaping_bound _ _ _ (tapContrast gC gL gR gU gD) hcb hdp hg
  rw [← depthRawValue_staged] at hb
  exact ⟨by linarith [hb.1], by linarith [hb.2]⟩

theorem EyeMapping_uvEye (P : CSParams) (gid : Nat × Nat) :
    (EyeMapping P gid).uvEye =
      ((((EyeMapping P gid).localX : ℚ) + 1 / 2) / ((max 1 (EyeMapping P gid).viewW : Nat) : ℚ),
        ((gid.2 : ℚ) + 1 / 2) / ((max 1 P.outHeight : Nat) : ℚ)) := rfl

theorem samplerAddress_mem (uv : Float2) :
    0 ≤ (samplerAddress uv).1 ∧ (samplerAddress uv).1 ≤ 1 ∧
      0 ≤ (samplerAddress uv).2 ∧ (samplerAddress uv).2 ≤ 1 := by
  unfold samplerAddress
  refine ⟨le_max_left _ _, max_le (by norm_num) (min_le_right _ _), le_max_left _ _,
    max_le (by norm_num) (min_le_right _ _)⟩

theorem depthRawTaps_offsets (P : CSParams) (gid : Nat × Nat) :
    (depthRawTaps P gid).2.1 =
      ((depthRawTaps P gid).1.1 - (depthRawStep P gid).1, (depthRawTaps P gid).1.2) ∧
    (depthRawTaps P gid).2.2.1 =
      ((depthRawTaps P gid).1.1 + (depthRawStep P gid).1, (depthRawTaps P gid).1.2) ∧
    (depthRawTaps P gid).2.2.2.1 =
      ((depthRawTaps P gid).1.1, (depthRawTaps P gid).1.2 - (depthRawStep P gid).2) ∧
    (depthRawTaps P gid).2.2.2.2 =
      ((depthRawTaps P gid).1.1, (depthRawTaps P gid).1.2 + (depthRawStep P gid).2) := by
  unfold depthRawTaps depthRawStep
  simp only []
  refine ⟨?_, ?_, ?_, ?_⟩ <;> ext <;> simp <;> ring

theorem depthRawTaps_centre (P : CSParams) (gid : Nat × Nat)
    (hx : gid.1 < P.outWidth) (hy : gid.2 < P.outHeight)
    (hsx : 0 ≤ P.cropScale.1) (hsy : 0 ≤ P.cropScale.2) :
    (0 ≤ (depthRawStep P gid).1 ∧ 0 ≤ (depthRawStep P gid).2) ∧
    (depthRawTaps P gid).1.1 =
      P.cropOffset.1 + (((EyeMapping P gid).localX : ℚ) + 1 / 2) * (depthRawStep P gid).1 ∧
    (depthRawTaps P gid).1.2 =
      P.cropOffset.2 + ((gid.2 : ℚ) + 1 / 2) * (depthRawStep P gid).2 ∧
    ((EyeMapping P gid).viewW : ℚ) * (depthRawStep P gid).1 = P.cropScale.1 ∧
    (P.outHeight : ℚ) * (depthRawStep P gid).2 = P.cropScale.2 ∧
    P.cropOffset.1 + (depthRawStep P gid).1 / 2 ≤ (depthRawTaps P gid).1.1 ∧
    (depthRawTaps P gid).1.1 ≤ P.cropOffset.1 + P.cropScale.1 - (depthRawStep P gid).1 / 2 ∧
    P.cropOffset.2 + (depthRawStep P gid).2 / 2 ≤ (depthRawTaps P gid).1.2 ∧
    (depthRawTaps P gid).1.2 ≤ P.cropOffset.2 + P.cropScale.2 - (depthRawStep P gid).2 / 2 := by
  have hv := EyeMapping_viewW_pos P gid hx
  have hl := EyeMapping_localX_lt P gid hx
  have m1 : max 1 (EyeMapping P gid).viewW = (EyeMapping P gid).viewW := by omega
  have m2 : max 1 P.outHeight = P.outHeight := by omega
  have hvq : (0 : ℚ) < ((EyeMapping P gid).viewW : ℚ) := by exact_mod_cast hv
  have hhq : (0 : ℚ) < (P.outHeight : ℚ) := by
    have : 0 < P.outHeight := by omega
    exact_mod_cast this
  have hlq : ((EyeMapping P gid).localX : ℚ) + 1 ≤ ((EyeMapping P gid).viewW : ℚ) := by
    exact_mod_cast hl
  have hyq : (gid.2 : ℚ) + 1 ≤ (P.outHeight : ℚ) := by exact_mod_cast hy
  have hl0 : (0 : ℚ) ≤ ((EyeMapping P gid).localX : ℚ) := Nat.cast_nonneg _
  have hy0 : (0 : ℚ) ≤ (gid.2 : ℚ) := Nat.cast_nonneg _
  have c1 : (depthRawTaps P gid).1.1 =
      P.cropOffset.1 + (((EyeMapping P gid).localX : ℚ) + 1 / 2) * (depthRawStep P gid).1 := by
    unfold depthRawTaps depthRawStep
    simp only [EyeMapping_uvEye]
    ring
  have c2 : (depthRawTaps P gid).1.2 =
      P.cropOffset.2 + ((gid.2 : ℚ) + 1 / 2) * (depthRawStep P gid).2 := by
    unfold depthRawTaps depthRawStep
    simp only [EyeMapping_uvEye]
    ring
  have s1 : ((EyeMapping P gid).viewW : ℚ) * (depthRawStep P gid).1 = P.cropScale.1 := by
    unfold depthRawStep
    simp only [m1]
    exact mul_div_cancel₀ _ (ne_of_gt hvq)
  have s2 : (P.outHeight : ℚ) * (depthRawStep P gid).2 = P.cropScale.2 := by
    unfold depthRawStep
    simp only [m2]
    exact mul_div_cancel₀ _ (ne_of_gt hhq)
  have p1 : 0 ≤ (depthRawStep P gid).1 := by
    unfold depthRawStep
    exact div_nonneg hsx (Nat.cast_nonneg _)
  have p2 : 0 ≤ (depthRawStep P gid).2 := by
    unfold depthRawStep
    exact div_nonneg hsy (Nat.cast_nonneg _)
  refine ⟨⟨p1, p2⟩, c1, c2, s1, s2, ?_⟩
  rw [c1, c2]
  generalize (depthRawStep P gid).1 = sx at *
  generalize (depthRawStep P gid).2 = sy at *
  refine ⟨?_, ?_, ?_, ?_⟩
  · nlinarith [mul_nonneg hl0 p1]
  · nlinarith [mul_nonneg (sub_nonneg.mpr hlq) p1]
  · nlinarith [mul_nonneg hy0 p2]
  · nlinarith [mul_nonneg (sub_nonneg.mpr hyq) p2]


theorem tap_interior_low (off st c l : ℚ) (hc : c = off + (l + 1 / 2) * st) (hst : 0 ≤ st)
    (hl : 1 ≤ l) : off ≤ c - st := by
  rw [hc]
  nlinarith [mul_nonneg (sub_nonneg.mpr hl) hst]

theorem tap_interior_high (off sc st c l w : ℚ) (hc : c = off + (l + 1 / 2) * st)
    (hs : w * st = sc) (hst : 0 ≤ st) (hl : l + 2 ≤ w) : c + st ≤ off + sc := by
  rw [hc, ← hs]
  nlinarith [mul_nonneg (sub_nonneg.mpr hl) hst]

theorem clamp01_id (x : ℚ) (h0 : 0 ≤ x) (h1 : x ≤ 1) : max 0 (min x 1) = x := by
  rw [min_eq_left h1, max_eq_right h0]

theorem clamp01_below (x lo hi : ℚ) (h0 : 0 ≤ lo) (h1 : hi ≤ 1) (hlt : x < lo) (hle : lo ≤ hi) :
    (lo ≤ max 0 (min x 1) ∧ max 0 (min x 1) ≤ hi) ↔ lo = 0 := by
  have hx1 : x ≤ 1 := by linarith
  rw [min_eq_left hx1]
  constructor
  · rintro ⟨h, _⟩
    rcases max_cases 0 x with ⟨e, _⟩ | ⟨e, _⟩
    · rw [e] at h
      linarith
    · rw [e] at h
      linarith
  · intro e
    have hx0 : x ≤ 0 := by linarith
    rw [max_eq_left hx0, e]
    exact ⟨le_refl _, by linarith⟩

theorem clamp01_above (x lo hi : ℚ) (_h0 : 0 ≤ lo) (h1 : hi ≤ 1) (hgt : hi < x) (hle : lo ≤ hi) :
    (lo ≤ max 0 (min x 1) ∧ max 0 (min x 1) ≤ hi) ↔ hi = 1 := by
  constructor
  · rintro ⟨_, h⟩
    rcases min_cases x 1 with ⟨e, _⟩ | ⟨e, _⟩
    · rw [e] at h
      have := le_max_right 0 x
      linarith
    · rw [e] at h
      have := le_max_right (0 : ℚ) 1
      linarith
  · intro e
    have hx1 : 1 ≤ x := by linarith
    rw [min_eq_right hx1, max_eq_right (by norm_num : (0 : ℚ) ≤ 1), e]
    exact ⟨by linarith, le_refl _⟩

/-- C24, as stated, fails: with the crop rectangle `[1/4, 3/4] x [0, 1]` and a 4 x 2 output,
the left tap of pixel `(0, 0)` is taken at `u = 1/8`.  The sampler leaves that coordinate
as it is (it lies inside the texture), and it lies outside the crop rectangle, left of
`cropOffset.x = 1/4`. -/
theorem C24_counterexample :
    (depthRawTaps ⟨4, 2, 2, 0, 0, 0, (1 / 4, 0), (1 / 2, 1)⟩ (0, 0)).2.1 = (1 / 8, 1 / 4) ∧
    samplerAddress (1 / 8, 1 / 4) = (1 / 8, 1 / 4) ∧
    ¬ ((1 / 4 : ℚ) ≤ (1 / 8, 1 / 4).1) := by
  decide!

/-- C24 (amended): for every crop with non-negative scale and every in-range output pixel,
the centre tap of `CSDepthRaw` lies inside the crop rectangle, at least half a step
`uvStep / 2` away from each of its sides; the four neighbour taps are the centre moved by
exactly one `uvStep` to the left, right, up and down, with no clamp to the crop, so every tap
lies in the crop rectangle widened by `uvStep / 2` on each side; the position the sampler
reads (`CLAMP` addressing) lies inside the texture `[0,1] x [0,1]` for every tap.  For a
pixel in the first column of its eye the left tap lies exactly `uvStep.x / 2` left of the
crop rectangle, in the last column the right tap `uvStep.x / 2` right of it, in the first row
the upper tap `uvStep.y / 2` above it, in the last row the lower tap `uvStep.y / 2` below it;
the centre tap and every other neighbour tap lie inside the crop rectangle.  The sampler
reads a tap that lies inside the texture where it is.  For a crop rectangle with positive
scale inside the texture, the position read for the left tap of a first-column pixel lies
inside the crop rectangle if and only if the left side of the crop is the left edge of the
texture (`cropOffset.x = 0`), and likewise for the right tap of a last-column pixel
(`cropOffset.x + cropScale.x = 1`), the upper tap of a first-row pixel (`cropOffset.y = 0`)
and the lower tap of a last-row pixel (`cropOffset.y + cropScale.y = 1`). -/
theorem C24_tap_positions (P : CSParams) (gid : Nat × Nat)
    (hx : gid.1 < P.outWidth) (hy : gid.2 < P.outHeight)
    (hsx : 0 ≤ P.cropScale.1) (hsy : 0 ≤ P.cropScale.2) :
    (P.cropOffset.1 + (depthRawStep P gid).1 / 2 ≤ (depthRawTaps P gid).1.1 ∧
      (depthRawTaps P gid).1.1 ≤ P.cropOffset.1 + P.cropScale.1 - (depthRawStep P gid).1 / 2 ∧
      P.cropOffset.2 + (depthRawStep P gid).2 / 2 ≤ (depthRawTaps P gid).1.2 ∧
      (depthRawTaps P gid).1.2 ≤ P.cropOffset.2 + P.cropScale.2 - (depthRawStep P gid).2 / 2) ∧
    ((depthRawTaps P gid).2.1 =
        ((depthRawTaps P gid).1.1 - (depthRawStep P gid).1, (depthRawTaps P gid).1.2) ∧
      (depthRawTaps P gid).2.2.1 =
        ((depthRawTaps P gid).1.1 + (depthRawStep P gid).1, (depthRawTaps P gid).1.2) ∧
      (depthRawTaps P gid).2.2.2.1 =
        ((depthRawTaps P gid).1.1, (depthRawTaps P gid).1.2 - (depthRawStep P gid).2) ∧
      (depthRawTaps P gid).2.2.2.2 =
        ((depthRawTaps P gid).1.1, (depthRawTaps P gid).1.2 + (depthRawStep P gid).2)) ∧
    (∀ tap ∈ depthRawTapList P gid,
      P.cropOffset.1 - (depthRawStep P gid).1 / 2 ≤ tap.1 ∧
      tap.1 ≤ P.cropOffset.1 + P.cropScale.1 + (depthRawStep P gid).1 / 2 ∧
      P.cropOffset.2 - (depthRawStep P gid).2 / 2 ≤ tap.2 ∧
      tap.2 ≤ P.cropOffset.2 + P.cropScale.2 + (depthRawStep P gid).2 / 2) ∧
    (∀ tap ∈ depthRawTapList P gid,
      0 ≤ (samplerAddress tap).1 ∧ (samplerAddress tap).1 ≤ 1 ∧
      0 ≤ (samplerAddress tap).2 ∧ (samplerAddress tap).2 ≤ 1) ∧
    (((EyeMapping P gid).localX = 0 →
        ((depthRawTaps P gid).2.1).1 = P.cropOffset.1 - (depthRawStep P gid).1 / 2) ∧
      ((EyeMapping P gid).localX + 1 = (EyeMapping P gid).viewW →
        ((depthRawTaps P gid).2.2.1).1 =
          P.cropOffset.1 + P.cropScale.1 + (depthRawStep P gid).1 / 2) ∧
      (gid.2 = 0 →
        ((depthRawTaps P gid).2.2.2.1).2 = P.cropOffset.2 - (depthRawStep P gid).2 / 2) ∧
      (gid.2 + 1 = P.outHeight →
        ((depthRawTaps P gid).2.2.2.2).2 =
          P.cropOffset.2 + P.cropScale.2 + (depthRawStep P gid).2 / 2)) ∧
    (P.insideCrop (depthRawTaps P gid).1 ∧
      ((EyeMapping P gid).localX ≠ 0 → P.insideCrop (depthRawTaps P gid).2.1) ∧
      ((EyeMapping P gid).localX + 1 ≠ (EyeMapping P gid).viewW →
        P.insideCrop (depthRawTaps P gid).2.2.1) ∧
      (gid.2 ≠ 0 → P.insideCrop (depthRawTaps P gid).2.2.2.1) ∧
      (gid.2 + 1 ≠ P.outHeight → P.insideCrop (depthRawTaps P gid).2.2.2.2)) ∧
    (∀ tap : Float2, 0 ≤ tap.1 → tap.1 ≤ 1 → 0 ≤ tap.2 → tap.2 ≤ 1 → samplerAddress tap = tap) ∧
    (0 < P.cropScale.1 → 0 < P.cropScale.2 →
      0 ≤ P.cropOffset.1 → P.cropOffset.1 + P.cropScale.1 ≤ 1 →
      0 ≤ P.cropOffset.2 → P.cropOffset.2 + P.cropScale.2 ≤ 1 →
      ((EyeMapping P gid).localX = 0 →
        (P.insideCrop (samplerAddress (depthRawTaps P gid).2.1) ↔ P.cropOffset.1 = 0)) ∧
      ((EyeMapping P gid).localX + 1 = (EyeMapping P gid).viewW →
        (P.insideCrop (samplerAddress (depthRawTaps P gid).2.2.1) ↔
          P.cropOffset.1 + P.cropScale.1 = 1)) ∧
      (gid.2 = 0 →
        (P.insideCrop (samplerAddress (depthRawTaps P gid).2.2.2.1) ↔ P.cropOffset.2 = 0)) ∧
      (gid.2 + 1 = P.outHeight →
        (P.insideCrop (samplerAddress (depthRawTaps P gid).2.2.2.2) ↔
          P.cropOffset.2 + P.cropScale.2 = 1))) := by
  obtain ⟨⟨p1, p2⟩, c1, c2, s1, s2, a1, a2, a3, a4⟩ := depthRawTaps_centre P gid hx hy hsx hsy
  obtain ⟨o1, o2, o3, o4⟩ := depthRawTaps_offsets P gid
  have hv := EyeMapping_viewW_pos P gid hx
  have hl := EyeMapping_localX_lt P gid hx
  have hvq : (0 : ℚ) < ((EyeMapping P gid).viewW : ℚ) := by exact_mod_cast hv
  have hhq : (0 : ℚ) < (P.outHeight : ℚ) := by
    have : 0 < P.outHeight := by omega
    exact_mod_cast this
  have eR : (EyeMapping P gid).localX + 1 = (EyeMapping P gid).viewW →
      ((depthRawTaps P gid).2.2.1).1 =
        P.cropOffset.1 + P.cropScale.1 + (depthRawStep P gid).1 / 2 := by
    intro h
    have hq : ((EyeMapping P gid).localX : ℚ) + 1 = ((EyeMapping P gid).viewW : ℚ) := by
      exact_mod_cast h
    rw [o2]
    simp only []
    rw [c1, ← s1, ← hq]
    ring
  have eL : (EyeMapping P gid).localX = 0 →
      ((depthRawTaps P gid).2.1).1 = P.cropOffset.1 - (depthRawStep P gid).1 / 2 := by
    intro h0
    rw [o1]
    simp only []
    rw [c1, h0]
    push_cast
    ring
  have eU : gid.2 = 0 →
      ((depthRawTaps P gid).2.2.2.1).2 = P.cropOffset.2 - (depthRawStep P gid).2 / 2 := by
    intro h0
    rw [o3]
    simp only []
    rw [c2, h0]
    push_cast
    ring
  have eD : gid.2 + 1 = P.outHeight →
      ((depthRawTaps P gid).2.2.2.2).2 =
        P.cropOffset.2 + P.cropScale.2 + (depthRawStep P gid).2 / 2 := by
    intro h
    have hq : (gid.2 : ℚ) + 1 = (P.outHeight : ℚ) := by exact_mod_cast h
    rw [o4]
    simp only []
    rw [c2, ← s2, ← hq]
    ring
  have yL : ((depthRawTaps P gid).2.1).2 = (depthRawTaps P gid).1.2 := by rw [o1]
  have yR : ((depthRawTaps P gid).2.2.1).2 = (depthRawTaps P gid).1.2 := by rw [o2]
  have xU : ((depthRawTaps P gid).2.2.2.1).1 = (depthRawTaps P gid).1.1 := by rw [o3]
  have xD : ((depthRawTaps P gid).2.2.2.2).1 = (depthRawTaps P gid).1.1 := by rw [o4]
  refine ⟨⟨a1, a2, a3, a4⟩, ⟨o1, o2, o3, o4⟩, ?_, fun tap _ => samplerAddress_mem tap,
    ⟨eL, eR, eU, eD⟩, ⟨?_, ?_, ?_, ?_, ?_⟩, ?_, ?_⟩
  · intro tap htap
    simp only [depthRawTapList, List.mem_cons, List.mem_singleton, List.mem_nil_iff,
      or_false] at htap
    rcases htap with h | h | h | h | h
    · rw [h]
      refine ⟨?_, ?_, ?_, ?_⟩ <;> linarith
    · rw [h, o1]
      refine ⟨?_, ?_, ?_, ?_⟩ <;> simp only [] <;> linarith
    · rw [h, o2]
      refine ⟨?_, ?_, ?_, ?_⟩ <;> simp only [] <;> linarith
    · rw [h, o3]
      refine ⟨?_, ?_, ?_, ?_⟩ <;> simp only [] <;> linarith
    · rw [h, o4]
      refine ⟨?_, ?_, ?_, ?_⟩ <;> simp only [] <;> linarith
  · exact ⟨by linarith, by linarith, by linarith, by linarith⟩
  · intro hne
    have h1 : (1 : ℚ) ≤ ((EyeMapping P gid).localX : ℚ) := by
      have : 1 ≤ (EyeMapping P gid).localX := by omega
      exact_mod_cast this
    unfold CSParams.insideCrop
    rw [o1]
    simp only []
    exact ⟨tap_interior_low _ _ _ _ c1 p1 h1, by linarith, by linarith, by linarith⟩
  · intro hne
    have h1 : ((EyeMapping P gid).localX : ℚ) + 2 ≤ ((EyeMapping P gid).viewW : ℚ) := by
      have : (EyeMapping P gid).localX + 2 ≤ (EyeMapping P gid).viewW := by omega
      exact_mod_cast this
    unfold CSParams.insideCrop
    rw [o2]
    simp only []
    exact ⟨by linarith, tap_interior_high _ _ _ _ _ _ c1 s1 p1 h1, by linarith, by linarith⟩
  · intro hne
    have h1 : (1 : ℚ) ≤ (gid.2 : ℚ) := by
      have : 1 ≤ gid.2 := by omega
      exact_mod_cast this
    unfold CSParams.insideCrop
    rw [o3]
    simp only []
    exact ⟨by linarith, by linarith, tap_interior_low _ _ _ _ c2 p2 h1, by linarith⟩
  · intro hne
    have h1 : (gid.2 : ℚ) + 2 ≤ (P.outHeight : ℚ) := by
      have : gid.2 + 2 ≤ P.outHeight := by omega
      exact_mod_cast this
    unfold CSParams.insideCrop
    rw [o4]
    simp only []
    exact ⟨by linarith, by linarith, by linarith, tap_interior_high _ _ _ _ _ _ c2 s2 p2 h1⟩
  · intro tap h0 h1 h2 h3
    unfold samplerAddress
    rw [clamp01_id _ h0 h1, clamp01_id _ h2 h3]
  · intro hpx hpy hox0 hox1 hoy0 hoy1
    have q1 : 0 < (depthRawStep P gid).1 := by
      unfold depthRawStep
      exact div_pos hpx (by
        have : 0 < max 1 (EyeMapping P gid).viewW := by omega
        exact_mod_cast this)
    have q2 : 0 < (depthRawStep P gid).2 := by
      unfold depthRawStep
      exact div_pos hpy (by
        have : 0 < max 1 P.outHeight := by omega
        exact_mod_cast this)
    have cy : max 0 (min (depthRawTaps P gid).1.2 1) = (depthRawTaps P gid).1.2 :=
      clamp01_id _ (by linarith) (by linarith)
    have cx : max 0 (min (depthRawTaps P gid).1.1 1) = (depthRawTaps P gid).1.1 :=
      clamp01_id _ (by linarith) (by linarith)
    have iy : P.cropOffset.2 ≤ (depthRawTaps P gid).1.2 ∧
        (depthRawTaps P gid).1.2 ≤ P.cropOffset.2 + P.cropScale.2 :=
      ⟨by linarith, by linarith⟩
    have ix : P.cropOffset.1 ≤ (depthRawTaps P gid).1.1 ∧
        (depthRawTaps P gid).1.1 ≤ P.cropOffset.1 + P.cropScale.1 :=
      ⟨by linarith, by linarith⟩
    refine ⟨fun h => ?_, fun h => ?_, fun h => ?_, fun h => ?_⟩
    · have hb := clamp01_below ((depthRawTaps P gid).2.1).1 P.cropOffset.1
        (P.cropOffset.1 + P.cropScale.1) hox0 hox1 (by rw [eL h]; linarith) (by linarith)
      unfold CSParams.insideCrop samplerAddress
      simp only []
      rw [yL, cy, ← hb]
      constructor
      · rintro ⟨h1, h2, _, _⟩
        exact ⟨h1, h2⟩
      · rintro ⟨h1, h2⟩
        exact ⟨h1, h2, iy.1, iy.2⟩
    · have hb := clamp01_above ((depthRawTaps P gid).2.2.1).1 P.cropOffset.1
        (P.cropOffset.1 + P.cropScale.1) hox0 hox1 (by rw [eR h]; linarith) (by linarith)
      unfold CSParams.insideCrop samplerAddress
      simp only []
      rw [yR, cy, ← hb]
      constructor
      · rintro ⟨h1, h2, _, _⟩
        exact ⟨h1, h2⟩
      · rintro ⟨h1, h2⟩
        exact ⟨h1, h2, iy.1, iy.2⟩
    · have hb := clamp01_below ((depthRawTaps P gid).2.2.2.1).2 P.cropOffset.2
        (P.cropOffset.2 + P.cropScale.2) hoy0 hoy1 (by rw [eU h]; linarith) (by linarith)
      unfold CSParams.insideCrop samplerAddress
      simp only []
      rw [xU, cx, ← hb]
      constructor
      · rintro ⟨_, _, h1, h2⟩
        exact ⟨h1, h2⟩
      · rintro ⟨h1, h2⟩
        exact ⟨ix.1, ix.2, h1, h2⟩
    · have hb := clamp01_above ((depthRawTaps P gid).2.2.2.2).2 P.cropOffset.2
        (P.cropOffset.2 + P.cropScale.2) hoy0 hoy1 (by rw [eD h]; linarith) (by linarith)
      unfold CSParams.insideCrop samplerAddress
      simp only []
      rw [xD, cx, ← hb]
      constructor
      · rintro ⟨_, _, h1, h2⟩
        exact ⟨h1, h2⟩
      · rintro ⟨h1, h2⟩
        exact ⟨ix.1, ix.2, h1, h2⟩

/-- Witness for C24: crop `[1/4, 3/4] x [0, 1]`, pixel `(0, 0)` of a 4x2 output: the left tap
is half a step left of the crop rectangle and is read there (outside the crop, since
`cropOffset.x` is not 0), the upper tap is read at the upper texture edge, which is the upper
side of the crop. -/
theorem C24_tap_positions_witness :
    ((depthRawTaps ⟨4, 2, 2, 0, 0, 0, (1 / 4, 0), (1 / 2, 1)⟩ (0, 0)).2.1).1 =
      (1 / 4 : ℚ) - (depthRawStep ⟨4, 2, 2, 0, 0, 0, (1 / 4, 0), (1 / 2, 1)⟩ (0, 0)).1 / 2 ∧
    (CSParams.insideCrop ⟨4, 2, 2, 0, 0, 0, (1 / 4, 0), (1 / 2, 1)⟩
        (samplerAddress (depthRawTaps ⟨4, 2, 2, 0, 0, 0, (1 / 4, 0), (1 / 2, 1)⟩ (0, 0)).2.1) ↔
      (1 / 4 : ℚ) = 0) ∧
    (CSParams.insideCrop ⟨4, 2, 2, 0, 0, 0, (1 / 4, 0), (1 / 2, 1)⟩
        (samplerAddress (depthRawTaps ⟨4, 2, 2, 0, 0, 0, (1 / 4, 0), (1 / 2, 1)⟩ (0, 0)).2.2.2.1) ↔
      (0 : ℚ) = 0) :=
  have h := C24_tap_positions ⟨4, 2, 2, 0, 0, 0, (1 / 4, 0), (1 / 2, 1)⟩ (0, 0) (by decide) (by decide)
    (by norm_num) (by norm_num)
  have g := h.2.2.2.2.2.2.2 (by norm_num) (by norm_num) (by norm_num) (by norm_num)
    (by norm_num) (by norm_num)
  ⟨h.2.2.2.2.1.1 rfl, g.1 rfl, g.2.2.1 rfl⟩

/-! ### C26: a failed allocation of the depth pipeline -/

theorem ensure_alloc_failure (apiOk : Nat → Bool) (s : Renderer) (outW outH : Nat)
    (hdev : s.device_ = true) (hw : outW ≠ 0) (hh : outH ≠ 0)
    (hex : s.okExisting outW outH = false) (hfail : ∃ k, k < 15 ∧ apiOk k = false) :
    (s.EnsureDepthStereoResources apiOk outW outH).depthViewsReady = false ∧
    (s.EnsureDepthStereoResources apiOk outW outH).depthOutW_ = 0 ∧
    (s.EnsureDepthStereoResources apiOk outW outH).depthOutH_ = 0 := by
  cases h0 : apiOk 0
  · simp [Renderer.EnsureDepthStereoResources, hdev, hex, hw, hh, createDepthTex,
      Renderer.releaseDepthStereo, Renderer.depthViewsReady, setSlot_apply, h0]
  cases h1 : apiOk 1
  · simp [Renderer.EnsureDepthStereoResources, hdev, hex, hw, hh, createDepthTex,
      Renderer.releaseDepthStereo, Renderer.depthViewsReady, setSlot_apply, h0, h1]
  cases h2 : apiOk 2
  · simp [Renderer.EnsureDepthStereoResources, hdev, hex, hw, hh, createDepthTex,
      Renderer.releaseDepthStereo, Renderer.depthViewsReady, setSlot_apply, h0, h1, h2]
  cases h3 : apiOk 3
  · simp [Renderer.EnsureDepthStereoResources, hdev, hex, hw, hh, createDepthTex,
      Renderer.releaseDepthStereo, Renderer.depthViewsReady, setSlot_apply, h0, h1, h2, h3]
  cases h4 : apiOk 4
  · simp [Renderer.EnsureDepthStereoResources, hdev, hex, hw, hh, createDepthTex,
      Renderer.releaseDepthStereo, Renderer.depthViewsReady, setSlot_apply, h0, h1, h2, h3, h4]
  cases h5 : apiOk 5
  · simp [Renderer.EnsureDepthStereoResources, hdev, hex, hw, hh, createDepthTex,
      Renderer.releaseDepthStereo, Renderer.depthViewsReady, setSlot_apply, h0, h1, h2, h3, h4, h5]
  cases h6 : apiOk 6
  · simp [Renderer.EnsureDepthStereoResources, hdev, hex, hw, hh, createDepthTex,
      Renderer.releaseDepthStereo, Renderer.depthViewsReady, setSlot_apply, h0, h1, h2, h3, h4, h5, h6]
  cases h7 : apiOk 7
  · simp [Renderer.EnsureDepthStereoResources, hdev, hex, hw, hh, createDepthTex,
      Renderer.releaseDepthStereo, Renderer.depthViewsReady, setSlot_apply, h0, h1, h2, h3, h4, h5, h6, h7]
  cases h8 : apiOk 8
  · simp [Renderer.EnsureDepthStereoResources, hdev, hex, hw, hh, createDepthTex,
      Renderer.releaseDepthStereo, Renderer.depthViewsReady, setSlot_apply, h0, h1, h2, h3, h4, h5, h6, h7, h8]
  cases h9 : apiOk 9
  · simp [Renderer.EnsureDepthStereoResources, hdev, hex, hw, hh, createDepthTex,
      Renderer.releaseDepthStereo, Renderer.depthViewsReady, setSlot_apply, h0, h1, h2, h3, h4, h5, h6, h7, h8, h9]
  cases h10 : apiOk 10
  · simp [Renderer.EnsureDepthStereoResources, hdev, hex, hw, hh, createDepthTex,
      Renderer.releaseDepthStereo, Renderer.depthViewsReady, setSlot_apply, h0, h1, h2, h3, h4, h5, h6, h7, h8, h9, h10]
  cases h11 : apiOk 11
  · simp [Renderer.EnsureDepthStereoResources, hdev, hex, hw, hh, createDepthTex,
      Renderer.releaseDepthStereo, Renderer.depthViewsReady, setSlot_apply, h0, h1, h2, h3, h4, h5, h6, h7, h8, h9, h10, h11]
  cases h12 : apiOk 12
  · simp [Renderer.EnsureDepthStereoResources, hdev, hex, hw, hh, createDepthTex,
      Renderer.releaseDepthStereo, Renderer.depthViewsReady, setSlot_apply, h0, h1, h2, h3, h4, h5, h6, h7, h8, h9, h10, h11, h12]
  cases h13 : apiOk 13
  · simp [Renderer.EnsureDepthStereoResources, hdev, hex, hw, hh, createDepthTex,
      Renderer.releaseDepthStereo, Renderer.depthViewsReady, setSlot_apply, h0, h1, h2, h3, h4, h5, h6, h7, h8, h9, h10, h11, h12, h13]
  cases h14 : apiOk 14
  · simp [Renderer.EnsureDepthStereoResources, hdev, hex, hw, hh, createDepthTex,
      Renderer.releaseDepthStereo, Renderer.depthViewsReady, setSlot_apply, h0, h1, h2, h3, h4, h5, h6, h7, h8, h9, h10, h11, h12, h13, h14]
  obtain ⟨k, hk, hf⟩ := hfail
  interval_cases k <;> simp_all

theorem ensure_alloc_ready (s : Renderer) (outW outH : Nat)
    (hdev : s.device_ = true) (hw : outW ≠ 0) (hh : outH ≠ 0)
    (hex : s.okExisting outW outH = false) :
    (s.EnsureDepthStereoResources (fun _ => true) outW outH).depthViewsReady = true ∧
    (s.EnsureDepthStereoResources (fun _ => true) outW outH).depthOutW_ = outW ∧
    (s.EnsureDepthStereoResources (fun _ => true) outW outH).depthOutH_ = outH := by
  cases hc : s.context_ <;>
    simp [Renderer.EnsureDepthStereoResources, hdev, hex, hw, hh, createDepthTex,
      Renderer.releaseDepthStereo, Renderer.depthViewsReady, setSlot_apply, hc]

theorem okExisting_ready (s : Renderer) (w h : Nat) (hr : s.depthViewsReady = false) :
    s.okExisting w h = false := by
  cases hex : s.okExisting w h
  · rfl
  · unfold Renderer.okExisting at hex
    unfold Renderer.depthViewsReady at hr
    simp only [Bool.and_eq_true] at hex
    obtain ⟨⟨⟨⟨⟨⟨⟨⟨⟨⟨⟨⟨⟨⟨⟨⟨_, a1⟩, a2⟩, _⟩, a3⟩, a4⟩, _⟩, a5⟩, a6⟩, _⟩, a7⟩, a8⟩, _⟩, a9⟩, a10⟩, _⟩, _⟩ := hex
    simp [a1, a2, a3, a4, a5, a6, a7, a8, a9, a10] at hr


theorem ensure_device (apiOk : Nat → Bool) (s : Renderer) (outW outH : Nat) :
    (s.EnsureDepthStereoResources apiOk outW outH).device_ = s.device_ := by
  have h := congrArg Renderer.device_ (ensure_frame apiOk s outW outH)
  exact h

theorem ensure_stereoEnabled (apiOk : Nat → Bool) (s : Renderer) (outW outH : Nat) :
    (s.EnsureDepthStereoResources apiOk outW outH).stereoEnabled_ = s.stereoEnabled_ := by
  have h := congrArg Renderer.stereoEnabled_ (ensure_frame apiOk s outW outH)
  exact h

theorem renderDepthBlock_not_ready (cs : ComputeShaders) (apiOk : Nat → Bool) (mapOk : Bool)
    (stale : CSParams) (srcTex : Float2 → Float4) (computeW computeH : Nat)
    (presentingDownscaled : Bool) (s : Renderer)
    (h : (s.EnsureDepthStereoResources apiOk computeW computeH).depthViewsReady = false) :
    s.renderDepthBlock cs apiOk mapOk stale srcTex computeW computeH presentingDownscaled =
      s.EnsureDepthStereoResources apiOk computeW computeH := by
  unfold Renderer.renderDepthBlock
  simp only [h, Bool.false_eq_true, if_false]

/-- C26: when a call of `Render` enters the depth pipeline, `EnsureDepthStereoResources`
takes its allocation path (device present, non-zero size, no matching set of resources) and
one of its 15 creation calls fails, then `Render` issues no compute dispatch and presents
through the two per-eye draws (eye signs -1 and +1) of the texture it had, the renderer is
left as `EnsureDepthStereoResources` left it with the recorded size `(0, 0)`, no size
matches its resources any more, and a following `EnsureDepthStereoResources` whose creation
calls all succeed builds the complete set of views again and records the size. -/
theorem C26_alloc_failure (env : RenderEnv) (s : Renderer) (srcTex : Option Frame)
    (hg : s.context_ = true ∧ s.rtv_ = true ∧ s.swapChain_ = true)
    (hwant : (s.beforeDepth env srcTex).depthPipelineWanted (s.viewToPresent env srcTex) = true)
    (hdev : (s.beforeDepth env srcTex).device_ = true)
    (hsize : (s.depthComputeSize env srcTex).1 ≠ 0 ∧ (s.depthComputeSize env srcTex).2 ≠ 0)
    (hex : (s.beforeDepth env srcTex).okExisting (s.depthComputeSize env srcTex).1
      (s.depthComputeSize env srcTex).2 = false)
    (hfail : ∃ k, k < 15 ∧ env.depthOk k = false) :
    dispatchedPasses (s.Render env srcTex).2 = [] ∧
    (∃ l r, backbufferDraws (s.Render env srcTex).2 = [l, r] ∧ l.eyeSign = -1 ∧ r.eyeSign = 1 ∧
      some l.srv = s.viewToPresent env srcTex ∧ some r.srv = s.viewToPresent env srcTex) ∧
    (s.Render env srcTex).1 =
      (s.beforeDepth env srcTex).EnsureDepthStereoResources env.depthOk
        (s.depthComputeSize env srcTex).1 (s.depthComputeSize env srcTex).2 ∧
    (s.Render env srcTex).1.depthOutW_ = 0 ∧ (s.Render env srcTex).1.depthOutH_ = 0 ∧
    (∀ w h, (s.Render env srcTex).1.okExisting w h = false) ∧
    (∀ w h, w ≠ 0 → h ≠ 0 →
      ((s.Render env srcTex).1.EnsureDepthStereoResources (fun _ => true) w h).depthViewsReady
          = true ∧
        ((s.Render env srcTex).1.EnsureDepthStereoResources (fun _ => true) w h).depthOutW_ = w ∧
        ((s.Render env srcTex).1.EnsureDepthStereoResources (fun _ => true) w h).depthOutH_
          = h) := by
  have hguard : (!s.context_ || !s.rtv_ || !s.swapChain_) = false := by
    simp [hg.1, hg.2.1, hg.2.2]
  obtain ⟨hnr, hw0, hh0⟩ := ensure_alloc_failure env.depthOk (s.beforeDepth env srcTex)
    (s.depthComputeSize env srcTex).1 (s.depthComputeSize env srcTex).2 hdev hsize.1 hsize.2
    hex hfail
  have hpre := prepass_cmds env (s.updateSourceCopy env srcTex)
  have hR : s.Render env srcTex =
      ((s.beforeDepth env srcTex).EnsureDepthStereoResources env.depthOk
          (s.depthComputeSize env srcTex).1 (s.depthComputeSize env srcTex).2,
        ((s.updateSourceCopy env srcTex).downscalePrepass env).cmds ++
          ((s.beforeDepth env srcTex).EnsureDepthStereoResources env.depthOk
            (s.depthComputeSize env srcTex).1 (s.depthComputeSize env srcTex).2).finalDraws env
            (s.viewToPresent env srcTex)
            (decide (s.viewToPresent env srcTex = some PresentSrc.Downscaled)) false) := by
    unfold Renderer.depthComputeSize Renderer.beforeDepth Renderer.viewToPresent at *
    unfold Renderer.Render
    simp only [hguard, Bool.false_eq_true, if_false, hwant, if_true, hnr]
    rw [renderDepthBlock_not_ready _ _ _ _ _ _ _ _ _ hnr]
  have hst : ((s.beforeDepth env srcTex).EnsureDepthStereoResources env.depthOk
      (s.depthComputeSize env srcTex).1 (s.depthComputeSize env srcTex).2).stereoEnabled_ =
      true := by
    rw [ensure_stereoEnabled]
    unfold Renderer.depthPipelineWanted at hwant
    simp only [Bool.and_eq_true] at hwant
    exact hwant.1.1.1.1.1.1
  have hview : ∃ v, s.viewToPresent env srcTex = some v := by
    unfold Renderer.depthPipelineWanted at hwant
    simp only [Bool.and_eq_true] at hwant
    exact Option.isSome_iff_exists.mp hwant.1.1.1.1.1.2
  obtain ⟨v, hv⟩ := hview
  obtain ⟨l, r, hd, hl, hr, h1, h2, _, _, _, _, _, _, h11, h12, _⟩ :=
    finalDraws_pair env ((s.beforeDepth env srcTex).EnsureDepthStereoResources env.depthOk
      (s.depthComputeSize env srcTex).1 (s.depthComputeSize env srcTex).2) v
      (decide (some v = some PresentSrc.Downscaled)) hst
  have hdevE : ((s.beforeDepth env srcTex).EnsureDepthStereoResources env.depthOk
      (s.depthComputeSize env srcTex).1 (s.depthComputeSize env srcTex).2).device_ = true := by
    rw [ensure_device]
    exact hdev
  rw [hR]
  simp only []
  rw [hv, hd]
  refine ⟨?_, ⟨l, r, ?_, h11, h12, by rw [h1], by rw [h2]⟩, trivial, hw0, hh0,
    fun w h => okExisting_ready _ w h hnr, fun w h hw hh => ?_⟩
  · simp [dispatchedPasses_append, hpre.1, dispatchedPasses]
  · simp [backbufferDraws_append, hpre.2, backbufferDraws, hl, hr]
  · exact ensure_alloc_ready _ w h hdevE hw hh (okExisting_ready _ w h hnr)

/-- Witness for C26: a white 4x1 frame with stereo enabled, the creation of the stereo output
SRV (call 13) fails. -/
theorem C26_alloc_failure_witness :
    dispatchedPasses
        (Renderer.stereoLevel1.Render (RenderEnv.depthFailAt ComputeShaders.idle 8 1 13)
          (some whiteFrame)).2 = [] ∧
    (Renderer.stereoLevel1.Render (RenderEnv.depthFailAt ComputeShaders.idle 8 1 13)
      (some whiteFrame)).1.depthOutW_ = 0 ∧
    (Renderer.stereoLevel1.Render (RenderEnv.depthFailAt ComputeShaders.idle 8 1 13)
      (some whiteFrame)).1.depthOutH_ = 0 := by
  have h := C26_alloc_failure (RenderEnv.depthFailAt ComputeShaders.idle 8 1 13) Renderer.stereoLevel1
    (some whiteFrame) ⟨rfl, rfl, rfl⟩ rfl rfl ⟨by decide!, by decide!⟩ rfl
    ⟨13, by decide, rfl⟩
  exact ⟨h.1, h.2.2.2.1, h.2.2.2.2.1⟩

end ArinCapture3D
